import Mathlib

/-! thingino-cloner: DDR configuration compiler.

A shallow embedding of the DDR configuration compiler of thingino-cloner
(`src/ddr/crc32.c`, `src/ddr/ddr_controller.c`, `src/ddr/ddr_ctrl_txx.c`,
`src/ddr/ddr_generator.c`, `src/firmware/loader.c`, `src/test_binary_builder.c`)
together with theorems about it.

Conventions of the embedding:

* a `uint8_t` buffer is a `List Nat` of bytes; a `uint32_t` is a `Nat` reduced
  `% 2 ^ 32` wherever the C arithmetic can wrap, a `uint8_t` is reduced `% 256`;
* 32-bit words are stored little-endian (the generator's own comment on
  `rdd_sig` fixes that byte order);
* a pointer that the C code tests against `NULL` is an `Option`;
* a function that can divide by zero returns an `Option`, `none` being the
  division by zero;
* `printf` calls have no effect on the data and are left out, except the
  `[DIFF]` lines of `ddr_test_against_reference`, which are its report and are
  returned as a list.
-/

namespace Thingino

/-! ## Byte buffers -/

/-- Read of one byte, `buf[i]`. -/
def rd8 (buf : List Nat) (i : Nat) : Nat := buf.getD i 0

/-- Store of one byte, `buf[i] = (uint8_t)v`. -/
def wr8 (buf : List Nat) (i v : Nat) : List Nat := buf.set i (v % 256)

/-- Read of a little-endian 32-bit word, `*(uint32_t *)(buf + off)`. -/
def rd32 (buf : List Nat) (off : Nat) : Nat :=
  rd8 buf off + 256 * rd8 buf (off + 1) + 65536 * rd8 buf (off + 2)
    + 16777216 * rd8 buf (off + 3)

/-- Store of a little-endian 32-bit word, `*(uint32_t *)(buf + off) = v`. -/
def wr32 (buf : List Nat) (off v : Nat) : List Nat :=
  wr8 (wr8 (wr8 (wr8 buf off v) (off + 1) (v / 256)) (off + 2) (v / 65536))
    (off + 3) (v / 16777216)

/-- The C library call `memset(buf + off, 0, n)`. -/
def memset0 (buf : List Nat) (off n : Nat) : List Nat :=
  (List.range n).foldl (fun b k => wr8 b (off + k) 0) buf

/-! ## Checksum engine (`src/ddr/crc32.c`) -/

/-- The two file-scope statics of `crc32.c`. -/
structure crc32_state where
  crc32_table : List Nat
  crc32_table_ready : Bool
deriving DecidableEq

/-- The statics as the C runtime initialises them: a zeroed table, not ready. -/
def crc32_state_init : crc32_state :=
  { crc32_table := List.replicate 256 0, crc32_table_ready := false }

/-- One pass of the inner `j` loop of `crc32_init_table`:
`if (crc & 1U) crc = (crc >> 1) ^ 0xEDB88320U; else crc >>= 1;`. -/
def crc32_shift (crc : Nat) : Nat :=
  if crc &&& 1 ≠ 0 then (crc >>> 1) ^^^ 0xEDB88320 else crc >>> 1

/-- The value `crc32_init_table` stores at index `i`: eight passes of the inner
loop starting from `crc = i`. -/
def crc32_table_entry (i : Nat) : Nat := Nat.iterate crc32_shift 8 i

/-- Function `crc32_init_table`: the outer loop over `i < 256` stores each entry, then the
ready flag is set. -/
def crc32_init_table (s : crc32_state) : crc32_state :=
  { crc32_table :=
      (List.range 256).foldl (fun t i => t.set i (crc32_table_entry i)) s.crc32_table,
    crc32_table_ready := true }

/-- One pass of the byte loop of `thingino_crc32`:
`index = (uint8_t)((crc ^ data[i]) & 0xFFU); crc = (crc >> 8) ^ crc32_table[index];`. -/
def crc32_byte (table : List Nat) (crc b : Nat) : Nat :=
  let index := ((crc ^^^ b) &&& 0xFF) % 256
  (crc >>> 8) ^^^ table.getD index 0

/-- Function `thingino_crc32(data, length)`: returns the checksum and the statics after
the call. `data = none` is the null pointer. -/
def thingino_crc32 (s : crc32_state) (data : Option (List Nat)) (length : Nat) :
    Nat × crc32_state :=
  let s1 := if s.crc32_table_ready then s else crc32_init_table s
  match data with
  | none => (0, s1)
  | some bytes =>
    if length = 0 then (0, s1)
    else
      let crc := (List.range length).foldl
        (fun crc i => crc32_byte s1.crc32_table crc (rd8 bytes i)) 0xFFFFFFFF
      (crc ^^^ 0xFFFFFFFF, s1)

/-- The states the statics can be in: the table has its 256 slots, and once the
ready flag is set the table is the one `crc32_init_table` builds. -/
def crc32_state_ok (s : crc32_state) : Prop :=
  s.crc32_table.length = 256 ∧
    (s.crc32_table_ready = true →
      s.crc32_table = (crc32_init_table crc32_state_init).crc32_table)

/-- Reference CRC-32, one bit: shift right, and apply the reflected polynomial
`0xEDB88320` when the bit shifted out is set. -/
def crc32_reference_bit (crc : Nat) : Nat :=
  (crc / 2) ^^^ (if crc % 2 = 1 then 0xEDB88320 else 0)

/-- Reference CRC-32, one byte: fold the byte into the register, then process
eight bits. -/
def crc32_reference_byte (crc b : Nat) : Nat :=
  Nat.iterate crc32_reference_bit 8 (crc ^^^ b)

/-- Reference bit-by-bit CRC-32: initial value `0xFFFFFFFF`, final XOR
`0xFFFFFFFF`. -/
def crc32_reference (bytes : List Nat) : Nat :=
  bytes.foldl crc32_reference_byte 0xFFFFFFFF ^^^ 0xFFFFFFFF


/-! ## Cycle converter (`src/test_binary_builder.c`, `src/ddr/ddr_ctrl_txx.c`) -/

/-- Function `static uint8_t ps2cycle_ceil(uint32_t ps, uint32_t ps_per_tck)`:
`if (ps == 0) return 0; return (ps + ps_per_tck - 1) / ps_per_tck;`.
The sum is a `uint32_t` (it wraps at `2 ^ 32`) and the return type is `uint8_t`
(the quotient is reduced modulo 256). A zero `ps_per_tck` is a division by zero
in C; the theorems below all take a positive period. -/
def ps2cycle_ceil (ps ps_per_tck : Nat) : Nat :=
  if ps = 0 then 0
  else (((ps + ps_per_tck + 2 ^ 32 - 1) % 2 ^ 32) / ps_per_tck) % 256

/-- The macro `PS2CYCLE_DIV(ps, div)` of `ddr_generate_ddrc_timing_txx_ddr2`:
`(((ps) + (clock_period_ps * (div)) - 1) / (clock_period_ps * (div)))`, all in
`uint32_t`. -/
def PS2CYCLE_DIV (clock_period_ps ps div : Nat) : Nat :=
  ((ps + (clock_period_ps * div) % 2 ^ 32 + 2 ^ 32 - 1) % 2 ^ 32)
    / ((clock_period_ps * div) % 2 ^ 32)

/-- The macro `PS2CYCLE(ps)`, that is `PS2CYCLE_DIV(ps, 1)`. -/
def PS2CYCLE (clock_period_ps ps : Nat) : Nat := PS2CYCLE_DIV clock_period_ps ps 1

/-- The refresh-cycle expression of `main` in `test_binary_builder.c`,
`((127500 + 2 * ps_per_tck - 1) / ps_per_tck) / 2`, with the duration literal
`127500` as the parameter `ps`; the arithmetic is `uint32_t`. -/
def tRFC_halved (ps ps_per_tck : Nat) : Nat :=
  ((ps + 2 * ps_per_tck + 2 ^ 32 - 1) % 2 ^ 32) / ps_per_tck / 2

/-- The assignment `params.tRFC = ((127500 + 2 * ps_per_tck - 1) / ps_per_tck) / 2`:
the field is a `uint8_t`, so the low eight bits of the expression are stored. -/
def params_tRFC (ps ps_per_tck : Nat) : Nat := tRFC_halved ps ps_per_tck % 256

/-- Ceiling of the quotient `duration / period`, as the specification writes
it: the least integer not below the exact quotient. -/
def ceil_div (duration period : Nat) : Nat := ⌈(duration : ℚ) / (period : ℚ)⌉₊

/-- The specification's halved-ceiling conversion,
`ceil(duration_ps / (2 * period_ps)) / 2` with integer division. -/
def ps_to_cycles_ceil_halved (duration_ps period_ps : Nat) : Nat :=
  ceil_div duration_ps (2 * period_ps) / 2

/-! ## Configuration (`src/ddr/ddr_types.h`) -/

/-- Structure `ddr_config_t`: every field is a 32-bit value. -/
structure ddr_config_t where
  type : Nat
  clock_mhz : Nat
  cas_latency : Nat
  tRAS : Nat
  tRP : Nat
  tRCD : Nat
  tRC : Nat
  tWR : Nat
  tRRD : Nat
  tWTR : Nat
  tRFC : Nat
  tXP : Nat
  tCKE : Nat
  tRL : Nat
  tWL : Nat
  tREFI : Nat
  banks : Nat
  row_bits : Nat
  col_bits : Nat
  data_width : Nat
  total_size_bytes : Nat
deriving DecidableEq

/-- Enumerator `DDR_TYPE_DDR2` of `ddr_type_t`. -/
def DDR_TYPE_DDR2 : Nat := 0
/-- Enumerator `DDR_TYPE_DDR3` of `ddr_type_t`. -/
def DDR_TYPE_DDR3 : Nat := 1
/-- Enumerator `DDR_TYPE_LPDDR` of `ddr_type_t`. -/
def DDR_TYPE_LPDDR : Nat := 2
/-- Enumerator `DDR_TYPE_LPDDR2` of `ddr_type_t`. -/
def DDR_TYPE_LPDDR2 : Nat := 3
/-- Enumerator `DDR_TYPE_LPDDR3` of `ddr_type_t`. -/
def DDR_TYPE_LPDDR3 : Nat := 4

/-! ## Scratch object population (`src/ddr/ddr_controller.c`) -/

/-- The expression `1 << n` on `int`. C leaves a count of 32 or more undefined;
the model takes the count modulo 32, as the shift instructions of the host
processors do. -/
def shl1 (n : Nat) : Nat := 2 ^ (n % 32)

/-- Function `ddr_init_object_buffer(config, obj_buffer)`: the stores in source order.
`none` stands for the division by zero of `1000000 / config->clock_mhz` when
`clock_mhz` is zero. Products wrap at `2 ^ 32`. -/
def ddr_init_object_buffer (config : ddr_config_t) (obj_buffer : List Nat) :
    Option (List Nat) :=
  let b := wr32 obj_buffer 0x1a4 config.tWR
  let b := wr32 b 0x1c0 config.tWL
  let b := wr32 b 0x194 config.tRAS
  let b := wr32 b 0x19c config.tRCD
  let b := wr32 b 0x1bc config.tRL
  let b := wr32 b 0x198 config.tRP
  let b := wr32 b 0x1a8 config.tRRD
  let b := wr32 b 0x1a0 config.tRC
  let b := wr32 b 0x1b0 config.tRFC
  let b := wr32 b 0x1b8 config.tCKE
  let b := wr32 b 0x1b4 config.tXP
  let b := wr32 b 0x1c4 config.tREFI
  let b := wr32 b 0x26c config.clock_mhz
  let b := wr32 b 0x188 config.cas_latency
  let b := wr32 b 0x154 config.type
  if config.clock_mhz % 2 ^ 32 = 0 then none
  else
    let clock_period_ps := 1000000 / (config.clock_mhz % 2 ^ 32)
    let b := wr32 b 0x22c clock_period_ps
    let b := wr32 b 0x270 0
    let data_width := config.data_width
    let row_bits := config.row_bits
    let col_bits := config.col_bits
    let ddr_type := if config.type = DDR_TYPE_DDR2 then 4 else config.type
    let b := wr32 b (0x118 + 4 * 0) ddr_type
    let b := wr32 b (0x118 + 4 * 1) 0
    let b := wr32 b (0x118 + 4 * 2) 0
    let b := wr32 b (0x118 + 4 * 3) 1
    let b := wr32 b (0x118 + 4 * 4) 0
    let b := wr32 b (0x118 + 4 * 5) (if data_width = 32 then 1 else 0)
    let b := wr32 b (0x118 + 4 * 6) 0
    let b := wr32 b (0x118 + 4 * 7) 0
    let b := wr32 b (0x118 + 4 * 8) 8
    let b := wr32 b (0x118 + 4 * 9) (col_bits + 2 ^ 32 - 4)
    let b := wr32 b (0x118 + 4 * 10) (row_bits + 2 ^ 32 - 11)
    let b := wr32 b (0x118 + 4 * 0xb) (col_bits + 2 ^ 32 - 4)
    let b := wr32 b (0x118 + 4 * 0xc) (row_bits + 2 ^ 32 - 11)
    let b := wr32 b (0x118 + 4 * 0xd) 1
    let b := wr32 b (0x118 + 4 * 0xe) 0
    let b := wr32 b (0x118 + 4 * 0xf) 0
    let cs0_size_mb :=
      ((shl1 row_bits * shl1 col_bits * 8 * (data_width % 2 ^ 32 / 8)) % 2 ^ 32) / 1024 / 1024
    let cs1_size_mb := 0
    let b := wr32 b (0x118 + 4 * 0xe) cs0_size_mb
    let b := wr32 b (0x118 + 4 * 0xf) cs1_size_mb
    some b

/-! ## TXX controller registers (`src/ddr/ddr_ctrl_txx.c`) -/

/-- The lookup table `dmmap` of `ddr_generate_ddrc_txx_ddr2`; each row is
`(total_size_mb, cs1_size_bytes, cs0_map, cs1_map)`. -/
def dmmap : List (Nat × Nat × Nat × Nat) :=
  [ (128, 0, 0x00000000, 0x00000001),
    (256, 0, 0x00000000, 0x00000002),
    (512, 0, 0x00000000, 0x00000004),
    (256, 128 * 1024 * 1024, 0x00000001, 0x00000002) ]

/-- The table loop of `ddr_generate_ddrc_txx_ddr2`: the map words of the first
row with `(row[0] << 20) == total_size && row[1] == cs1_size`, if any. -/
def dmmap_lookup (total_size cs1_size : Nat) : Option (Nat × Nat) :=
  (dmmap.find? (fun e => ((e.1 <<< 20) % 2 ^ 32 == total_size) && (e.2.1 == cs1_size))).map
    (fun e => (e.2.2.1, e.2.2.2))

/-- Unary minus on a `uint32_t`. -/
def neg32 (x : Nat) : Nat := (2 ^ 32 - x % 2 ^ 32) % 2 ^ 32

/-- Bitwise complement `~x` on a `uint32_t`. -/
def not32 (x : Nat) : Nat := 2 ^ 32 - 1 - x % 2 ^ 32

/-- The fallback branch of `ddr_generate_ddrc_txx_ddr2` for a pair that is not
in `dmmap`; returns `(cs0_map, cs1_map)`. -/
def dmmap_fallback (cs0_size cs1_size total_size : Nat) : Nat × Nat :=
  if total_size < 0x20000001 then
    (0x2000 ||| (neg32 (cs0_size >>> 24) &&& 0xff),
     ((((cs0_size + 0x20000000) % 2 ^ 32) >>> 24) <<< 8) % 2 ^ 32
       ||| (neg32 (cs1_size >>> 24) &&& 0xff))
  else if cs1_size = 0 then
    (0, 0xff00 ||| (neg32 (((cs0_size * 2) % 2 ^ 32) >>> 24) &&& 0xff))
  else
    let mask := not32 (total_size >>> 24)
    (neg32 (cs1_size >>> 24) &&& 0xff &&& mask,
     (neg32 (cs0_size >>> 24) &&& 0xff &&& mask) ||| ((cs1_size >>> 24) <<< 8) % 2 ^ 32)

/-- The CTRL word of `ddr_generate_ddrc_txx_ddr2`: the OR of the eight
`DDRC_CTRL_*` flags. -/
def ddrc_ctrl : Nat :=
  (1 <<< 15) ||| (4 <<< 12) ||| (1 <<< 11) ||| (1 <<< 8) ||| (1 <<< 4) ||| (1 <<< 3)
    ||| (1 <<< 2) ||| (1 <<< 1)

/-- The section `Byte 0 (param_2[0] = obj[0x7c])` of `ddr_generate_ddrc_txx_ddr2`:
its three stores to `param_2[0]`, in order. -/
def txx_cfg_byte0 (b : List Nat) (param_2 cs1_en cs0_en bank_bits data_width : Nat) :
    List Nat :=
  let bVar3 := rd8 b (param_2 + 0)
  let bVar5 := (cs1_en <<< 7) % 256
  let bVar4 := ((cs0_en &&& 1) <<< 6) % 256
  let b := wr8 b (param_2 + 0) ((bVar3 &&& 3) ||| bVar5 ||| bVar4)
  let bVar6 := (((bank_bits % 256) &&& 1) * 2) % 256
  let b := wr8 b (param_2 + 0) ((bVar3 &&& 1) ||| bVar5 ||| bVar4 ||| bVar6)
  wr8 b (param_2 + 0) (bVar5 ||| bVar4 ||| bVar6 ||| ((data_width % 256) &&& 1))

/-- The section `Byte 1 (param_2[1] = obj[0x7d])` of `ddr_generate_ddrc_txx_ddr2`. -/
def txx_cfg_byte1 (b : List Nat) (param_2 cs0_en row0 col0 : Nat) : List Nat :=
  let bVar3 := rd8 b (param_2 + 1)
  let b := wr8 b (param_2 + 1) (bVar3 ||| 0x80)
  if cs0_en = 0 then
    wr8 b (param_2 + 1) ((bVar3 &&& 0xc0) ||| 0x80)
  else
    let bVar4 := (((row0 * 8 + 0x20) % 2 ^ 32) &&& 0x38) % 256
    let b := wr8 b (param_2 + 1) ((bVar3 &&& 199) ||| 0x80 ||| bVar4)
    wr8 b (param_2 + 1) ((bVar3 &&& 0xc0) ||| 0x80 ||| bVar4 ||| ((col0 % 256) &&& 7))

/-- The section `Byte 2 (param_2[2] = obj[0x7e])` of `ddr_generate_ddrc_txx_ddr2`,
up to the second read of `param_2[2]`: the bank, IMBA and burst-length stores. -/
def txx_cfg_byte2 (b : List Nat) (param_2 bank_bits burst_length : Nat) : List Nat :=
  let bVar10 := rd8 b (param_2 + 2)
  let bVar3 := (bank_bits <<< 7) % 256
  let b := wr8 b (param_2 + 2) ((bVar10 &&& 0x7f) ||| bVar3 ||| 0x40)
  wr8 b (param_2 + 2)
    ((bVar10 &&& 0x5f) ||| bVar3 ||| 0x40 ||| ((if burst_length = 8 then 1 else 0) <<< 5))

/-- The `TYPE` switch of `ddr_generate_ddrc_txx_ddr2`; `bVar10` is the value of
`param_2[2]` read just before it. -/
def txx_cfg_type (b : List Nat) (param_2 bVar10 ddr_type : Nat) : List Nat :=
  if ddr_type < 5 then
    if ddr_type = 0 then wr8 b (param_2 + 2) ((bVar10 &&& 0xf0) ||| 0xc)
    else if ddr_type = 1 then wr8 b (param_2 + 2) ((bVar10 &&& 0xf0) ||| 6)
    else if ddr_type = 4 then wr8 b (param_2 + 2) ((bVar10 &&& 0xf0) ||| 8)
    else wr8 b (param_2 + 2) ((bVar10 &&& 0xf0) ||| 10)
  else b

/-- The section `Byte 3 (param_2[3] = obj[0x7f])` of `ddr_generate_ddrc_txx_ddr2`;
`bVar10` still holds the value of `param_2[2]` read before the `TYPE` switch. -/
def txx_cfg_byte3 (b : List Nat) (param_2 bVar10 cs1_en row0 col0 row1 col1 : Nat) :
    List Nat :=
  if cs1_en = 0 then
    let bVar3 := (((row0 * 8 + 0x20) % 2 ^ 32) &&& 0x38) % 256
    let b := wr8 b (param_2 + 3) ((bVar10 &&& 199) ||| bVar3)
    wr8 b (param_2 + 3) ((bVar10 &&& 0xc0) ||| bVar3 ||| ((col0 % 256) &&& 7))
  else
    let bVar3 := (((row1 * 8 + 0x20) % 2 ^ 32) &&& 0x38) % 256
    let b := wr8 b (param_2 + 3) ((bVar10 &&& 199) ||| bVar3)
    wr8 b (param_2 + 3) ((bVar10 &&& 0xc0) ||| bVar3 ||| ((col1 % 256) &&& 7))

/-- The memory-map words `(cs0_map, cs1_map)` of `ddr_generate_ddrc_txx_ddr2`:
the table row if the lookup finds one, the fallback arithmetic otherwise. -/
def txx_mmap (cs0_size cs1_size : Nat) : Nat × Nat :=
  let total_size := (cs0_size + cs1_size) % 2 ^ 32
  match dmmap_lookup total_size cs1_size with
  | some m => m
  | none => dmmap_fallback cs0_size cs1_size total_size

/-- Function `ddr_generate_ddrc_txx_ddr2(config, obj_buffer)`: returns the
return code and the scratch object after the call. `ddrc_reg` and `param_2` are
`obj_buffer + 0x7c`, `param_3[k]` is the word at `obj_buffer + 0x118 + 4 * k`;
the ten parameters are read before the register area is cleared, the two
chip-select sizes after the CTRL store, as in the source. The body follows the
source section by section (`txx_cfg_byte0` to `txx_cfg_byte3`, the CTRL word,
the memory map); every store of the source is kept, in order, also the ones a
later store overwrites. -/
def ddr_generate_ddrc_txx_ddr2 (_config : ddr_config_t) (obj_buffer : List Nat) :
    Int × List Nat :=
  let ddrc_reg := 0x7c
  let param_3 := fun k => rd32 obj_buffer (0x118 + 4 * k)
  let ddr_type := param_3 0
  let cs0_en := param_3 3
  let cs1_en := param_3 4
  let data_width := param_3 5
  let burst_length := param_3 8
  let col0 := param_3 9
  let row0 := param_3 10
  let col1 := param_3 0xb
  let row1 := param_3 0xc
  let bank_bits := param_3 0xd
  let b := memset0 obj_buffer ddrc_reg 80
  let param_2 := ddrc_reg
  let b := txx_cfg_byte0 b param_2 cs1_en cs0_en bank_bits data_width
  let b := txx_cfg_byte1 b param_2 cs0_en row0 col0
  let b := txx_cfg_byte2 b param_2 bank_bits burst_length
  let bVar10 := rd8 b (param_2 + 2)
  let b := txx_cfg_type b param_2 bVar10 ddr_type
  let b := txx_cfg_byte3 b param_2 bVar10 cs1_en row0 col0 row1 col1
  let b := wr32 b (ddrc_reg + 4) ddrc_ctrl
  let cs0_size := rd32 b (0x118 + 4 * 0xe)
  let cs1_size := rd32 b (0x118 + 4 * 0xf)
  let maps := txx_mmap cs0_size cs1_size
  let b := wr32 b (ddrc_reg + 0x14) maps.1
  let b := wr32 b (ddrc_reg + 0x18) maps.2
  (0, b)

/-! ## Controller block (`src/ddr/ddr_controller.c`) -/

/-- The scratch offsets that `ddr_generate_ddrc_with_object` copies to output
words 0 to 30, in order (`ddrc_out[k] = obj[offset / 4]`). -/
def ddr_convert_param_offsets : List Nat :=
  [0x7c, 0x80, 0x8c, 0x84, 0x90, 0x94, 0x88, 0xac, 0xb0, 0xb4, 0xb8, 0xbc, 0xc0, 0xc4, 0xd0,
   0xd8, 0xdc, 0x1d4, 0x1dc, 0x1e4, 0x1e8, 0x1ec, 0x1f0, 0x1f4, 0x150, 0x154, 0x1c0, 0x1c4,
   0x1c8, 0x1cc, 0x1d0]

/-- The 31 word stores `ddrc_out[k] = obj[offset_k / 4]`, for `k` from 0 up;
`ddrc_regs` is the position of the controller block inside `mem`. -/
def ddr_convert_param (obj : List Nat) (mem : List Nat) (ddrc_regs : Nat) : List Nat :=
  (List.range 31).foldl
    (fun m k => wr32 m (ddrc_regs + 4 * k) (rd32 obj (ddr_convert_param_offsets.getD k 0))) mem

/-- Function `ddr_generate_ddrc_with_object(config, obj_buffer, ddrc_regs)`. The
controller block is the region of `mem` that starts at `ddrc_regs`; the result
is the return code, the scratch object and `mem` after the call. The function
clears `0xbc` bytes before it tests the scratch pointer, and returns at the
first `return 0`; the statements after that `return` are never executed. -/
def ddr_generate_ddrc_with_object (config : ddr_config_t) (obj_buffer : Option (List Nat))
    (mem : List Nat) (ddrc_regs : Nat) : Int × Option (List Nat) × List Nat :=
  let mem := memset0 mem ddrc_regs 0xbc
  match obj_buffer with
  | none => (-1, none, mem)
  | some obj =>
    if config.type = DDR_TYPE_DDR2 then
      let r := ddr_generate_ddrc_txx_ddr2 config obj
      if r.1 ≠ 0 then (-1, some r.2, mem)
      else (0, some r.2, ddr_convert_param r.2 mem ddrc_regs)
    else (0, some obj, ddr_convert_param obj mem ddrc_regs)

/-! ## Compiler orchestrator (`src/ddr/ddr_generator.c`) -/

/-- The type of `ddr_generate_ddrp_with_object(config, obj_buffer, ddrp_regs)`,
whose definition is not part of the sources at hand: given the configuration,
the scratch object, the memory holding the output and the position of the PHY
block in it, it yields a return code, the scratch object and the memory. -/
abbrev ddrp_generator := ddr_config_t → List Nat → List Nat → Nat → Int × List Nat × List Nat

/-- Function `ddr_generate_with_shared_object(config, ddrc_regs, ddrp_regs)`; both
register blocks live in `mem`. The local `obj_buffer[0x300]` is cleared by
`memset` before use. -/
def ddr_generate_with_shared_object (ddrp : ddrp_generator) (config : ddr_config_t)
    (mem : List Nat) (ddrc_regs ddrp_regs : Nat) : Option (Int × List Nat) :=
  let obj_buffer := List.replicate 0x300 0
  match ddr_init_object_buffer config obj_buffer with
  | none => none
  | some obj_buffer =>
    match ddr_generate_ddrc_with_object config (some obj_buffer) mem ddrc_regs with
    | (result, some obj_buffer, mem) =>
      if result < 0 then some (-1, mem)
      else
        match ddrp config obj_buffer mem ddrp_regs with
        | (result, _, mem) => if result < 0 then some (-1, mem) else some (0, mem)
    | (_, none, mem) => some (-1, mem)

/-- Function `ddr_generate_binary(config, output, output_size)`: the return code and the
caller's buffer after the call. The members of `ddr_binary_t` sit at offsets
0 (`fidb_sig`), 4 (`fidb_size`), 8 (`ddrc`), 192 (`rdd_sig`), 196 (`rdd_size`)
and 200 (`ddrp`). `none` is the division by zero of a zero `clock_mhz`. -/
def ddr_generate_binary (ddrp : ddrp_generator) (config : ddr_config_t) (output : List Nat)
    (output_size : Nat) : Option (Int × List Nat) :=
  if output_size < 324 then some (-1, output)
  else
    let b := wr8 output 0 0x46
    let b := wr8 b 1 0x49
    let b := wr8 b 2 0x44
    let b := wr8 b 3 0x42
    let b := wr32 b 4 0xb8
    match ddr_generate_with_shared_object ddrp config b 8 200 with
    | none => none
    | some (result, b) =>
      if result < 0 then some (-1, b)
      else
        let b := wr32 b 192 0x44445200
        let b := wr32 b 196 0x7c
        some (0, b)

/-! ## Auxiliary definitions for the theorems -/

/-- The scratch object at the moment `ddr_generate_ddrc_with_object` copies
words out of it: after the TXX generator for DDR2, untouched otherwise. -/
def ddrc_scratch (config : ddr_config_t) (obj : List Nat) : List Nat :=
  if config.type = DDR_TYPE_DDR2 then (ddr_generate_ddrc_txx_ddr2 config obj).2 else obj

/-- The caller's buffer after `ddr_generate_binary` has stored the `FIDB`
marker and size. -/
def fidb_header (output : List Nat) : List Nat :=
  wr32 (wr8 (wr8 (wr8 (wr8 output 0 0x46) 1 0x49) 2 0x44) 3 0x42) 4 0xb8

/-- The caller's buffer after the controller block has been generated from the
scratch object `obj`. -/
def ddrc_stage (config : ddr_config_t) (obj output : List Nat) : List Nat :=
  ddr_convert_param (ddrc_scratch config obj) (memset0 (fidb_header output) 8 0xbc) 8

/-- The caller's buffer after the PHY generator has run. -/
def ddrp_stage (ddrp : ddrp_generator) (config : ddr_config_t) (obj output : List Nat) :
    List Nat :=
  (ddrp config (ddrc_scratch config obj) (ddrc_stage config obj output) 200).2.2

/-- The caller's buffer at the successful end of `ddr_generate_binary`. -/
def binary_of (ddrp : ddrp_generator) (config : ddr_config_t) (obj output : List Nat) :
    List Nat :=
  wr32 (wr32 (ddrp_stage ddrp config obj output) 192 0x44445200) 196 0x7c

/-- Assumption on the PHY generator: it stores nothing outside the 124 bytes of
its block and leaves the size of the memory alone. -/
def ddrp_writes_own_region (ddrp : ddrp_generator) : Prop :=
  ∀ config obj mem base,
    (ddrp config obj mem base).2.2.length = mem.length ∧
    ∀ j, j < base ∨ base + 124 ≤ j → rd8 (ddrp config obj mem base).2.2 j = rd8 mem j

/-- Assumption on the PHY generator: its return code and the 124 bytes of its
block are a function of the configuration and the scratch object only. -/
def ddrp_function_of_config_and_scratch (ddrp : ddrp_generator) : Prop :=
  ∀ config obj mem1 mem2 base, base + 124 ≤ mem1.length → base + 124 ≤ mem2.length →
    (ddrp config obj mem1 base).1 = (ddrp config obj mem2 base).1 ∧
    ∀ k, k < 124 →
      rd8 (ddrp config obj mem1 base).2.2 (base + k)
        = rd8 (ddrp config obj mem2 base).2.2 (base + k)

/-- The first 200 bytes of a generated binary, byte by byte, in terms of the
scratch object `obj` that the controller words are copied from. -/
def binary_head_byte (obj : List Nat) (j : Nat) : Nat :=
  if j < 4 then [0x46, 0x49, 0x44, 0x42].getD j 0
  else if j < 8 then 0xb8 / 256 ^ (j - 4) % 256
  else if j < 132 then
    rd32 obj (ddr_convert_param_offsets.getD ((j - 8) / 4) 0) / 256 ^ ((j - 8) % 4) % 256
  else if j < 192 then 0
  else if j < 196 then 0x44445200 / 256 ^ (j - 192) % 256
  else 0x7c / 256 ^ (j - 196) % 256

/-! ## Concrete inputs -/

/-- The configuration of `main` in `test_ddr_generator.c` (M14D1G1664A DDR2 at
400 MHz). -/
def reference_config : ddr_config_t :=
  { type := DDR_TYPE_DDR2, clock_mhz := 400, cas_latency := 7, tWR := 15, tRAS := 45, tRP := 16,
    tRCD := 16, tRC := 57, tRRD := 10, tWTR := 8, tRFC := 128, tXP := 8, tCKE := 8, tRL := 7,
    tWL := 6, tREFI := 7800, banks := 8, row_bits := 13, col_bits := 10, data_width := 16,
    total_size_bytes := 128 * 1024 * 1024 }

/-- A PHY generator that clears the 124 bytes of its block and succeeds. -/
def ddrp_zero : ddrp_generator := fun _ obj mem ddrp_regs => (0, obj, memset0 mem ddrp_regs 0x7c)

/-- A caller's buffer of exactly 324 bytes, filled with `0xAA`. -/
def buffer_aa : List Nat := List.replicate 324 0xAA

/-- A caller's buffer of 400 bytes, filled with `0x55`. -/
def buffer_55 : List Nat := List.replicate 400 0x55

/-- The binary generated for `reference_config` into `buffer_aa`. -/
def output_aa : List Nat :=
  ((ddr_generate_binary ddrp_zero reference_config buffer_aa 324).getD (0, [])).2

/-- The binary generated for `reference_config` into `buffer_55`. -/
def output_55 : List Nat :=
  ((ddr_generate_binary ddrp_zero reference_config buffer_55 400).getD (0, [])).2

/-- A scratch object whose parameter block has `cs0_en = 1`, `cs1_en = 0`,
`bank_bits = 1` and `data_width = 1`. -/
def scratch_cfg43 : List Nat :=
  wr32 (wr32 (wr32 (List.replicate 0x300 0) 0x124 1) 0x14c 1) 0x12c 1

/-- The ASCII bytes of `"123456789"`. -/
def check_bytes : List Nat := [0x31, 0x32, 0x33, 0x34, 0x35, 0x36, 0x37, 0x38, 0x39]

/-- The scratch object inside `ddr_generate_ddrc_txx_ddr2` right after the CTRL
store, before the chip-select sizes are read for the memory map. -/
def txx_ctrl_stage (obj_buffer : List Nat) : List Nat :=
  let param_3 := fun k => rd32 obj_buffer (0x118 + 4 * k)
  let b := memset0 obj_buffer 0x7c 80
  let b := txx_cfg_byte0 b 0x7c (param_3 4) (param_3 3) (param_3 0xd) (param_3 5)
  let b := txx_cfg_byte1 b 0x7c (param_3 3) (param_3 10) (param_3 9)
  let b := txx_cfg_byte2 b 0x7c (param_3 0xd) (param_3 8)
  let bVar10 := rd8 b (0x7c + 2)
  let b := txx_cfg_type b 0x7c bVar10 (param_3 0)
  let b := txx_cfg_byte3 b 0x7c bVar10 (param_3 4) (param_3 10) (param_3 9) (param_3 0xc)
    (param_3 0xb)
  wr32 b (0x7c + 4) ddrc_ctrl

/-- A buffer holds bytes: every element is below 256. -/
def bytes_ok (b : List Nat) : Prop := ∀ j, rd8 b j < 256

/-- The scratch object as `ddr_generate_with_shared_object` clears it. -/
def scratch_zero : List Nat := List.replicate 0x300 0

/-- A cleared scratch object whose technology code (word at 0x118) is 5. -/
def scratch_type5 : List Nat := wr32 scratch_zero 0x118 5

/-- A cleared scratch object with both chip-select sizes set to `0x10000000`,
a total of exactly `0x20000000`. -/
def scratch_512 : List Nat := wr32 (wr32 scratch_zero 0x150 0x10000000) 0x154 0x10000000

/-- The reference configuration with a bank count of 4 instead of 8. -/
def config_banks4 : ddr_config_t := { reference_config with banks := 4 }

/-- The reference configuration with `tCKE = 0` ns and `tXP = 1000` ns, which
at 400 MHz are 0 and 400 cycles, both outside `[1, 15]`. -/
def config_out_of_range : ddr_config_t := { reference_config with tCKE := 0, tXP := 1000 }

/-- The scratch object that `ddr_init_object_buffer` makes of the cleared one
for the reference configuration. -/
def scratch_reference : List Nat :=
  (ddr_init_object_buffer reference_config scratch_zero).getD []

/-- Assumption on the PHY generator: it never returns a negative code. -/
def ddrp_succeeds (ddrp : ddrp_generator) : Prop :=
  ∀ config obj mem base, 0 ≤ (ddrp config obj mem base).1

/-! ## Reference comparison (`src/ddr/ddr_generator.c`) -/

/-- One pass of the comparison loop of `ddr_test_against_reference`; the state
is the counter `mismatches` and the `[DIFF]` lines printed so far, each line as
`(offset, generated byte, reference byte)`. A line is printed only while
`mismatches < 20`; the counter is incremented at every differing byte. -/
def compare_byte (generated reference : List Nat) (st : Nat × List (Nat × Nat × Nat))
    (i : Nat) : Nat × List (Nat × Nat × Nat) :=
  if rd8 generated i ≠ rd8 reference i then
    (st.1 + 1, if st.1 < 20 then st.2 ++ [(i, rd8 generated i, rd8 reference i)] else st.2)
  else st

/-- Function `ddr_test_against_reference(config, reference, ref_size)`: the return code
and the `[DIFF]` lines it prints. The argument `generated` is the content of
the local array `generated[324]` at entry, which C leaves indeterminate. `none`
is the division by zero of a zero `clock_mhz`. -/
def ddr_test_against_reference (ddrp : ddrp_generator) (config : ddr_config_t)
    (generated reference : List Nat) (ref_size : Nat) :
    Option (Int × List (Nat × Nat × Nat)) :=
  if ref_size ≠ 324 then some (-1, [])
  else
    match ddr_generate_binary ddrp config generated 324 with
    | none => none
    | some (result, generated) =>
      if result < 0 then some (-1, [])
      else
        let st := (List.range 324).foldl (compare_byte generated reference) (0, [])
        if st.1 = 0 then some (0, st.2) else some (1, st.2)

/-- The full difference report the specification describes: one entry
`(offset, generated byte, expected byte)` for every offset in `offsets` at
which the two buffers differ, in offset order. -/
def differing_bytes (generated reference : List Nat) (offsets : List Nat) :
    List (Nat × Nat × Nat) :=
  (offsets.filter (fun i => rd8 generated i ≠ rd8 reference i)).map
    (fun i => (i, rd8 generated i, rd8 reference i))


/-- A reference buffer of 324 bytes that differs from the binary generated for
the reference configuration at every offset: each byte `x` of that binary is
replaced by `255 - x`. -/
def reference_inverted : List Nat := output_aa.map (fun x => 255 - x)

/-! ## Firmware loader (`src/firmware/loader.c`, `src/ddr/ddr_binary_builder.h`) -/

/-- The values of `thingino_error_t` that `firmware_generate_ddr_config`
returns. The enumeration is declared in `thingino.h`, which is not among the
sources at hand; only the four names are used. -/
inductive thingino_error_t where
  | THINGINO_SUCCESS
  | THINGINO_ERROR_INVALID_PARAMETER
  | THINGINO_ERROR_MEMORY
  | THINGINO_ERROR_PROTOCOL
deriving DecidableEq

/-- Structure `platform_config_t` of `ddr_binary_builder.h`. -/
structure platform_config_t where
  crystal_freq : Nat
  cpu_freq : Nat
  ddr_freq : Nat
  uart_baud : Nat
  mem_size : Nat
deriving DecidableEq

/-- Structure `ddr_phy_params_t` of `ddr_binary_builder.h`. -/
structure ddr_phy_params_t where
  ddr_type : Nat
  row_bits : Nat
  col_bits : Nat
  cl : Nat
  bl : Nat
  tRAS : Nat
  tRC : Nat
  tRCD : Nat
  tRP : Nat
  tRFC : Nat
  tRTP : Nat
  tFAW : Nat
  tRRD : Nat
  tWTR : Nat
deriving DecidableEq

/-- The constant `DDR_BINARY_SIZE` of `ddr_binary_builder.h`. -/
def DDR_BINARY_SIZE : Nat := 324

/-- The local `phy_params` of `firmware_generate_ddr_config` (M14D1G1664A DDR2
at 400 MHz). -/
def loader_phy_params : ddr_phy_params_t :=
  { ddr_type := 1, row_bits := 13, col_bits := 10, cl := 7, bl := 8, tRAS := 18, tRC := 23,
    tRCD := 6, tRP := 6, tRFC := 52, tRTP := 3, tFAW := 18, tRRD := 4, tWTR := 3 }

/-- Function `firmware_generate_ddr_config(variant, config_buffer, config_size)`. The three
functions it calls are declared in headers and defined outside the sources at
hand; they are parameters: `ddr_get_platform_config_by_variant` yields its
return code and the platform configuration it fills in, `malloc` yields `none`
for a failed allocation and the fresh block otherwise, `ddr_build_binary` yields
its return value and the output block after the call. The out-pointers
`config_buffer` and `config_size` are `none` when null and `some v` when they
point to a cell holding `v`; a cell of type `uint8_t *` holds `none` for `NULL`
or the block it points to. The result is the return code and the two cells
after the call. -/
def firmware_generate_ddr_config
    (ddr_get_platform_config_by_variant : Int → Int × platform_config_t)
    (malloc : Nat → Option (List Nat))
    (ddr_build_binary : platform_config_t → ddr_phy_params_t → List Nat → Nat × List Nat)
    (variant : Int) (config_buffer : Option (Option (List Nat))) (config_size : Option Nat) :
    thingino_error_t × Option (Option (List Nat)) × Option Nat :=
  match config_buffer, config_size with
  | some buffer_cell, some size_cell =>
    let lookup := ddr_get_platform_config_by_variant variant
    if lookup.1 ≠ 0 then
      (thingino_error_t.THINGINO_ERROR_INVALID_PARAMETER, some buffer_cell, some size_cell)
    else
      let platform_cfg := lookup.2
      let phy_params := loader_phy_params
      match malloc DDR_BINARY_SIZE with
      | none => (thingino_error_t.THINGINO_ERROR_MEMORY, some none, some size_cell)
      | some block =>
        let built := ddr_build_binary platform_cfg phy_params block
        if built.1 ≠ 0 then
          (thingino_error_t.THINGINO_ERROR_PROTOCOL, some none, some size_cell)
        else (thingino_error_t.THINGINO_SUCCESS, some (some built.2), some DDR_BINARY_SIZE)
  | _, _ => (thingino_error_t.THINGINO_ERROR_INVALID_PARAMETER, config_buffer, config_size)

/-! ## TXX timing registers (`src/ddr/ddr_ctrl_txx.c`) -/

/-- One byte assignment `obj_buffer[dst] = e;`: the right-hand side `e` is
evaluated on the buffer as it is before the store, and the value is reduced to
a `uint8_t` by the store. -/
def store8 (dst : Nat) (e : List Nat → Nat) (b : List Nat) : List Nat := wr8 b dst (e b)

/-- The two assignments to `tRTW_cycles` in `ddr_generate_ddrc_timing_txx_ddr2`:
`(tRTW_ps - 1 + clock_period_ps * 2) / (clock_period_ps * 2)`, then
`(tRTW_cycles / 2) - 1`, all in `uint32_t`. -/
def tRTW_cycles (clock_period_ps tRTW_ps : Nat) : Nat :=
  let c := ((tRTW_ps + 2 ^ 32 - 1 + (clock_period_ps * 2) % 2 ^ 32) % 2 ^ 32)
    / ((clock_period_ps * 2) % 2 ^ 32)
  (c / 2 + 2 ^ 32 - 1) % 2 ^ 32

/-- The first part of `ddr_generate_ddrc_timing_txx_ddr2`
(`TXX_DDRBaseParam::ddrc_generate_register`): its statements from the store
to `obj_buffer[0xad]` to the store of the word at `0xc4`, in source order. -/
def txx_timing_base (clock_period_ps : Nat) (obj_buffer : List Nat) : List Nat :=
  let b := store8 0xad (fun b =>
    (rd8 b 0xad &&& 0xc0) ||| (PS2CYCLE clock_period_ps (rd32 b 0x168) &&& 0x3f)) obj_buffer
  let b := store8 0xac (fun b =>
    (rd8 b 0xac &&& 0xc0) ||| (PS2CYCLE clock_period_ps (rd32 b 0x184) &&& 0x3f)) b
  let b := store8 0xb2 (fun b =>
    (rd8 b 0xb2 &&& 0xc0) ||| (PS2CYCLE clock_period_ps (rd32 b 0x158) &&& 0x3f)) b
  let b := store8 0xb1 (fun b =>
    (rd8 b 0xb1 &&& 0xc0) ||| (PS2CYCLE clock_period_ps (rd32 b 0x160) &&& 0x3f)) b
  let b := store8 0xb0 (fun b =>
    (rd8 b 0xb0 &&& 0xc0) ||| (PS2CYCLE clock_period_ps (rd32 b 0x180) &&& 0x3f)) b
  let b := store8 0xb7 (fun b => (rd8 b 0xb7 &&& 0x87) ||| 0x20) b
  let b := store8 0xb6 (fun b =>
    (rd8 b 0xb6 &&& 0xc0) ||| (PS2CYCLE clock_period_ps (rd32 b 0x15c) &&& 0x3f)) b
  let b := store8 0xb5 (fun b =>
    (rd8 b 0xb5 &&& 0xc0) ||| (PS2CYCLE clock_period_ps (rd32 b 0x16c) &&& 0x3f)) b
  let b := store8 0xb4 (fun b =>
    (rd8 b 0xb4 &&& 0xc0) ||| (PS2CYCLE clock_period_ps (rd32 b 0x164) &&& 0x3f)) b
  let b := store8 0xbb (fun b =>
    (rd8 b 0xbb &&& 0xc0) ||| (tRTW_cycles clock_period_ps (rd32 b 0x174) &&& 0x3f)) b
  let b := store8 0xba (fun b => (rd8 b 0xba &&& 7) ||| 0x60) b
  let b := store8 0xba (fun b =>
    (rd8 b 0xba &&& 0xf8) ||| (((PS2CYCLE clock_period_ps (rd32 b 0x17c) + 1) % 2 ^ 32) &&& 7)) b
  let b := store8 0xb8 (fun b =>
    (rd8 b 0xb8 &&& 0x8f) ||| ((PS2CYCLE clock_period_ps (rd32 b 0x178) &&& 7) <<< 4)) b
  let b := store8 0xbf (fun _ => 0xff) b
  let b := store8 0xc1 (fun b => (rd8 b 0xc1 &&& 0xc0) ||| 5) b
  let b := store8 0xc0 (fun b => (rd8 b 0xc0 &&& 0xc0) ||| 5) b
  wr32 b 0xc4 0

/-- The statements for `obj_buffer[0xae]` and `obj_buffer[0xbe]` of the DDR2
override pass: `ae_value = tWL_cycles + CL - 1 + (data_width / 2)` in
`uint32_t`, then the data-width encoding (4 for a width of 4, 6 for a width of
8, no store otherwise). -/
def txx_timing_ae (clock_period_ps : Nat) (b : List Nat) : List Nat :=
  let tWL_ps := rd32 b 0x170
  let tWL_cycles := PS2CYCLE clock_period_ps tWL_ps
  let CL := rd32 b 0x130
  let data_width := rd32 b 0x138
  let ae_value := (tWL_cycles + CL + 2 ^ 32 - 1 + data_width / 2) % 2 ^ 32
  let b := wr8 b 0xae ((rd8 b 0xae &&& 0xc0) ||| (ae_value &&& 0x3f))
  if data_width = 4 then wr8 b 0xbe ((rd8 b 0xbe &&& 0xc0) ||| 4)
  else if data_width = 8 then wr8 b 0xbe ((rd8 b 0xbe &&& 0xc0) ||| 6)
  else b

/-- The statement for `obj_buffer[0xbc]` of the DDR2 override pass:
`tRTP_val = obj_buffer[0xac] & 0x3f`, and under `tRTP_val > 0` the store of
`(tRTP_val - 1) & 0x3f` into the low six bits. -/
def txx_timing_bc (b : List Nat) : List Nat :=
  let tRTP_val := (rd8 b 0xac &&& 0x3f) % 256
  if tRTP_val > 0 then
    wr8 b 0xbc ((rd8 b 0xbc &&& 0xc0) ||| (((tRTP_val + 2 ^ 32 - 1) % 2 ^ 32) &&& 0x3f))
  else b

/-- The statement for `obj_buffer[0xbd]` of the DDR2 override pass:
`tRC_val = obj_buffer[0xb0] & 0x3f`, and under `tRC_val >= 2` the store of
`(tRC_val - 3) & 0x3f` into the low six bits; the difference is an `int`, whose
two's-complement bits the mask selects. -/
def txx_timing_bd (b : List Nat) : List Nat :=
  let tRC_val := (rd8 b 0xb0 &&& 0x3f) % 256
  if tRC_val ≥ 2 then
    wr8 b 0xbd ((rd8 b 0xbd &&& 0xc0) ||| (((tRC_val + 2 ^ 32 - 3) % 2 ^ 32) &&& 0x3f))
  else b

/-- The second part of `ddr_generate_ddrc_timing_txx_ddr2`
(`TXX_DDR2Param::ddrc_generate_register`, the DDR2 overrides): its statements
from the store to `obj_buffer[0xaf]` to the store to `obj_buffer[0xc2]`, in
source order. -/
def txx_timing_ddr2 (clock_period_ps : Nat) (obj_buffer : List Nat) : List Nat :=
  let b := store8 0xaf (fun b =>
    (rd8 b 0xaf &&& 0xc0) ||| (PS2CYCLE clock_period_ps (rd32 b 0x1a4) &&& 0x3f)) obj_buffer
  let b := txx_timing_ae clock_period_ps b
  let b := txx_timing_bc b
  let b := txx_timing_bd b
  let b := store8 0xb3 (fun b =>
    (rd8 b 0xb3 &&& 0xc0) ||| (PS2CYCLE clock_period_ps (rd32 b 0x1a8) &&& 0x3f)) b
  let b := store8 0xb7 (fun b => rd8 b 0xb7 &&& 0xf8) b
  let tRFC_ps := rd32 b 0x1b0
  let b := store8 0xb8 (fun b =>
    (rd8 b 0xb8 &&& 0xfc)
      ||| ((((PS2CYCLE clock_period_ps tRFC_ps + 2 ^ 32 - 1) % 2 ^ 32) &&& 3) % 256)) b
  let b := store8 0xc3 (fun b =>
    let tRAS_div4 := PS2CYCLE_DIV clock_period_ps (rd32 b 0x194) 4
    let tRC_div4 := PS2CYCLE_DIV clock_period_ps (rd32 b 0x1a0) 4
    if tRAS_div4 > tRC_div4 then tRAS_div4 else tRC_div4) b
  let b := store8 0xb9 (fun b =>
    (rd8 b 0xb9 &&& 0xf0)
      ||| ((((PS2CYCLE_DIV clock_period_ps tRFC_ps 8 + 2 ^ 32 - 1) % 2 ^ 32) &&& 0xf) % 256)) b
  store8 0xc2 (fun b =>
    (rd8 b 0xc2 &&& 0xc0) ||| (PS2CYCLE clock_period_ps (rd32 b 0x1ac) &&& 0x3f)) b

/-- Function `ddr_generate_ddrc_timing_txx_ddr2(config, obj_buffer)`: the return code and
the scratch object after the call. `clock_period_ps` is read once, from the
word at `0x22c`. The function divides by `clock_period_ps` and by its products
with 2, 4 and 8, all `uint32_t`; `none` stands for a division by zero, that is
for a period one of whose four products is zero in 32 bits. -/
def ddr_generate_ddrc_timing_txx_ddr2 (_config : ddr_config_t) (obj_buffer : List Nat) :
    Option (Int × List Nat) :=
  let clock_period_ps := rd32 obj_buffer 0x22c
  if clock_period_ps % 2 ^ 32 = 0 ∨ (clock_period_ps * 2) % 2 ^ 32 = 0
      ∨ (clock_period_ps * 4) % 2 ^ 32 = 0 ∨ (clock_period_ps * 8) % 2 ^ 32 = 0 then none
  else some (0, txx_timing_ddr2 clock_period_ps (txx_timing_base clock_period_ps obj_buffer))

/-- A cleared scratch object with a clock period of 2500 ps at `0x22c` and the
durations 15000 ps at `0x168`, 57000 ps at `0x180`, 20000 ps at `0x174` and
5000 ps at `0x170`, a CAS latency of 7 at `0x130` and a data width of 8 at
`0x138`. -/
def scratch_timing : List Nat :=
  wr32 (wr32 (wr32 (wr32 (wr32 (wr32 (wr32 scratch_zero 0x22c 2500) 0x168 15000) 0x180 57000)
    0x174 20000) 0x170 5000) 0x130 7) 0x138 8

/-- The eight byte fields of the general rule in `txx_timing_base`, each with the
offset of the duration word it is computed from: `(byte, word)`. -/
def general_rule_fields : List (Nat × Nat) :=
  [(0xad, 0x168), (0xac, 0x184), (0xb2, 0x158), (0xb1, 0x160), (0xb0, 0x180), (0xb6, 0x15c),
   (0xb5, 0x16c), (0xb4, 0x164)]

/-- A cleared scratch object with a clock period of 3 ps at `0x22c` and the
duration `0xFFFFFFFF` ps in the words at `0x168`, `0x170` and `0x174`. -/
def scratch_wrap : List Nat :=
  wr32 (wr32 (wr32 (wr32 scratch_zero 0x22c 3) 0x168 0xFFFFFFFF) 0x170 0xFFFFFFFF) 0x174
    0xFFFFFFFF

/-- A cleared scratch object with a clock period of `2 ^ 29` ps at `0x22c`. -/
def scratch_period_2p29 : List Nat := wr32 scratch_zero 0x22c 0x20000000

/-- A cleared scratch object with a clock period of 2500 ps at `0x22c` and a
row-cycle duration of 5000 ps, which is 2 cycles, at `0x180`. -/
def scratch_tRC2 : List Nat := wr32 (wr32 scratch_zero 0x22c 2500) 0x180 5000

/-- The reference configuration with the technology changed to DDR3. -/
def config_ddr3 : ddr_config_t := { reference_config with type := DDR_TYPE_DDR3 }

/-- Two scratch objects of the same size that agree on every byte below 0x188,
the part of the object that `ddr_generate_ddrc_txx_ddr2` reads and writes. -/
def agree_low (b1 b2 : List Nat) : Prop :=
  b1.length = b2.length ∧ ∀ j, j < 0x188 → rd8 b1 j = rd8 b2 j

set_option maxRecDepth 100000

/-! ## Checksum lemmas -/

theorem crc32_shift_eq_reference_bit (x : Nat) : crc32_shift x = crc32_reference_bit x := by
  unfold crc32_shift crc32_reference_bit
  rw [Nat.and_one_is_mod, Nat.shiftRight_eq_div_pow]
  rcases Nat.mod_two_eq_zero_or_one x with h | h <;> simp [h]

theorem crc32_reference_bit_xor (x y : Nat) :
    crc32_reference_bit (x ^^^ y) = crc32_reference_bit x ^^^ crc32_reference_bit y := by
  unfold crc32_reference_bit
  have hd : (x ^^^ y) / 2 = x / 2 ^^^ y / 2 := by
    apply Nat.eq_of_testBit_eq
    intro i
    simp [Nat.testBit_xor, Nat.testBit_div_two]
  rw [hd, Nat.xor_mod_two_eq]
  rcases Nat.mod_two_eq_zero_or_one x with hx | hx <;>
    rcases Nat.mod_two_eq_zero_or_one y with hy | hy <;>
    simp only [hx, hy, Nat.add_mod, Nat.reduceAdd, Nat.reduceMod, Nat.zero_ne_one, if_false,
      if_true] <;>
    apply Nat.eq_of_testBit_eq <;> intro i <;>
    simp only [Nat.testBit_xor, Nat.zero_testBit] <;>
    cases (x / 2).testBit i <;> cases (y / 2).testBit i <;>
    cases (3988292384 : Nat).testBit i <;> rfl

theorem crc32_reference_bit_iterate_xor (k x y : Nat) :
    Nat.iterate crc32_reference_bit k (x ^^^ y)
      = Nat.iterate crc32_reference_bit k x ^^^ Nat.iterate crc32_reference_bit k y := by
  induction k generalizing x y with
  | zero => rfl
  | succ k ih => simp only [Function.iterate_succ, Function.comp_apply, crc32_reference_bit_xor, ih]

theorem crc32_reference_bit_iterate_shift (k h : Nat) :
    Nat.iterate crc32_reference_bit k (2 ^ k * h) = h := by
  induction k with
  | zero => simp
  | succ k ih =>
    rw [Function.iterate_succ, Function.comp_apply]
    have : crc32_reference_bit (2 ^ (k + 1) * h) = 2 ^ k * h := by
      unfold crc32_reference_bit
      have h1 : 2 ^ (k + 1) * h = 2 * (2 ^ k * h) := by ring
      rw [h1]
      simp
    rw [this, ih]

theorem xor_low_byte (x : Nat) : x ^^^ (x % 256) = 2 ^ 8 * (x / 256) := by
  apply Nat.eq_of_testBit_eq
  intro i
  have h256 : (256 : Nat) = 2 ^ 8 := by norm_num
  rw [h256, Nat.testBit_xor, Nat.testBit_mod_two_pow, Nat.testBit_mul_pow_two,
    ← Nat.shiftRight_eq_div_pow, Nat.testBit_shiftRight]
  by_cases hi : i < 8
  · simp [hi]
  · have : 8 ≤ i := by omega
    simp [hi, this, Nat.sub_add_cancel this]

theorem crc32_reference_byte_split (x : Nat) :
    Nat.iterate crc32_reference_bit 8 x
      = (x / 256) ^^^ Nat.iterate crc32_reference_bit 8 (x % 256) := by
  have hx : x = (x ^^^ (x % 256)) ^^^ (x % 256) := by
    rw [Nat.xor_assoc, Nat.xor_self, Nat.xor_zero]
  conv_lhs => rw [hx]
  rw [crc32_reference_bit_iterate_xor, xor_low_byte, crc32_reference_bit_iterate_shift]

theorem foldl_set_range_getD (f : Nat → Nat) (n : Nat) (t : List Nat) (hn : n ≤ t.length)
    (idx : Nat) :
    ((List.range n).foldl (fun t i => t.set i (f i)) t).getD idx 0
      = if idx < n then f idx else t.getD idx 0 := by
  induction n with
  | zero => simp
  | succ n ih =>
    have hlen : ∀ m, ((List.range m).foldl (fun t i => t.set i (f i)) t).length = t.length := by
      intro m
      induction m with
      | zero => simp
      | succ m ihm => simp [List.range_succ, List.foldl_append, ihm]
    rw [List.range_succ, List.foldl_append, List.foldl_cons, List.foldl_nil]
    have ih1 := ih (by omega)
    by_cases h : idx = n
    · subst h
      have hlt : idx < t.length := by omega
      simp [List.getD_eq_getElem?_getD, List.getElem?_set, hlen, hlt]
    · rw [List.getD_eq_getElem?_getD, List.getElem?_set_ne (Ne.symm h),
        ← List.getD_eq_getElem?_getD, ih1]
      by_cases h2 : idx < n
      · simp [h2, Nat.lt_succ_of_lt h2]
      · have : ¬ idx < n + 1 := by omega
        simp [h2, this]

theorem crc32_table_lookup (s : crc32_state) (hs : crc32_state_ok s) (idx : Nat)
    (hidx : idx < 256) :
    (if s.crc32_table_ready then s else crc32_init_table s).crc32_table.getD idx 0
      = crc32_table_entry idx := by
  obtain ⟨hlen, hready⟩ := hs
  cases hr : s.crc32_table_ready with
  | true =>
    simp only [if_true]
    rw [hready hr]
    unfold crc32_init_table
    simp only
    rw [foldl_set_range_getD _ _ _
      (by show 256 ≤ (List.replicate 256 0).length; rw [List.length_replicate])]
    simp [hidx]
  | false =>
    simp only [Bool.false_eq_true, if_false]
    unfold crc32_init_table
    simp only
    rw [foldl_set_range_getD _ _ _ (by omega)]
    simp [hidx]

theorem xor_byte_div (crc b : Nat) (hb : b < 256) : (crc ^^^ b) / 256 = crc / 256 := by
  apply Nat.eq_of_testBit_eq
  intro i
  have h256 : (256 : Nat) = 2 ^ 8 := by norm_num
  rw [h256, ← Nat.shiftRight_eq_div_pow, ← Nat.shiftRight_eq_div_pow, Nat.testBit_shiftRight,
    Nat.testBit_shiftRight, Nat.testBit_xor]
  have : b.testBit (8 + i) = false := by
    apply Nat.testBit_lt_two_pow
    calc b < 2 ^ 8 := by omega
      _ ≤ 2 ^ (8 + i) := Nat.pow_le_pow_right (by norm_num) (by omega)
  simp [this]

theorem crc32_byte_eq_reference (table : List Nat)
    (ht : ∀ idx, idx < 256 → table.getD idx 0 = crc32_table_entry idx)
    (crc b : Nat) (hb : b < 256) :
    crc32_byte table crc b = crc32_reference_byte crc b := by
  unfold crc32_byte crc32_reference_byte
  have hff : (crc ^^^ b) &&& 0xFF = (crc ^^^ b) % 256 := by
    have := Nat.and_pow_two_sub_one_eq_mod (crc ^^^ b) 8
    simpa using this
  simp only [hff, Nat.mod_mod]
  rw [ht _ (Nat.mod_lt _ (by norm_num)), crc32_reference_byte_split (crc ^^^ b),
    xor_byte_div crc b hb, Nat.shiftRight_eq_div_pow]
  unfold crc32_table_entry
  have : crc32_shift = crc32_reference_bit := funext crc32_shift_eq_reference_bit
  rw [this]

theorem foldl_range_rd8 (f : Nat → Nat → Nat) (bytes : List Nat) (a : Nat) :
    (List.range bytes.length).foldl (fun acc i => f acc (rd8 bytes i)) a = bytes.foldl f a := by
  have hmap : (List.range bytes.length).map (fun i => rd8 bytes i) = bytes := by
    apply List.ext_getElem
    · simp
    · intro i h1 h2
      simp [rd8, List.getD_eq_getElem?_getD, h2]
  conv_rhs => rw [← hmap]
  rw [List.foldl_map]

theorem foldl_crc32_byte_eq_reference (table : List Nat)
    (ht : ∀ idx, idx < 256 → table.getD idx 0 = crc32_table_entry idx)
    (bytes : List Nat) (hb : ∀ b ∈ bytes, b < 256) (crc : Nat) :
    bytes.foldl (crc32_byte table) crc = bytes.foldl crc32_reference_byte crc := by
  induction bytes generalizing crc with
  | nil => rfl
  | cons b rest ih =>
    simp only [List.foldl_cons]
    rw [crc32_byte_eq_reference table ht crc b (hb b (List.mem_cons_self _ _))]
    exact ih (fun x hx => hb x (List.mem_cons_of_mem _ hx)) _


/-! ## Buffer lemmas -/

theorem length_wr8 (b : List Nat) (i v : Nat) : (wr8 b i v).length = b.length := by
  simp [wr8]

theorem length_wr32 (b : List Nat) (off v : Nat) : (wr32 b off v).length = b.length := by
  simp [wr32, length_wr8]

theorem rd8_wr8 (b : List Nat) (i v j : Nat) :
    rd8 (wr8 b i v) j = if j = i ∧ i < b.length then v % 256 else rd8 b j := by
  unfold rd8 wr8
  rw [List.getD_eq_getElem?_getD, List.getD_eq_getElem?_getD, List.getElem?_set]
  by_cases h : i = j
  · subst h
    by_cases h2 : i < b.length
    · simp [h2]
    · simp [h2, List.getElem?_eq_none (Nat.le_of_not_lt h2)]
  · have h' : ¬ j = i := fun e => h e.symm
    simp [h, h']

theorem rd8_wr8_ne (b : List Nat) (i v j : Nat) (h : j ≠ i) : rd8 (wr8 b i v) j = rd8 b j := by
  rw [rd8_wr8]; simp [h]

theorem rd8_wr8_eq (b : List Nat) (i v : Nat) (h : i < b.length) :
    rd8 (wr8 b i v) i = v % 256 := by
  rw [rd8_wr8]; simp [h]

theorem rd8_wr32_outside (b : List Nat) (off v j : Nat) (h : j < off ∨ off + 4 ≤ j) :
    rd8 (wr32 b off v) j = rd8 b j := by
  unfold wr32
  rw [rd8_wr8_ne _ _ _ _ (by omega), rd8_wr8_ne _ _ _ _ (by omega),
    rd8_wr8_ne _ _ _ _ (by omega), rd8_wr8_ne _ _ _ _ (by omega)]

theorem rd8_wr32_inside (b : List Nat) (off v k : Nat) (hk : k < 4)
    (h : off + 4 ≤ b.length) :
    rd8 (wr32 b off v) (off + k) = v / 256 ^ k % 256 := by
  unfold wr32
  have hk' : k = 0 ∨ k = 1 ∨ k = 2 ∨ k = 3 := by omega
  rcases hk' with rfl | rfl | rfl | rfl
  · have e : off + 0 = off := rfl
    rw [e, rd8_wr8_ne _ _ _ _ (by omega), rd8_wr8_ne _ _ _ _ (by omega),
      rd8_wr8_ne _ _ _ _ (by omega), rd8_wr8_eq _ _ _ (by omega)]
    simp
  · rw [rd8_wr8_ne _ _ _ _ (by omega), rd8_wr8_ne _ _ _ _ (by omega),
      rd8_wr8_eq _ _ _ (by rw [length_wr8]; omega)]
    norm_num
  · rw [rd8_wr8_ne _ _ _ _ (by omega),
      rd8_wr8_eq _ _ _ (by rw [length_wr8, length_wr8]; omega)]
    norm_num
  · rw [rd8_wr8_eq _ _ _ (by rw [length_wr8, length_wr8, length_wr8]; omega)]
    norm_num

theorem length_memset0 (b : List Nat) (off n : Nat) : (memset0 b off n).length = b.length := by
  unfold memset0
  induction n with
  | zero => simp
  | succ n ih => rw [List.range_succ, List.foldl_append]; simp [length_wr8, ih]

theorem rd8_memset0 (b : List Nat) (off n j : Nat) :
    rd8 (memset0 b off n) j
      = if off ≤ j ∧ j < off + n ∧ j < b.length then 0 else rd8 b j := by
  induction n with
  | zero =>
    have : ¬ (off ≤ j ∧ j < off ∧ j < b.length) := by omega
    simp [memset0, this]
  | succ n ih =>
    have hstep : memset0 b off (n + 1) = wr8 (memset0 b off n) (off + n) 0 := by
      unfold memset0
      rw [List.range_succ, List.foldl_append]; rfl
    rw [hstep, rd8_wr8, length_memset0, ih]
    by_cases h1 : j = off + n
    · subst h1
      by_cases h2 : off + n < b.length
      · simp [h2]
      · simp [h2]
    · by_cases h3 : off ≤ j ∧ j < off + n ∧ j < b.length
      · have : off ≤ j ∧ j < off + (n + 1) ∧ j < b.length := ⟨h3.1, by omega, h3.2.2⟩
        simp [h1, h3, this]
      · have : ¬ (off ≤ j ∧ j < off + (n + 1) ∧ j < b.length) := by
          intro h; apply h3; exact ⟨h.1, by omega, h.2.2⟩
        simp [h1, h3, this]

/-- The word stores of `ddr_convert_param` up to word `n`. -/
theorem ddr_convert_param_aux (obj mem : List Nat) (base n : Nat)
    (hlen : base + 4 * n ≤ mem.length) :
    ((List.range n).foldl
      (fun m k => wr32 m (base + 4 * k) (rd32 obj (ddr_convert_param_offsets.getD k 0)))
      mem).length = mem.length ∧
    ∀ j, rd8 ((List.range n).foldl
      (fun m k => wr32 m (base + 4 * k) (rd32 obj (ddr_convert_param_offsets.getD k 0))) mem) j
      = if base ≤ j ∧ j < base + 4 * n then
          rd32 obj (ddr_convert_param_offsets.getD ((j - base) / 4) 0) / 256 ^ ((j - base) % 4)
            % 256
        else rd8 mem j := by
  induction n with
  | zero =>
    refine ⟨by simp, fun j => ?_⟩
    have : ¬ (base ≤ j ∧ j < base) := by omega
    simp [this]
  | succ n ih =>
    obtain ⟨ihl, ihr⟩ := ih (by omega)
    rw [List.range_succ, List.foldl_append, List.foldl_cons, List.foldl_nil]
    refine ⟨by rw [length_wr32, ihl], fun j => ?_⟩
    by_cases hin : base + 4 * n ≤ j ∧ j < base + 4 * n + 4
    · obtain ⟨k, hk⟩ : ∃ k, j = base + 4 * n + k := ⟨j - (base + 4 * n), by omega⟩
      subst hk
      have hk4 : k < 4 := by omega
      rw [rd8_wr32_inside _ _ _ _ hk4 (by rw [ihl]; omega)]
      have h1 : base ≤ base + 4 * n + k ∧ base + 4 * n + k < base + 4 * (n + 1) := by omega
      have h2 : (base + 4 * n + k - base) / 4 = n := by omega
      have h3 : (base + 4 * n + k - base) % 4 = k := by omega
      simp only [h1, and_self, if_true, h2, h3]
    · rw [rd8_wr32_outside _ _ _ _ (by omega), ihr j]
      by_cases hj : base ≤ j ∧ j < base + 4 * n
      · have : base ≤ j ∧ j < base + 4 * (n + 1) := by omega
        simp only [hj, this, and_self, if_true]
      · have : ¬ (base ≤ j ∧ j < base + 4 * (n + 1)) := by omega
        simp only [hj, this, if_false]

theorem length_ddr_convert_param (obj mem : List Nat) (base : Nat)
    (hlen : base + 124 ≤ mem.length) :
    (ddr_convert_param obj mem base).length = mem.length :=
  (ddr_convert_param_aux obj mem base 31 (by omega)).1

theorem rd8_ddr_convert_param (obj mem : List Nat) (base : Nat)
    (hlen : base + 124 ≤ mem.length) (j : Nat) :
    rd8 (ddr_convert_param obj mem base) j
      = if base ≤ j ∧ j < base + 124 then
          rd32 obj (ddr_convert_param_offsets.getD ((j - base) / 4) 0) / 256 ^ ((j - base) % 4)
            % 256
        else rd8 mem j :=
  (ddr_convert_param_aux obj mem base 31 (by omega)).2 j

/-! ## Cycle converter lemmas -/

theorem ceil_div_eq (d p : Nat) (hp : 0 < p) : ceil_div d p = (d + p - 1) / p := by
  unfold ceil_div
  have hpq : (0 : ℚ) < (p : ℚ) := by exact_mod_cast hp
  apply le_antisymm
  · rw [Nat.ceil_le, div_le_iff₀ hpq]
    have h : d ≤ (d + p - 1) / p * p := by
      have h1 := Nat.div_add_mod (d + p - 1) p
      have h2 := Nat.mod_lt (d + p - 1) hp
      have h3 : p * ((d + p - 1) / p) = (d + p - 1) / p * p := Nat.mul_comm _ _
      omega
    exact_mod_cast h
  · rcases Nat.eq_zero_or_pos ((d + p - 1) / p) with h0 | hpos
    · rw [h0]; exact Nat.zero_le _
    · have hlt : (d + p - 1) / p - 1 < ⌈(d : ℚ) / (p : ℚ)⌉₊ := by
        rw [Nat.lt_ceil, lt_div_iff₀ hpq]
        have h : ((d + p - 1) / p - 1) * p < d := by
          have h1 := Nat.div_mul_le_self (d + p - 1) p
          have h2 : ((d + p - 1) / p - 1) * p = (d + p - 1) / p * p - p := by
            rw [Nat.sub_mul, Nat.one_mul]
          have h3 : p ≤ (d + p - 1) / p * p := Nat.le_mul_of_pos_left p hpos
          omega
        exact_mod_cast h
      omega

theorem ps2cycle_ceil_eq (ps p : Nat) (hp : 0 < p) (hfit : ps + p - 1 < 2 ^ 32) :
    ps2cycle_ceil ps p = (ps + p - 1) / p % 256 := by
  unfold ps2cycle_ceil
  by_cases h0 : ps = 0
  · subst h0
    have : (p - 1) / p = 0 := Nat.div_eq_of_lt (by omega)
    simp [this]
  · have e : (ps + p + 2 ^ 32 - 1) % 2 ^ 32 = ps + p - 1 := by omega
    simp only [h0, if_false, e]

theorem tRFC_halved_eq (ps p : Nat) (hfit : ps + 2 * p - 1 < 2 ^ 32) (hp : 0 < p) :
    tRFC_halved ps p = (ps + 2 * p - 1) / p / 2 := by
  unfold tRFC_halved
  have e : (ps + 2 * p + 2 ^ 32 - 1) % 2 ^ 32 = ps + 2 * p - 1 := by omega
  rw [e]


/-! ## The TXX generator, section by section -/

theorem length_txx_cfg_byte0 (b : List Nat) (p cs1_en cs0_en bank_bits data_width : Nat) :
    (txx_cfg_byte0 b p cs1_en cs0_en bank_bits data_width).length = b.length := by
  simp only [txx_cfg_byte0, length_wr8]

theorem rd8_txx_cfg_byte0_ne (b : List Nat) (p cs1_en cs0_en bank_bits data_width j : Nat)
    (h : j ≠ p) : rd8 (txx_cfg_byte0 b p cs1_en cs0_en bank_bits data_width) j = rd8 b j := by
  simp only [txx_cfg_byte0, Nat.add_zero]
  rw [rd8_wr8_ne _ _ _ _ h, rd8_wr8_ne _ _ _ _ h, rd8_wr8_ne _ _ _ _ h]

theorem length_txx_cfg_byte1 (b : List Nat) (p cs0_en row0 col0 : Nat) :
    (txx_cfg_byte1 b p cs0_en row0 col0).length = b.length := by
  unfold txx_cfg_byte1
  split <;> simp only [length_wr8]

theorem rd8_txx_cfg_byte1_ne (b : List Nat) (p cs0_en row0 col0 j : Nat) (h : j ≠ p + 1) :
    rd8 (txx_cfg_byte1 b p cs0_en row0 col0) j = rd8 b j := by
  unfold txx_cfg_byte1
  split
  · simp only []
    rw [rd8_wr8_ne _ _ _ _ h, rd8_wr8_ne _ _ _ _ h]
  · simp only []
    rw [rd8_wr8_ne _ _ _ _ h, rd8_wr8_ne _ _ _ _ h, rd8_wr8_ne _ _ _ _ h]

theorem length_txx_cfg_byte2 (b : List Nat) (p bank_bits burst_length : Nat) :
    (txx_cfg_byte2 b p bank_bits burst_length).length = b.length := by
  simp only [txx_cfg_byte2, length_wr8]

theorem rd8_txx_cfg_byte2_ne (b : List Nat) (p bank_bits burst_length j : Nat)
    (h : j ≠ p + 2) : rd8 (txx_cfg_byte2 b p bank_bits burst_length) j = rd8 b j := by
  simp only [txx_cfg_byte2]
  rw [rd8_wr8_ne _ _ _ _ h, rd8_wr8_ne _ _ _ _ h]

theorem length_txx_cfg_type (b : List Nat) (p bVar10 ddr_type : Nat) :
    (txx_cfg_type b p bVar10 ddr_type).length = b.length := by
  unfold txx_cfg_type
  split_ifs <;> simp only [length_wr8]

theorem rd8_txx_cfg_type_ne (b : List Nat) (p bVar10 ddr_type j : Nat) (h : j ≠ p + 2) :
    rd8 (txx_cfg_type b p bVar10 ddr_type) j = rd8 b j := by
  unfold txx_cfg_type
  split_ifs <;> first | rfl | rw [rd8_wr8_ne _ _ _ _ h]

theorem length_txx_cfg_byte3 (b : List Nat) (p bVar10 cs1_en row0 col0 row1 col1 : Nat) :
    (txx_cfg_byte3 b p bVar10 cs1_en row0 col0 row1 col1).length = b.length := by
  unfold txx_cfg_byte3
  split <;> simp only [length_wr8]

theorem rd8_txx_cfg_byte3_ne (b : List Nat) (p bVar10 cs1_en row0 col0 row1 col1 j : Nat)
    (h : j ≠ p + 3) :
    rd8 (txx_cfg_byte3 b p bVar10 cs1_en row0 col0 row1 col1) j = rd8 b j := by
  unfold txx_cfg_byte3
  split <;> (simp only []; rw [rd8_wr8_ne _ _ _ _ h, rd8_wr8_ne _ _ _ _ h])

theorem rd8_txx_cfg_byte0_self (b : List Nat) (p cs1_en cs0_en bank_bits data_width : Nat)
    (h : p < b.length) :
    rd8 (txx_cfg_byte0 b p cs1_en cs0_en bank_bits data_width) p
      = ((cs1_en <<< 7) % 256 ||| ((cs0_en &&& 1) <<< 6) % 256
          ||| (((bank_bits % 256) &&& 1) * 2) % 256 ||| ((data_width % 256) &&& 1)) % 256 := by
  simp only [txx_cfg_byte0, Nat.add_zero]
  rw [rd8_wr8_eq _ _ _ (by simp only [length_wr8]; exact h)]

theorem cfg_byte0_bits (cs1_en cs0_en bank_bits data_width : Nat) :
    ((cs1_en <<< 7) % 256 ||| ((cs0_en &&& 1) <<< 6) % 256 ||| (((bank_bits % 256) &&& 1) * 2) % 256
        ||| ((data_width % 256) &&& 1)) % 256
      = ((cs1_en &&& 1) <<< 7) ||| ((cs0_en &&& 1) <<< 6) ||| ((bank_bits &&& 1) <<< 1)
        ||| (data_width &&& 1) := by
  have h1 : (cs1_en <<< 7) % 256 = (cs1_en &&& 1) <<< 7 := by
    simp only [Nat.shiftLeft_eq, Nat.and_one_is_mod]; omega
  have h2 : ((cs0_en &&& 1) <<< 6) % 256 = (cs0_en &&& 1) <<< 6 := by
    simp only [Nat.shiftLeft_eq, Nat.and_one_is_mod]; omega
  have h3 : (((bank_bits % 256) &&& 1) * 2) % 256 = (bank_bits &&& 1) <<< 1 := by
    simp only [Nat.shiftLeft_eq, Nat.and_one_is_mod]; omega
  have h4 : (data_width % 256) &&& 1 = data_width &&& 1 := by
    simp only [Nat.and_one_is_mod]; omega
  rw [h1, h2, h3, h4]
  apply Nat.mod_eq_of_lt
  have b1 : (cs1_en &&& 1) <<< 7 < 2 ^ 8 := by
    simp only [Nat.shiftLeft_eq, Nat.and_one_is_mod]; omega
  have b2 : (cs0_en &&& 1) <<< 6 < 2 ^ 8 := by
    simp only [Nat.shiftLeft_eq, Nat.and_one_is_mod]; omega
  have b3 : (bank_bits &&& 1) <<< 1 < 2 ^ 8 := by
    simp only [Nat.shiftLeft_eq, Nat.and_one_is_mod]; omega
  have b4 : data_width &&& 1 < 2 ^ 8 := by
    simp only [Nat.and_one_is_mod]; omega
  exact Nat.or_lt_two_pow (Nat.or_lt_two_pow (Nat.or_lt_two_pow b1 b2) b3) b4


/-! ## Structure of a compilation -/

theorem ddr_generate_ddrc_txx_ddr2_ret (config : ddr_config_t) (obj : List Nat) :
    (ddr_generate_ddrc_txx_ddr2 config obj).1 = 0 := rfl

theorem ddr_generate_ddrc_with_object_some (config : ddr_config_t) (obj mem : List Nat)
    (base : Nat) :
    ddr_generate_ddrc_with_object config (some obj) mem base
      = (0, some (ddrc_scratch config obj),
          ddr_convert_param (ddrc_scratch config obj) (memset0 mem base 0xbc) base) := by
  unfold ddr_generate_ddrc_with_object ddrc_scratch
  by_cases h : config.type = DDR_TYPE_DDR2
  · simp [h, ddr_generate_ddrc_txx_ddr2_ret]
  · simp [h]

theorem ddr_generate_binary_eq (ddrp : ddrp_generator) (config : ddr_config_t)
    (output : List Nat) (output_size : Nat) :
    ddr_generate_binary ddrp config output output_size
      = if output_size < 324 then some (-1, output)
        else match ddr_init_object_buffer config (List.replicate 0x300 0) with
          | none => none
          | some obj =>
            if (ddrp config (ddrc_scratch config obj) (ddrc_stage config obj output) 200).1 < 0
            then some (-1, ddrp_stage ddrp config obj output)
            else some (0, binary_of ddrp config obj output) := by
  unfold ddr_generate_binary
  by_cases hn : output_size < 324
  · simp only [hn, if_true]
  · simp only [hn, if_false]
    unfold ddr_generate_with_shared_object binary_of ddrp_stage ddrc_stage fidb_header
    generalize List.replicate 0x300 0 = zeros
    cases hinit : ddr_init_object_buffer config zeros with
    | none => simp only [hinit]
    | some obj =>
      simp only [hinit, ddr_generate_ddrc_with_object_some]
      simp only [lt_self_iff_false, if_false]
      split_ifs <;> rfl

theorem ddr_generate_binary_success (ddrp : ddrp_generator) (config : ddr_config_t)
    (output : List Nat) (output_size : Nat) (out : List Nat)
    (h : ddr_generate_binary ddrp config output output_size = some (0, out)) :
    324 ≤ output_size ∧
    ∃ obj, ddr_init_object_buffer config (List.replicate 0x300 0) = some obj ∧
      out = binary_of ddrp config obj output := by
  rw [ddr_generate_binary_eq] at h
  by_cases hn : output_size < 324
  · simp [hn] at h
  · refine ⟨by omega, ?_⟩
    simp only [hn, if_false] at h
    generalize List.replicate 0x300 0 = zeros at h ⊢
    cases hinit : ddr_init_object_buffer config zeros with
    | none => simp only [hinit] at h; simp at h
    | some obj =>
      refine ⟨obj, rfl, ?_⟩
      simp only [hinit] at h
      split_ifs at h
      · simp at h
      · simp at h
        exact h.symm

theorem length_fidb_header (output : List Nat) : (fidb_header output).length = output.length := by
  simp [fidb_header, length_wr32, length_wr8]

theorem rd8_fidb_header (output : List Nat) (hlen : 8 ≤ output.length) (j : Nat) :
    rd8 (fidb_header output) j
      = if j < 4 then [0x46, 0x49, 0x44, 0x42].getD j 0
        else if j < 8 then 0xb8 / 256 ^ (j - 4) % 256
        else rd8 output j := by
  unfold fidb_header
  by_cases h8 : 8 ≤ j
  · rw [rd8_wr32_outside _ _ _ _ (by omega), rd8_wr8_ne _ _ _ _ (by omega),
      rd8_wr8_ne _ _ _ _ (by omega), rd8_wr8_ne _ _ _ _ (by omega),
      rd8_wr8_ne _ _ _ _ (by omega)]
    have h1 : ¬ j < 4 := by omega
    have h2 : ¬ j < 8 := by omega
    simp only [h1, h2, if_false]
  · by_cases h4 : 4 ≤ j
    · obtain ⟨k, rfl⟩ : ∃ k, j = 4 + k := ⟨j - 4, by omega⟩
      rw [rd8_wr32_inside _ _ _ _ (by omega) (by simp only [length_wr8]; omega)]
      have h1 : ¬ 4 + k < 4 := by omega
      have h2 : 4 + k < 8 := by omega
      simp only [h1, h2, if_false, if_true, Nat.add_sub_cancel_left]
    · rw [rd8_wr32_outside _ _ _ _ (by omega)]
      have h1 : j < 4 := by omega
      simp only [h1, if_true]
      have hj : j = 0 ∨ j = 1 ∨ j = 2 ∨ j = 3 := by omega
      rcases hj with rfl | rfl | rfl | rfl
      · rw [rd8_wr8_ne _ _ _ _ (by omega), rd8_wr8_ne _ _ _ _ (by omega),
          rd8_wr8_ne _ _ _ _ (by omega), rd8_wr8_eq _ _ _ (by omega)]
        rfl
      · rw [rd8_wr8_ne _ _ _ _ (by omega), rd8_wr8_ne _ _ _ _ (by omega),
          rd8_wr8_eq _ _ _ (by simp only [length_wr8]; omega)]
        rfl
      · rw [rd8_wr8_ne _ _ _ _ (by omega),
          rd8_wr8_eq _ _ _ (by simp only [length_wr8]; omega)]
        rfl
      · rw [rd8_wr8_eq _ _ _ (by simp only [length_wr8]; omega)]
        rfl

theorem length_ddrc_stage (config : ddr_config_t) (obj output : List Nat)
    (hlen : 324 ≤ output.length) : (ddrc_stage config obj output).length = output.length := by
  unfold ddrc_stage
  rw [length_ddr_convert_param _ _ _ (by rw [length_memset0, length_fidb_header]; omega),
    length_memset0, length_fidb_header]

/-- The controller stage, byte by byte: header, copied words, cleared tail,
and the caller's bytes from offset 196 on. -/
theorem rd8_ddrc_stage (config : ddr_config_t) (obj output : List Nat)
    (hlen : 324 ≤ output.length) (j : Nat) :
    rd8 (ddrc_stage config obj output) j
      = if j < 132 then binary_head_byte (ddrc_scratch config obj) j
        else if j < 196 then 0 else rd8 output j := by
  unfold ddrc_stage binary_head_byte
  rw [rd8_ddr_convert_param _ _ _ (by rw [length_memset0, length_fidb_header]; omega),
    rd8_memset0, rd8_fidb_header _ (by omega), length_fidb_header]
  by_cases h8 : 8 ≤ j
  · have e1 : ¬ j < 4 := by omega
    have e2 : ¬ j < 8 := by omega
    by_cases h132 : j < 132
    · have e3 : 8 ≤ j ∧ j < 8 + 124 := by omega
      rw [if_pos e3, if_pos h132, if_neg e1, if_neg e2, if_pos h132]
    · have e3 : ¬ (8 ≤ j ∧ j < 8 + 124) := by omega
      rw [if_neg e3, if_neg h132, if_neg e1, if_neg e2]
      by_cases h196 : j < 196
      · have e5 : 8 ≤ j ∧ j < 8 + 0xbc ∧ j < output.length := by omega
        rw [if_pos e5, if_pos h196]
      · have e5 : ¬ (8 ≤ j ∧ j < 8 + 0xbc ∧ j < output.length) := by omega
        rw [if_neg e5, if_neg h196]
  · have e3 : ¬ (8 ≤ j ∧ j < 8 + 124) := by omega
    have e5 : ¬ (8 ≤ j ∧ j < 8 + 0xbc ∧ j < output.length) := by omega
    have e8 : j < 8 := by omega
    have e132 : j < 132 := by omega
    rw [if_neg e3, if_neg e5, if_pos e132]
    by_cases h4 : j < 4
    · rw [if_pos h4, if_pos h4]
    · rw [if_neg h4, if_neg h4, if_pos e8, if_pos e8]

theorem length_binary_of (ddrp : ddrp_generator) (config : ddr_config_t) (obj output : List Nat)
    (hframe : ddrp_writes_own_region ddrp) (hlen : 324 ≤ output.length) :
    (binary_of ddrp config obj output).length = output.length := by
  unfold binary_of ddrp_stage
  rw [length_wr32, length_wr32, (hframe _ _ _ _).1, length_ddrc_stage _ _ _ hlen]

/-- Below offset 192 the finished binary is the controller stage. -/
theorem rd8_binary_of_low (ddrp : ddrp_generator) (config : ddr_config_t) (obj output : List Nat)
    (hframe : ddrp_writes_own_region ddrp) (j : Nat) (hj : j < 192) :
    rd8 (binary_of ddrp config obj output) j = rd8 (ddrc_stage config obj output) j := by
  unfold binary_of ddrp_stage
  rw [rd8_wr32_outside _ _ _ _ (by omega), rd8_wr32_outside _ _ _ _ (by omega),
    (hframe _ _ _ _).2 j (by omega)]

/-- From offset 200 on the finished binary is the PHY stage. -/
theorem rd8_binary_of_high (ddrp : ddrp_generator) (config : ddr_config_t)
    (obj output : List Nat) (j : Nat) (hj : 200 ≤ j) :
    rd8 (binary_of ddrp config obj output) j = rd8 (ddrp_stage ddrp config obj output) j := by
  unfold binary_of
  rw [rd8_wr32_outside _ _ _ _ (by omega), rd8_wr32_outside _ _ _ _ (by omega)]

/-- The first 200 bytes of the finished binary. -/
theorem rd8_binary_of_head (ddrp : ddrp_generator) (config : ddr_config_t)
    (obj output : List Nat) (hframe : ddrp_writes_own_region ddrp)
    (hlen : 324 ≤ output.length) (j : Nat) (hj : j < 200) :
    rd8 (binary_of ddrp config obj output) j = binary_head_byte (ddrc_scratch config obj) j := by
  have hl2 : (ddrp_stage ddrp config obj output).length = output.length := by
    unfold ddrp_stage
    rw [(hframe _ _ _ _).1, length_ddrc_stage _ _ _ hlen]
  by_cases h192 : j < 192
  · rw [rd8_binary_of_low _ _ _ _ hframe j h192, rd8_ddrc_stage _ _ _ hlen]
    by_cases h132 : j < 132
    · rw [if_pos h132]
    · have h196 : j < 196 := by omega
      have e1 : ¬ j < 4 := by omega
      have e2 : ¬ j < 8 := by omega
      rw [if_neg h132, if_pos h196]
      unfold binary_head_byte
      rw [if_neg e1, if_neg e2, if_neg h132, if_pos h192]
  · unfold binary_of binary_head_byte
    have e1 : ¬ j < 4 := by omega
    have e2 : ¬ j < 8 := by omega
    have e3 : ¬ j < 132 := by omega
    rw [if_neg e1, if_neg e2, if_neg e3, if_neg h192]
    by_cases h196 : j < 196
    · obtain ⟨k, rfl⟩ : ∃ k, j = 192 + k := ⟨j - 192, by omega⟩
      rw [rd8_wr32_outside _ _ _ _ (by omega),
        rd8_wr32_inside _ _ _ _ (by omega) (by rw [hl2]; omega), if_pos h196,
        Nat.add_sub_cancel_left]
    · obtain ⟨k, rfl⟩ : ∃ k, j = 196 + k := ⟨j - 196, by omega⟩
      rw [rd8_wr32_inside _ _ _ _ (by omega) (by rw [length_wr32, hl2]; omega), if_neg h196,
        Nat.add_sub_cancel_left]

/-! ## Facts about the concrete inputs -/

theorem ddrp_zero_writes_own_region : ddrp_writes_own_region ddrp_zero := by
  intro config obj mem base
  simp only [ddrp_zero]
  refine ⟨length_memset0 _ _ _, fun j hj => ?_⟩
  rw [rd8_memset0]
  have : ¬ (base ≤ j ∧ j < base + 0x7c ∧ j < mem.length) := by omega
  rw [if_neg this]

theorem ddrp_zero_function_of_config_and_scratch :
    ddrp_function_of_config_and_scratch ddrp_zero := by
  intro config obj mem1 mem2 base h1 h2
  simp only [ddrp_zero]
  refine ⟨trivial, fun k hk => ?_⟩
  rw [rd8_memset0, rd8_memset0]
  have e1 : base ≤ base + k ∧ base + k < base + 0x7c ∧ base + k < mem1.length := by omega
  have e2 : base ≤ base + k ∧ base + k < base + 0x7c ∧ base + k < mem2.length := by omega
  rw [if_pos e1, if_pos e2]

theorem generate_buffer_aa :
    ddr_generate_binary ddrp_zero reference_config buffer_aa 324 = some (0, output_aa) := by
  rfl

theorem generate_buffer_55 :
    ddr_generate_binary ddrp_zero reference_config buffer_55 400 = some (0, output_55) := by
  rfl

theorem length_buffer_aa : buffer_aa.length = 324 := by
  rw [buffer_aa, List.length_replicate]

theorem length_buffer_55 : buffer_55.length = 400 := by
  rw [buffer_55, List.length_replicate]

theorem length_scratch_cfg43 : scratch_cfg43.length = 0x300 := by
  simp only [scratch_cfg43, length_wr32, List.length_replicate]

/-! ## Checksum engine -/

/-- C1. For every byte sequence, the empty one included, and in every state the
statics of `crc32.c` can be in (table not yet built, or built), the table-driven
`thingino_crc32` returns the bit-by-bit reference CRC-32 with reflected
polynomial `0xEDB88320`, initial value `0xFFFFFFFF` and final XOR `0xFFFFFFFF`. -/
theorem thingino_crc32_eq_reference (s : crc32_state) (hs : crc32_state_ok s)
    (bytes : List Nat) (hb : ∀ b ∈ bytes, b < 256) :
    (thingino_crc32 s (some bytes) bytes.length).1 = crc32_reference bytes := by
  unfold thingino_crc32
  simp only
  by_cases hl : bytes.length = 0
  · have : bytes = [] := List.length_eq_zero.mp hl
    subst this
    simp [crc32_reference]
  · simp only [hl, if_false]
    rw [foldl_range_rd8 (crc32_byte _) bytes,
      foldl_crc32_byte_eq_reference _ (crc32_table_lookup s hs) bytes hb]
    rfl

/-- Witness for C1: from the initial statics, the ASCII bytes of `"123456789"`
give the reference value, which is `0xCBF43926`. -/
theorem thingino_crc32_eq_reference_witness :
    crc32_state_ok crc32_state_init ∧ (∀ b ∈ check_bytes, b < 256) ∧
    (thingino_crc32 crc32_state_init (some check_bytes) check_bytes.length).1
      = crc32_reference check_bytes ∧
    crc32_reference check_bytes = 0xCBF43926 :=
  ⟨⟨by decide, by decide⟩, by decide,
    thingino_crc32_eq_reference crc32_state_init ⟨by decide, by decide⟩ check_bytes (by decide),
    by decide⟩

/-! ## Compiler orchestrator -/

/-- C2. Whenever `ddr_generate_binary` succeeds, with a PHY generator that
writes only its own 124-byte block, the output keeps its size and follows the
324-byte layout: bytes 0..3 are `FIDB`, bytes 4..7 are `0xB8` little-endian,
bytes 192..195 are `0x00 R D D`, bytes 196..199 are `0x7C` little-endian, bytes
8..191 are the controller block as `ddr_generate_ddrc_with_object` left it and
bytes 200..323 are the PHY block as the PHY generator left it. The sixteen
header bytes do not depend on the configuration. -/
theorem ddr_generate_binary_layout (ddrp : ddrp_generator) (config : ddr_config_t)
    (output : List Nat) (output_size : Nat) (out : List Nat)
    (hframe : ddrp_writes_own_region ddrp) (hsize : output_size ≤ output.length)
    (h : ddr_generate_binary ddrp config output output_size = some (0, out)) :
    out.length = output.length ∧
    (rd8 out 0 = 0x46 ∧ rd8 out 1 = 0x49 ∧ rd8 out 2 = 0x44 ∧ rd8 out 3 = 0x42) ∧
    (rd8 out 4 = 0xB8 ∧ rd8 out 5 = 0 ∧ rd8 out 6 = 0 ∧ rd8 out 7 = 0) ∧
    (rd8 out 192 = 0x00 ∧ rd8 out 193 = 0x52 ∧ rd8 out 194 = 0x44 ∧ rd8 out 195 = 0x44) ∧
    (rd8 out 196 = 0x7C ∧ rd8 out 197 = 0 ∧ rd8 out 198 = 0 ∧ rd8 out 199 = 0) ∧
    ∃ obj, ddr_init_object_buffer config (List.replicate 0x300 0) = some obj ∧
      (∀ j, 8 ≤ j → j < 192 →
        rd8 out j
          = rd8 (ddr_generate_ddrc_with_object config (some obj) (fidb_header output) 8).2.2 j) ∧
      (∀ j, 200 ≤ j → j < 324 →
        rd8 out j
          = rd8 (ddrp config (ddrc_scratch config obj)
              (ddr_generate_ddrc_with_object config (some obj) (fidb_header output) 8).2.2
              200).2.2 j) := by
  obtain ⟨hn, obj, hinit, hout⟩ :=
    ddr_generate_binary_success ddrp config output output_size out h
  have hlen : 324 ≤ output.length := by omega
  subst hout
  have hd := fun j hj => rd8_binary_of_head ddrp config obj output hframe hlen j hj
  refine ⟨length_binary_of ddrp config obj output hframe hlen, ⟨?_, ?_, ?_, ?_⟩, ⟨?_, ?_, ?_, ?_⟩,
    ⟨?_, ?_, ?_, ?_⟩, ⟨?_, ?_, ?_, ?_⟩, obj, hinit, ?_, ?_⟩
  · rw [hd 0 (by omega)]; rfl
  · rw [hd 1 (by omega)]; rfl
  · rw [hd 2 (by omega)]; rfl
  · rw [hd 3 (by omega)]; rfl
  · rw [hd 4 (by omega)]; rfl
  · rw [hd 5 (by omega)]; rfl
  · rw [hd 6 (by omega)]; rfl
  · rw [hd 7 (by omega)]; rfl
  · rw [hd 192 (by omega)]; rfl
  · rw [hd 193 (by omega)]; rfl
  · rw [hd 194 (by omega)]; rfl
  · rw [hd 195 (by omega)]; rfl
  · rw [hd 196 (by omega)]; rfl
  · rw [hd 197 (by omega)]; rfl
  · rw [hd 198 (by omega)]; rfl
  · rw [hd 199 (by omega)]; rfl
  · intro j _ hj
    rw [rd8_binary_of_low _ _ _ _ hframe j hj, ddr_generate_ddrc_with_object_some]
    unfold ddrc_stage
    dsimp only
  · intro j hj _
    rw [rd8_binary_of_high _ _ _ _ j hj, ddr_generate_ddrc_with_object_some]
    unfold ddrp_stage ddrc_stage
    dsimp only

/-- Witness for C2: the reference configuration compiled into a 324-byte buffer
of `0xAA` bytes, with a PHY generator that clears its block. -/
theorem ddr_generate_binary_layout_witness :
    ddrp_writes_own_region ddrp_zero ∧ 324 ≤ buffer_aa.length ∧
    ddr_generate_binary ddrp_zero reference_config buffer_aa 324 = some (0, output_aa) ∧
    output_aa.length = buffer_aa.length ∧
    (rd8 output_aa 0 = 0x46 ∧ rd8 output_aa 1 = 0x49 ∧ rd8 output_aa 2 = 0x44
      ∧ rd8 output_aa 3 = 0x42) :=
  ⟨ddrp_zero_writes_own_region, by rw [length_buffer_aa], generate_buffer_aa,
    (ddr_generate_binary_layout ddrp_zero reference_config buffer_aa 324 output_aa
      ddrp_zero_writes_own_region (by rw [length_buffer_aa]) generate_buffer_aa).1,
    (ddr_generate_binary_layout ddrp_zero reference_config buffer_aa 324 output_aa
      ddrp_zero_writes_own_region (by rw [length_buffer_aa]) generate_buffer_aa).2.1⟩

/-- C3. Two compilations of the same configuration, into any two buffers of
sufficient size and whatever those buffers held before (the contents left by
any compilation in between included), return the same code and, when they
succeed, yield the same 324 bytes. The PHY generator is assumed to write only
its own block and to be a function of its configuration and scratch arguments
only. -/
theorem ddr_generate_binary_idempotent (ddrp : ddrp_generator) (config : ddr_config_t)
    (output1 output2 : List Nat) (size1 size2 : Nat)
    (hframe : ddrp_writes_own_region ddrp) (hfun : ddrp_function_of_config_and_scratch ddrp)
    (h1 : 324 ≤ size1) (hs1 : size1 ≤ output1.length)
    (h2 : 324 ≤ size2) (hs2 : size2 ≤ output2.length) :
    (ddr_generate_binary ddrp config output1 size1).map Prod.fst
      = (ddr_generate_binary ddrp config output2 size2).map Prod.fst ∧
    ∀ out1 out2,
      ddr_generate_binary ddrp config output1 size1 = some (0, out1) →
      ddr_generate_binary ddrp config output2 size2 = some (0, out2) →
      ∀ j, j < 324 → rd8 out1 j = rd8 out2 j := by
  have hl1 : 324 ≤ output1.length := by omega
  have hl2 : 324 ≤ output2.length := by omega
  constructor
  · rw [ddr_generate_binary_eq, ddr_generate_binary_eq]
    have n1 : ¬ size1 < 324 := by omega
    have n2 : ¬ size2 < 324 := by omega
    rw [if_neg n1, if_neg n2]
    generalize List.replicate 0x300 0 = zeros
    cases ddr_init_object_buffer config zeros with
    | none => rfl
    | some obj =>
      simp only
      have hc := (hfun config (ddrc_scratch config obj) (ddrc_stage config obj output1)
        (ddrc_stage config obj output2) 200
        (by rw [length_ddrc_stage _ _ _ hl1]; omega)
        (by rw [length_ddrc_stage _ _ _ hl2]; omega)).1
      rw [hc]
      split_ifs <;> simp only [Option.map_some']
  · intro out1 out2 e1 e2 j hj
    obtain ⟨_, obj1, hinit1, hout1⟩ := ddr_generate_binary_success _ _ _ _ _ e1
    obtain ⟨_, obj2, hinit2, hout2⟩ := ddr_generate_binary_success _ _ _ _ _ e2
    have hobj : obj1 = obj2 := Option.some.inj (hinit1.symm.trans hinit2)
    subst hobj
    subst hout1
    subst hout2
    by_cases h200 : j < 200
    · rw [rd8_binary_of_head _ _ _ _ hframe hl1 j h200,
        rd8_binary_of_head _ _ _ _ hframe hl2 j h200]
    · rw [rd8_binary_of_high _ _ _ _ j (by omega), rd8_binary_of_high _ _ _ _ j (by omega)]
      obtain ⟨k, rfl⟩ : ∃ k, j = 200 + k := ⟨j - 200, by omega⟩
      exact (hfun config (ddrc_scratch config obj1) (ddrc_stage config obj1 output1)
        (ddrc_stage config obj1 output2) 200
        (by rw [length_ddrc_stage _ _ _ hl1]; omega)
        (by rw [length_ddrc_stage _ _ _ hl2]; omega)).2 k (by omega)

/-- Witness for C3: the reference configuration compiled into a 324-byte buffer
of `0xAA` bytes and into a 400-byte buffer of `0x55` bytes. -/
theorem ddr_generate_binary_idempotent_witness :
    ddrp_writes_own_region ddrp_zero ∧ ddrp_function_of_config_and_scratch ddrp_zero ∧
    (324 ≤ 324 ∧ 324 ≤ buffer_aa.length) ∧ (324 ≤ 400 ∧ 400 ≤ buffer_55.length) ∧
    ddr_generate_binary ddrp_zero reference_config buffer_aa 324 = some (0, output_aa) ∧
    ddr_generate_binary ddrp_zero reference_config buffer_55 400 = some (0, output_55) ∧
    rd8 output_aa 8 = rd8 output_55 8 ∧ rd8 output_aa 323 = rd8 output_55 323 :=
  ⟨ddrp_zero_writes_own_region, ddrp_zero_function_of_config_and_scratch,
    ⟨by decide, by rw [length_buffer_aa]⟩, ⟨by decide, by rw [length_buffer_55]⟩,
    generate_buffer_aa, generate_buffer_55,
    (ddr_generate_binary_idempotent ddrp_zero reference_config buffer_aa buffer_55 324 400
      ddrp_zero_writes_own_region ddrp_zero_function_of_config_and_scratch
      (by decide) (by rw [length_buffer_aa]) (by decide) (by rw [length_buffer_55])).2
      output_aa output_55 generate_buffer_aa generate_buffer_55 8 (by decide),
    (ddr_generate_binary_idempotent ddrp_zero reference_config buffer_aa buffer_55 324 400
      ddrp_zero_writes_own_region ddrp_zero_function_of_config_and_scratch
      (by decide) (by rw [length_buffer_aa]) (by decide) (by rw [length_buffer_55])).2
      output_aa output_55 generate_buffer_aa generate_buffer_55 323 (by decide)⟩

/-- C4. If `output_size < 324`, `ddr_generate_binary` returns -1 and the
caller's buffer is returned exactly as it was passed in. -/
theorem ddr_generate_binary_size_mismatch (ddrp : ddrp_generator) (config : ddr_config_t)
    (output : List Nat) (output_size : Nat) (h : output_size < 324) :
    ddr_generate_binary ddrp config output output_size = some (-1, output) := by
  unfold ddr_generate_binary
  rw [if_pos h]

/-- Witness for C4: a declared size of 323. -/
theorem ddr_generate_binary_size_mismatch_witness :
    323 < 324 ∧
    ddr_generate_binary ddrp_zero reference_config buffer_aa 323 = some (-1, buffer_aa) :=
  ⟨by decide,
    ddr_generate_binary_size_mismatch ddrp_zero reference_config buffer_aa 323 (by decide)⟩

/-- C5. After a successful `ddr_generate_binary`, every byte of the output
below offset 200 is determined by the configuration alone: two successful
compilations of one configuration agree there whatever the two buffers held
before and whichever PHY generators (writing only their own block) were used.
The bytes 132..191 that follow the 31 copied controller words are all zero. -/
theorem ddr_generate_binary_head_determined (ddrp1 ddrp2 : ddrp_generator)
    (config : ddr_config_t) (output1 output2 : List Nat) (size1 size2 : Nat)
    (out1 out2 : List Nat)
    (hframe1 : ddrp_writes_own_region ddrp1) (hframe2 : ddrp_writes_own_region ddrp2)
    (hs1 : size1 ≤ output1.length) (hs2 : size2 ≤ output2.length)
    (e1 : ddr_generate_binary ddrp1 config output1 size1 = some (0, out1))
    (e2 : ddr_generate_binary ddrp2 config output2 size2 = some (0, out2)) :
    (∀ j, j < 200 → rd8 out1 j = rd8 out2 j) ∧
    (∀ j, 132 ≤ j → j < 192 → rd8 out1 j = 0) := by
  obtain ⟨hn1, obj1, hinit1, hout1⟩ := ddr_generate_binary_success _ _ _ _ _ e1
  obtain ⟨hn2, obj2, hinit2, hout2⟩ := ddr_generate_binary_success _ _ _ _ _ e2
  have hobj : obj1 = obj2 := Option.some.inj (hinit1.symm.trans hinit2)
  subst hobj
  subst hout1
  subst hout2
  have hl1 : 324 ≤ output1.length := by omega
  have hl2 : 324 ≤ output2.length := by omega
  constructor
  · intro j hj
    rw [rd8_binary_of_head _ _ _ _ hframe1 hl1 j hj, rd8_binary_of_head _ _ _ _ hframe2 hl2 j hj]
  · intro j hlo hhi
    rw [rd8_binary_of_head _ _ _ _ hframe1 hl1 j (by omega)]
    unfold binary_head_byte
    have e1 : ¬ j < 4 := by omega
    have e2 : ¬ j < 8 := by omega
    have e3 : ¬ j < 132 := by omega
    rw [if_neg e1, if_neg e2, if_neg e3, if_pos hhi]

/-- Witness for C5: the reference configuration compiled into a buffer of `0xAA`
bytes and into a buffer of `0x55` bytes. -/
theorem ddr_generate_binary_head_determined_witness :
    ddrp_writes_own_region ddrp_zero ∧
    324 ≤ buffer_aa.length ∧ 400 ≤ buffer_55.length ∧
    ddr_generate_binary ddrp_zero reference_config buffer_aa 324 = some (0, output_aa) ∧
    ddr_generate_binary ddrp_zero reference_config buffer_55 400 = some (0, output_55) ∧
    rd8 output_aa 8 = rd8 output_55 8 ∧ rd8 output_aa 191 = 0 :=
  ⟨ddrp_zero_writes_own_region, by rw [length_buffer_aa], by rw [length_buffer_55],
    generate_buffer_aa, generate_buffer_55,
    (ddr_generate_binary_head_determined ddrp_zero ddrp_zero reference_config buffer_aa
      buffer_55 324 400 output_aa output_55 ddrp_zero_writes_own_region
      ddrp_zero_writes_own_region (by rw [length_buffer_aa]) (by rw [length_buffer_55])
      generate_buffer_aa generate_buffer_55).1 8 (by decide),
    (ddr_generate_binary_head_determined ddrp_zero ddrp_zero reference_config buffer_aa
      buffer_55 324 400 output_aa output_55 ddrp_zero_writes_own_region
      ddrp_zero_writes_own_region (by rw [length_buffer_aa]) (by rw [length_buffer_55])
      generate_buffer_aa generate_buffer_55).2 191 (by decide) (by decide)⟩

/-! ## Cycle converter -/

/-- C6, as the claim states it, fails: for a duration of 640000 ps and a period
of 2500 ps the ceiling is 256 cycles, and `ps2cycle_ceil`, whose return type is
`uint8_t`, returns 0. -/
theorem ps2cycle_ceil_truncates :
    0 < 2500 ∧ ceil_div 640000 2500 = 256 ∧ ps2cycle_ceil 640000 2500 = 0 ∧
    ps2cycle_ceil 640000 2500 ≠ ceil_div 640000 2500 := by
  have hc : ceil_div 640000 2500 = 256 := by rw [ceil_div_eq _ _ (by decide)]
  refine ⟨by decide, hc, by decide, ?_⟩
  rw [hc]
  decide

/-- C6, amended. For every duration and every positive period with
`duration + period - 1` below `2 ^ 32`, `ps2cycle_ceil` returns the ceiling of
`duration / period` reduced modulo 256 (its return type is `uint8_t`), hence the
ceiling itself whenever that is below 256; the macro `PS2CYCLE` of the register
generator returns the ceiling with no reduction. -/
theorem ps2cycle_ceil_eq_ceil_mod (duration_ps period_ps : Nat) (hp : 0 < period_ps)
    (hp32 : period_ps < 2 ^ 32) (hfit : duration_ps + period_ps - 1 < 2 ^ 32) :
    ps2cycle_ceil duration_ps period_ps = ceil_div duration_ps period_ps % 256 ∧
    (ceil_div duration_ps period_ps < 256 →
      ps2cycle_ceil duration_ps period_ps = ceil_div duration_ps period_ps) ∧
    PS2CYCLE period_ps duration_ps = ceil_div duration_ps period_ps := by
  have h1 : ps2cycle_ceil duration_ps period_ps = ceil_div duration_ps period_ps % 256 := by
    rw [ps2cycle_ceil_eq _ _ hp hfit, ceil_div_eq _ _ hp]
  refine ⟨h1, fun hlt => ?_, ?_⟩
  · rw [h1, Nat.mod_eq_of_lt hlt]
  · unfold PS2CYCLE PS2CYCLE_DIV
    rw [ceil_div_eq _ _ hp, Nat.mul_one, Nat.mod_eq_of_lt hp32]
    have e : (duration_ps + period_ps + 2 ^ 32 - 1) % 2 ^ 32 = duration_ps + period_ps - 1 := by
      omega
    rw [e]

/-- Witness for the amended C6: 45000 ps at a period of 2500 ps. -/
theorem ps2cycle_ceil_eq_ceil_mod_witness :
    0 < 2500 ∧ 2500 < 2 ^ 32 ∧ 45000 + 2500 - 1 < 2 ^ 32 ∧
    ps2cycle_ceil 45000 2500 = ceil_div 45000 2500 % 256 ∧ ps2cycle_ceil 45000 2500 = 18 :=
  ⟨by decide, by decide, by decide,
    (ps2cycle_ceil_eq_ceil_mod 45000 2500 (by decide) (by decide) (by decide)).1, by decide⟩

/-- C7, as the claim states it, fails: for the positive period `2 ^ 31 + 1` the
32-bit sum `ps + ps_per_tck - 1` wraps and `ps2cycle_ceil(period, period)` is 0,
not 1. -/
theorem ps2cycle_ceil_boundary_wraps :
    0 < 2147483649 ∧ 2147483649 < 2 ^ 32 ∧ ps2cycle_ceil 2147483649 2147483649 = 0 ∧
    ps2cycle_ceil 2147483649 2147483649 ≠ 1 := by
  decide

/-- C7, amended. For any positive period below `2 ^ 31`:
`ps2cycle_ceil(0, period) = 0`, `ps2cycle_ceil(period, period) = 1` and
`ps2cycle_ceil(period + 1, period) = 2`. -/
theorem ps2cycle_ceil_boundaries (period : Nat) (hp : 0 < period) (hlt : period < 2 ^ 31) :
    ps2cycle_ceil 0 period = 0 ∧ ps2cycle_ceil period period = 1 ∧
    ps2cycle_ceil (period + 1) period = 2 := by
  refine ⟨rfl, ?_, ?_⟩
  · rw [ps2cycle_ceil_eq _ _ hp (by omega)]
    have : (period + period - 1) / period = 1 := by
      apply Nat.div_eq_of_lt_le <;> omega
    rw [this]
  · rw [ps2cycle_ceil_eq _ _ hp (by omega)]
    have : (period + 1 + period - 1) / period = 2 := by
      apply Nat.div_eq_of_lt_le <;> omega
    rw [this]

/-- Witness for the amended C7: a period of 2500 ps. -/
theorem ps2cycle_ceil_boundaries_witness :
    0 < 2500 ∧ 2500 < 2 ^ 31 ∧
    ps2cycle_ceil 0 2500 = 0 ∧ ps2cycle_ceil 2500 2500 = 1 ∧ ps2cycle_ceil (2500 + 1) 2500 = 2 :=
  ⟨by decide, by decide, ps2cycle_ceil_boundaries 2500 (by decide) (by decide)⟩

/-- C8, as the claim states it, fails: for 127500 ps at a period of 2500 ps the
code's refresh-cycle expression is 26, while `ceil(127500 / (2 * 2500)) / 2`
is 13. -/
theorem tRFC_halved_not_halved_twice :
    0 < 2500 ∧ tRFC_halved 127500 2500 = 26 ∧ ps_to_cycles_ceil_halved 127500 2500 = 13 ∧
    tRFC_halved 127500 2500 ≠ ps_to_cycles_ceil_halved 127500 2500 := by
  have hs : ps_to_cycles_ceil_halved 127500 2500 = 13 := by
    unfold ps_to_cycles_ceil_halved
    rw [ceil_div_eq _ _ (by decide)]
  refine ⟨by decide, by decide, hs, ?_⟩
  rw [hs]
  decide

/-- C8, amended. For every duration and positive period with
`duration + 2 * period - 1` below `2 ^ 32`, the refresh-cycle expression of the
code is `((duration + 2 * period - 1) / period) / 2` with integer division at
both steps, and that value is `ceil(duration / (2 * period))`, with no further
halving. -/
theorem tRFC_halved_eq_ceil (duration_ps period_ps : Nat) (hp : 0 < period_ps)
    (hfit : duration_ps + 2 * period_ps - 1 < 2 ^ 32) :
    tRFC_halved duration_ps period_ps = (duration_ps + 2 * period_ps - 1) / period_ps / 2 ∧
    tRFC_halved duration_ps period_ps = ceil_div duration_ps (2 * period_ps) := by
  have h1 := tRFC_halved_eq duration_ps period_ps hfit hp
  refine ⟨h1, ?_⟩
  rw [h1, ceil_div_eq _ _ (by omega), Nat.div_div_eq_div_mul, Nat.mul_comm period_ps 2]

/-- Witness for the amended C8: 127500 ps at a period of 2500 ps. -/
theorem tRFC_halved_eq_ceil_witness :
    0 < 2500 ∧ 127500 + 2 * 2500 - 1 < 2 ^ 32 ∧
    tRFC_halved 127500 2500 = ceil_div 127500 (2 * 2500) :=
  ⟨by decide, by decide, (tRFC_halved_eq_ceil 127500 2500 (by decide) (by decide)).2⟩

/-- C9. For 127500 ps at a period of 2500 ps the refresh-cycle expression of
the code equals `((127500 + 2 * 2500 - 1) / 2500) / 2` with truncating division
at each step, that is 26, and 26 is what is stored in the `uint8_t` field
`params.tRFC`. -/
theorem tRFC_halved_reference_value :
    tRFC_halved 127500 2500 = ((127500 + 2 * 2500 - 1) / 2500) / 2 ∧
    ((127500 + 2 * 2500 - 1) / 2500) / 2 = 26 ∧ tRFC_halved 127500 2500 = 26 ∧
    params_tRFC 127500 2500 = 26 := by
  decide

/-! ## TXX controller registers -/

/-- C10. For every scratch object of the generator's size (0x300 bytes), after
`ddr_generate_ddrc_txx_ddr2` CFG byte 0 (scratch offset 0x7c) is
`(cs1_en & 1) << 7 | (cs0_en & 1) << 6 | (bank_bits & 1) << 1 | (data_width & 1)`,
where the four values are the parameter words at 0x128, 0x124, 0x14c and 0x12c
before the call; bits 2 to 5 are zero; and for `cs0_en = 1`, `cs1_en = 0`,
`bank_bits = 1`, `data_width = 1` the byte is `0x43`. -/
theorem ddr_generate_ddrc_txx_ddr2_cfg_byte0 (config : ddr_config_t) (obj : List Nat)
    (hlen : obj.length = 0x300) :
    rd8 (ddr_generate_ddrc_txx_ddr2 config obj).2 0x7c
      = ((rd32 obj 0x128 &&& 1) <<< 7) ||| ((rd32 obj 0x124 &&& 1) <<< 6)
        ||| ((rd32 obj 0x14c &&& 1) <<< 1) ||| (rd32 obj 0x12c &&& 1) ∧
    rd8 (ddr_generate_ddrc_txx_ddr2 config obj).2 0x7c &&& 0x3c = 0 ∧
    (rd32 obj 0x124 = 1 → rd32 obj 0x128 = 0 → rd32 obj 0x14c = 1 → rd32 obj 0x12c = 1 →
      rd8 (ddr_generate_ddrc_txx_ddr2 config obj).2 0x7c = 0x43) := by
  have hmain : rd8 (ddr_generate_ddrc_txx_ddr2 config obj).2 0x7c
      = ((rd32 obj 0x128 &&& 1) <<< 7) ||| ((rd32 obj 0x124 &&& 1) <<< 6)
        ||| ((rd32 obj 0x14c &&& 1) <<< 1) ||| (rd32 obj 0x12c &&& 1) := by
    unfold ddr_generate_ddrc_txx_ddr2
    simp only []
    rw [rd8_wr32_outside _ _ _ _ (by omega), rd8_wr32_outside _ _ _ _ (by omega),
      rd8_wr32_outside _ _ _ _ (by omega), rd8_txx_cfg_byte3_ne _ _ _ _ _ _ _ _ _ (by omega),
      rd8_txx_cfg_type_ne _ _ _ _ _ (by omega), rd8_txx_cfg_byte2_ne _ _ _ _ _ (by omega),
      rd8_txx_cfg_byte1_ne _ _ _ _ _ _ (by omega),
      rd8_txx_cfg_byte0_self _ _ _ _ _ _ (by rw [length_memset0, hlen]; omega)]
    exact cfg_byte0_bits _ _ _ _
  refine ⟨hmain, ?_, ?_⟩
  · rw [hmain]
    simp only [Nat.and_one_is_mod]
    rcases Nat.mod_two_eq_zero_or_one (rd32 obj 0x128) with a | a <;>
      rcases Nat.mod_two_eq_zero_or_one (rd32 obj 0x124) with b | b <;>
      rcases Nat.mod_two_eq_zero_or_one (rd32 obj 0x14c) with c | c <;>
      rcases Nat.mod_two_eq_zero_or_one (rd32 obj 0x12c) with d | d <;>
      rw [a, b, c, d] <;> rfl
  · intro h0 h1 hb hd
    rw [hmain, h0, h1, hb, hd]
    rfl

/-- Witness for C10: a zeroed scratch object with `cs0_en = 1`, `cs1_en = 0`,
`bank_bits = 1` and `data_width = 1` stored in its parameter block. -/
theorem ddr_generate_ddrc_txx_ddr2_cfg_byte0_witness :
    scratch_cfg43.length = 0x300 ∧
    rd8 (ddr_generate_ddrc_txx_ddr2 reference_config scratch_cfg43).2 0x7c = 0x43 :=
  ⟨length_scratch_cfg43,
    (ddr_generate_ddrc_txx_ddr2_cfg_byte0 reference_config scratch_cfg43
      length_scratch_cfg43).2.2 (by rfl) (by rfl) (by rfl) (by rfl)⟩

/-! ## Word reads and writes -/

theorem rd32_congr (b1 b2 : List Nat) (off1 off2 : Nat)
    (h : ∀ i, i < 4 → rd8 b1 (off1 + i) = rd8 b2 (off2 + i)) : rd32 b1 off1 = rd32 b2 off2 := by
  unfold rd32
  have h0 := h 0 (by omega)
  rw [Nat.add_zero, Nat.add_zero] at h0
  rw [h0, h 1 (by omega), h 2 (by omega), h 3 (by omega)]

theorem rd32_of_bytes (b : List Nat) (off v : Nat)
    (h : ∀ i, i < 4 → rd8 b (off + i) = v / 256 ^ i % 256) : rd32 b off = v % 2 ^ 32 := by
  unfold rd32
  have h0 := h 0 (by omega)
  have h1 := h 1 (by omega)
  have h2 := h 2 (by omega)
  have h3 := h 3 (by omega)
  rw [Nat.add_zero] at h0
  rw [h0, h1, h2, h3]
  norm_num
  omega

theorem rd32_wr32_same (b : List Nat) (off v : Nat) (h : off + 4 ≤ b.length) :
    rd32 (wr32 b off v) off = v % 2 ^ 32 :=
  rd32_of_bytes _ _ _ (fun i hi => rd8_wr32_inside b off v i hi h)

theorem rd32_wr32_ne (b : List Nat) (off v off2 : Nat) (h : off2 + 4 ≤ off ∨ off + 4 ≤ off2) :
    rd32 (wr32 b off v) off2 = rd32 b off2 :=
  rd32_congr _ _ _ _ (fun i hi => rd8_wr32_outside b off v (off2 + i) (by omega))

theorem rd32_lt (b : List Nat) (off : Nat) (h : ∀ j, rd8 b j < 256) : rd32 b off < 2 ^ 32 := by
  unfold rd32
  have h0 := h off
  have h1 := h (off + 1)
  have h2 := h (off + 2)
  have h3 := h (off + 3)
  omega

/-! ## Masks as arithmetic -/

theorem and_mask (x k n : Nat) : x &&& (2 ^ k * (2 ^ n - 1)) = 2 ^ k * (x / 2 ^ k % 2 ^ n) := by
  apply Nat.eq_of_testBit_eq
  intro i
  rw [Nat.testBit_and, Nat.testBit_mul_pow_two, Nat.testBit_mul_pow_two,
    Nat.testBit_two_pow_sub_one, Nat.testBit_mod_two_pow, ← Nat.shiftRight_eq_div_pow,
    Nat.testBit_shiftRight]
  by_cases hik : k ≤ i
  · have e : k + (i - k) = i := by omega
    rw [e]
    cases x.testBit i <;> simp [hik]
  · simp [hik]

theorem and_7 (x : Nat) : x &&& 7 = x % 8 := by
  have h := and_mask x 0 3
  norm_num at h
  exact h

theorem and_0x38 (x : Nat) : x &&& 0x38 = 8 * (x / 8 % 8) := by
  have h := and_mask x 3 3
  norm_num at h
  exact h

theorem and_0x3f (x : Nat) : x &&& 0x3f = x % 64 := by
  have h := and_mask x 0 6
  norm_num at h
  exact h

theorem and_0xc0 (x : Nat) : x &&& 0xc0 = 64 * (x / 64 % 4) := by
  have h := and_mask x 6 2
  norm_num at h
  exact h

theorem and_0xf0 (x : Nat) : x &&& 0xf0 = 16 * (x / 16 % 16) := by
  have h := and_mask x 4 4
  norm_num at h
  exact h

theorem and_0xf (x : Nat) : x &&& 0xf = x % 16 := by
  have h := and_mask x 0 4
  norm_num at h
  exact h

theorem and_0xff (x : Nat) : x &&& 0xff = x % 256 := by
  have h := and_mask x 0 8
  norm_num at h
  exact h

/-! ## The TXX generator: the CFG bytes -/

theorem rd8_txx_cfg_byte1_self (b : List Nat) (p cs0_en row0 col0 j : Nat) (hj : j = p + 1)
    (h : j < b.length) :
    rd8 (txx_cfg_byte1 b p cs0_en row0 col0) j
      = if cs0_en = 0 then ((rd8 b j &&& 0xc0) ||| 0x80) % 256
        else ((rd8 b j &&& 0xc0) ||| 0x80 ||| (((row0 * 8 + 0x20) % 2 ^ 32) &&& 0x38) % 256
          ||| ((col0 % 256) &&& 7)) % 256 := by
  subst hj
  unfold txx_cfg_byte1
  split
  · simp only []
    rw [rd8_wr8_eq _ _ _ (by simp only [length_wr8]; exact h)]
  · simp only []
    rw [rd8_wr8_eq _ _ _ (by simp only [length_wr8]; exact h)]

theorem rd8_txx_cfg_byte2_self (b : List Nat) (p bank_bits burst_length j : Nat)
    (hj : j = p + 2) (h : j < b.length) :
    rd8 (txx_cfg_byte2 b p bank_bits burst_length) j
      = ((rd8 b j &&& 0x5f) ||| (bank_bits <<< 7) % 256 ||| 0x40
          ||| ((if burst_length = 8 then 1 else 0) <<< 5)) % 256 := by
  subst hj
  simp only [txx_cfg_byte2]
  rw [rd8_wr8_eq _ _ _ (by simp only [length_wr8]; exact h)]

/-- The low nibble that the `TYPE` switch stores for a technology code below 5. -/
theorem rd8_txx_cfg_type_self (b : List Nat) (p bVar10 ddr_type j : Nat) (hj : j = p + 2)
    (h : j < b.length) :
    rd8 (txx_cfg_type b p bVar10 ddr_type) j
      = if ddr_type < 5 then
          ((bVar10 &&& 0xf0) |||
            (if ddr_type = 0 then 0xc else if ddr_type = 1 then 6
              else if ddr_type = 4 then 8 else 10)) % 256
        else rd8 b j := by
  subst hj
  unfold txx_cfg_type
  split_ifs <;> first | rfl | rw [rd8_wr8_eq _ _ _ h]

theorem rd8_txx_cfg_byte3_self (b : List Nat) (p bVar10 cs1_en row0 col0 row1 col1 j : Nat)
    (hj : j = p + 3) (h : j < b.length) :
    rd8 (txx_cfg_byte3 b p bVar10 cs1_en row0 col0 row1 col1) j
      = if cs1_en = 0 then
          ((bVar10 &&& 0xc0) ||| (((row0 * 8 + 0x20) % 2 ^ 32) &&& 0x38) % 256
            ||| ((col0 % 256) &&& 7)) % 256
        else
          ((bVar10 &&& 0xc0) ||| (((row1 * 8 + 0x20) % 2 ^ 32) &&& 0x38) % 256
            ||| ((col1 % 256) &&& 7)) % 256 := by
  subst hj
  unfold txx_cfg_byte3
  split
  · simp only []
    rw [rd8_wr8_eq _ _ _ (by simp only [length_wr8]; exact h)]
  · simp only []
    rw [rd8_wr8_eq _ _ _ (by simp only [length_wr8]; exact h)]

theorem row_field_u8 (x : Nat) : ((x % 2 ^ 32) &&& 0x38) % 256 = 8 * (x / 8 % 8) := by
  rw [and_0x38]; omega

theorem col_field_u8 (c : Nat) : (c % 256) &&& 7 = c % 8 := by
  rw [and_7]; omega

theorem cfg_byte1_small :
    ∀ R C : Fin 8, ((0 &&& 0xc0) ||| 0x80 ||| 8 * R.val ||| C.val) % 256
      = 0x80 ||| 8 * R.val ||| C.val := by
  decide

theorem cfg_byte1_bits (x c : Nat) :
    ((0 &&& 0xc0) ||| 0x80 ||| (((x % 2 ^ 32) &&& 0x38) % 256) ||| ((c % 256) &&& 7)) % 256
      = 0x80 ||| (x &&& 0x38) ||| (c &&& 7) := by
  rw [row_field_u8, col_field_u8, and_0x38, and_7]
  exact cfg_byte1_small ⟨x / 8 % 8, Nat.mod_lt _ (by decide)⟩ ⟨c % 8, Nat.mod_lt _ (by decide)⟩

theorem cfg_byte3_small :
    ∀ A : Fin 4, ∀ R C : Fin 8, ((64 * A.val ||| 8 * R.val ||| C.val) % 256) &&& 0x3f
      = 8 * R.val ||| C.val := by
  decide

theorem cfg_byte3_bits (a x c : Nat) :
    (((a &&& 0xc0) ||| (((x % 2 ^ 32) &&& 0x38) % 256) ||| ((c % 256) &&& 7)) % 256) &&& 0x3f
      = (x &&& 0x38) ||| (c &&& 7) := by
  rw [row_field_u8, col_field_u8, and_0x38, and_7, and_0xc0]
  exact cfg_byte3_small ⟨a / 64 % 4, Nat.mod_lt _ (by decide)⟩
    ⟨x / 8 % 8, Nat.mod_lt _ (by decide)⟩ ⟨c % 8, Nat.mod_lt _ (by decide)⟩

theorem cfg_byte2_bits (bank_bits burst_length ddr_type : Nat) :
    (if ddr_type < 5 then
        (((((0 &&& 0x5f) ||| (bank_bits <<< 7) % 256 ||| 0x40
            ||| ((if burst_length = 8 then 1 else 0) <<< 5)) % 256) &&& 0xf0) |||
          (if ddr_type = 0 then 0xc else if ddr_type = 1 then 6
            else if ddr_type = 4 then 8 else 10)) % 256
      else ((0 &&& 0x5f) ||| (bank_bits <<< 7) % 256 ||| 0x40
            ||| ((if burst_length = 8 then 1 else 0) <<< 5)) % 256)
      = ((bank_bits &&& 1) <<< 7) ||| 0x40 ||| ((if burst_length = 8 then 1 else 0) <<< 5)
        ||| (if ddr_type = 0 then 0xc else if ddr_type = 1 then 6 else if ddr_type = 4 then 8
              else if ddr_type < 5 then 0xa else 0) := by
  have hb : (bank_bits <<< 7) % 256 = (bank_bits &&& 1) <<< 7 := by
    simp only [Nat.shiftLeft_eq, Nat.and_one_is_mod]; omega
  rw [hb, Nat.and_one_is_mod]
  rcases Nat.mod_two_eq_zero_or_one bank_bits with hbank | hbank <;> rw [hbank] <;>
    by_cases hbl : burst_length = 8 <;> simp only [hbl, if_true, if_false] <;>
    by_cases h0 : ddr_type = 0 <;> try (subst h0; rfl)
  all_goals
    by_cases h1 : ddr_type = 1 <;> try (subst h1; rfl)
  all_goals
    by_cases h4 : ddr_type = 4 <;> try (subst h4; rfl)
  all_goals
    by_cases h5 : ddr_type < 5 <;> simp only [h0, h1, h4, h5, if_true, if_false] <;> rfl

/-! ## The TXX generator as a whole -/

theorem ddr_generate_ddrc_txx_ddr2_eq (config : ddr_config_t) (obj : List Nat) :
    (ddr_generate_ddrc_txx_ddr2 config obj).2
      = wr32 (wr32 (txx_ctrl_stage obj) 0x90
          (txx_mmap (rd32 (txx_ctrl_stage obj) 0x150) (rd32 (txx_ctrl_stage obj) 0x154)).1)
          0x94 (txx_mmap (rd32 (txx_ctrl_stage obj) 0x150) (rd32 (txx_ctrl_stage obj) 0x154)).2 := by
  unfold ddr_generate_ddrc_txx_ddr2 txx_ctrl_stage
  rfl

theorem length_txx_ctrl_stage (obj : List Nat) : (txx_ctrl_stage obj).length = obj.length := by
  unfold txx_ctrl_stage
  simp only [length_wr32, length_txx_cfg_byte3, length_txx_cfg_type, length_txx_cfg_byte2,
    length_txx_cfg_byte1, length_txx_cfg_byte0, length_memset0]

theorem length_ddr_generate_ddrc_txx_ddr2 (config : ddr_config_t) (obj : List Nat) :
    (ddr_generate_ddrc_txx_ddr2 config obj).2.length = obj.length := by
  rw [ddr_generate_ddrc_txx_ddr2_eq, length_wr32, length_wr32, length_txx_ctrl_stage]

/-- Up to the CTRL store the generator touches bytes 0x7c to 0xcb only. -/
theorem rd8_txx_ctrl_stage_outside (obj : List Nat) (j : Nat) (h : j < 0x7c ∨ 0xcc ≤ j) :
    rd8 (txx_ctrl_stage obj) j = rd8 obj j := by
  unfold txx_ctrl_stage
  simp only []
  rw [rd8_wr32_outside _ _ _ _ (by omega), rd8_txx_cfg_byte3_ne _ _ _ _ _ _ _ _ _ (by omega),
    rd8_txx_cfg_type_ne _ _ _ _ _ (by omega), rd8_txx_cfg_byte2_ne _ _ _ _ _ (by omega),
    rd8_txx_cfg_byte1_ne _ _ _ _ _ _ (by omega),
    rd8_txx_cfg_byte0_ne _ _ _ _ _ _ _ (by omega), rd8_memset0]
  have : ¬ (0x7c ≤ j ∧ j < 0x7c + 80 ∧ j < obj.length) := by omega
  rw [if_neg this]

theorem rd32_txx_ctrl_stage_outside (obj : List Nat) (off : Nat)
    (h : off + 4 ≤ 0x7c ∨ 0xcc ≤ off) : rd32 (txx_ctrl_stage obj) off = rd32 obj off :=
  rd32_congr _ _ _ _ (fun i hi => rd8_txx_ctrl_stage_outside obj (off + i) (by omega))

/-- The generator as a whole touches bytes 0x7c to 0xcb only. -/
theorem rd8_ddr_generate_ddrc_txx_ddr2_outside (config : ddr_config_t) (obj : List Nat) (j : Nat)
    (h : j < 0x7c ∨ 0xcc ≤ j) : rd8 (ddr_generate_ddrc_txx_ddr2 config obj).2 j = rd8 obj j := by
  rw [ddr_generate_ddrc_txx_ddr2_eq, rd8_wr32_outside _ _ _ _ (by omega),
    rd8_wr32_outside _ _ _ _ (by omega), rd8_txx_ctrl_stage_outside _ _ h]

/-- The CFG bytes and the CTRL word are final once the CTRL store is done. -/
theorem rd8_ddr_generate_ddrc_txx_ddr2_low (config : ddr_config_t) (obj : List Nat) (j : Nat)
    (h : j < 0x90) :
    rd8 (ddr_generate_ddrc_txx_ddr2 config obj).2 j = rd8 (txx_ctrl_stage obj) j := by
  rw [ddr_generate_ddrc_txx_ddr2_eq, rd8_wr32_outside _ _ _ _ (by omega),
    rd8_wr32_outside _ _ _ _ (by omega)]

theorem dmmap_rows_lt : ∀ e ∈ dmmap, e.2.2.1 < 2 ^ 32 ∧ e.2.2.2 < 2 ^ 32 := by
  decide

theorem txx_mmap_lt (cs0_size cs1_size : Nat) :
    (txx_mmap cs0_size cs1_size).1 < 2 ^ 32 ∧ (txx_mmap cs0_size cs1_size).2 < 2 ^ 32 := by
  unfold txx_mmap
  simp only []
  cases hl : dmmap_lookup ((cs0_size + cs1_size) % 2 ^ 32) cs1_size with
  | some m =>
    simp only []
    unfold dmmap_lookup at hl
    rw [Option.map_eq_some'] at hl
    obtain ⟨e, he, hm⟩ := hl
    have hmem := List.mem_of_find?_eq_some he
    rw [← hm]
    exact dmmap_rows_lt e hmem
  | none =>
    simp only []
    unfold dmmap_fallback
    have hff : (0xff : Nat) < 2 ^ 32 := by decide
    split_ifs
    · exact ⟨Nat.or_lt_two_pow (by decide) (Nat.and_lt_two_pow _ hff),
        Nat.or_lt_two_pow (Nat.mod_lt _ (by decide)) (Nat.and_lt_two_pow _ hff)⟩
    · exact ⟨Nat.two_pow_pos 32, Nat.or_lt_two_pow (by decide) (Nat.and_lt_two_pow _ hff)⟩
    · have hmask : not32 (((cs0_size + cs1_size) % 2 ^ 32) >>> 24) < 2 ^ 32 := by
        unfold not32; omega
      exact ⟨Nat.and_lt_two_pow _ hmask,
        Nat.or_lt_two_pow (Nat.and_lt_two_pow _ hmask) (Nat.mod_lt _ (by decide))⟩

/-- The memory-map words that the generator stores at 0x90 and 0x94. -/
theorem rd32_ddr_generate_ddrc_txx_ddr2_mmap (config : ddr_config_t) (obj : List Nat)
    (hlen : obj.length = 0x300) :
    rd32 (ddr_generate_ddrc_txx_ddr2 config obj).2 0x90
      = (txx_mmap (rd32 obj 0x150) (rd32 obj 0x154)).1 ∧
    rd32 (ddr_generate_ddrc_txx_ddr2 config obj).2 0x94
      = (txx_mmap (rd32 obj 0x150) (rd32 obj 0x154)).2 := by
  rw [ddr_generate_ddrc_txx_ddr2_eq, rd32_txx_ctrl_stage_outside _ _ (by omega),
    rd32_txx_ctrl_stage_outside _ _ (by omega)]
  have hl : (txx_ctrl_stage obj).length = 0x300 := by rw [length_txx_ctrl_stage, hlen]
  constructor
  · rw [rd32_wr32_ne _ _ _ _ (by omega), rd32_wr32_same _ _ _ (by omega),
      Nat.mod_eq_of_lt (txx_mmap_lt _ _).1]
  · rw [rd32_wr32_same _ _ _ (by rw [length_wr32]; omega), Nat.mod_eq_of_lt (txx_mmap_lt _ _).2]

/-- The bytes of the cleared register area before any store. -/
theorem rd8_cleared (obj : List Nat) (hlen : obj.length = 0x300) (j : Nat)
    (h : 0x7c ≤ j ∧ j < 0xcc) : rd8 (memset0 obj 0x7c 80) j = 0 := by
  rw [rd8_memset0]
  have : 0x7c ≤ j ∧ j < 0x7c + 80 ∧ j < obj.length := by omega
  rw [if_pos this]

theorem rd8_txx_ctrl_stage_byte1 (obj : List Nat) (hlen : obj.length = 0x300) :
    rd8 (txx_ctrl_stage obj) 0x7d
      = if rd32 obj 0x124 = 0 then 0x80
        else 0x80 ||| ((rd32 obj 0x140 * 8 + 0x20) &&& 0x38) ||| (rd32 obj 0x13c &&& 7) := by
  unfold txx_ctrl_stage
  simp only []
  rw [rd8_wr32_outside _ _ _ _ (by omega), rd8_txx_cfg_byte3_ne _ _ _ _ _ _ _ _ _ (by omega),
    rd8_txx_cfg_type_ne _ _ _ _ _ (by omega), rd8_txx_cfg_byte2_ne _ _ _ _ _ (by omega),
    rd8_txx_cfg_byte1_self _ _ _ _ _ _ (by norm_num)
      (by rw [length_txx_cfg_byte0, length_memset0, hlen]; omega),
    rd8_txx_cfg_byte0_ne _ _ _ _ _ _ _ (by omega), rd8_cleared _ hlen _ (by omega)]
  split
  · rfl
  · exact cfg_byte1_bits _ _

/-- The value of CFG byte 2 before the `TYPE` switch, the one kept in `bVar10`. -/
theorem rd8_txx_byte2_pre (obj : List Nat) (hlen : obj.length = 0x300)
    (a1 a2 a3 a4 b1 b2 b3 bank_bits burst_length : Nat) :
    rd8 (txx_cfg_byte2 (txx_cfg_byte1 (txx_cfg_byte0 (memset0 obj 0x7c 80) 0x7c a1 a2 a3 a4)
        0x7c b1 b2 b3) 0x7c bank_bits burst_length) (0x7c + 2)
      = ((0 &&& 0x5f) ||| (bank_bits <<< 7) % 256 ||| 0x40
          ||| ((if burst_length = 8 then 1 else 0) <<< 5)) % 256 := by
  rw [rd8_txx_cfg_byte2_self _ _ _ _ _ rfl
      (by rw [length_txx_cfg_byte1, length_txx_cfg_byte0, length_memset0, hlen]; omega),
    rd8_txx_cfg_byte1_ne _ _ _ _ _ _ (by omega), rd8_txx_cfg_byte0_ne _ _ _ _ _ _ _ (by omega),
    rd8_cleared _ hlen _ (by omega)]

theorem rd8_txx_ctrl_stage_byte2 (obj : List Nat) (hlen : obj.length = 0x300) :
    rd8 (txx_ctrl_stage obj) 0x7e
      = ((rd32 obj 0x14c &&& 1) <<< 7) ||| 0x40
        ||| ((if rd32 obj 0x138 = 8 then 1 else 0) <<< 5)
        ||| (if rd32 obj 0x118 = 0 then 0xc else if rd32 obj 0x118 = 1 then 6
              else if rd32 obj 0x118 = 4 then 8 else if rd32 obj 0x118 < 5 then 0xa else 0) := by
  unfold txx_ctrl_stage
  simp only []
  rw [rd8_wr32_outside _ _ _ _ (by omega), rd8_txx_cfg_byte3_ne _ _ _ _ _ _ _ _ _ (by omega),
    rd8_txx_cfg_type_self _ _ _ _ _ (by norm_num)
      (by rw [length_txx_cfg_byte2, length_txx_cfg_byte1, length_txx_cfg_byte0, length_memset0,
        hlen]; omega)]
  have e : (0x7e : Nat) = 0x7c + 2 := by norm_num
  rw [e, rd8_txx_byte2_pre _ hlen]
  exact cfg_byte2_bits _ _ _

theorem rd8_txx_ctrl_stage_byte3 (obj : List Nat) (hlen : obj.length = 0x300) :
    rd8 (txx_ctrl_stage obj) 0x7f &&& 0x3f
      = if rd32 obj 0x128 = 0 then
          ((rd32 obj 0x140 * 8 + 0x20) &&& 0x38) ||| (rd32 obj 0x13c &&& 7)
        else ((rd32 obj 0x148 * 8 + 0x20) &&& 0x38) ||| (rd32 obj 0x144 &&& 7) := by
  unfold txx_ctrl_stage
  simp only []
  rw [rd8_wr32_outside _ _ _ _ (by omega),
    rd8_txx_cfg_byte3_self _ _ _ _ _ _ _ _ _ (by norm_num)
      (by rw [length_txx_cfg_type, length_txx_cfg_byte2, length_txx_cfg_byte1,
        length_txx_cfg_byte0, length_memset0, hlen]; omega)]
  split
  · exact cfg_byte3_bits _ _ _
  · exact cfg_byte3_bits _ _ _

/-! ## Scratch object population -/

theorem ddr_init_object_buffer_words (config : ddr_config_t) (obj : List Nat)
    (hobj : obj.length = 0x300) (hclk : config.clock_mhz % 2 ^ 32 ≠ 0) :
    ∃ o, ddr_init_object_buffer config obj = some o ∧ o.length = 0x300 ∧
      rd32 o 0x118 = (if config.type = DDR_TYPE_DDR2 then 4 else config.type) % 2 ^ 32 ∧
      rd32 o 0x13c = (config.col_bits + 2 ^ 32 - 4) % 2 ^ 32 ∧
      rd32 o 0x140 = (config.row_bits + 2 ^ 32 - 11) % 2 ^ 32 ∧
      rd32 o 0x144 = (config.col_bits + 2 ^ 32 - 4) % 2 ^ 32 ∧
      rd32 o 0x148 = (config.row_bits + 2 ^ 32 - 11) % 2 ^ 32 ∧
      rd32 o 0x150 = ((shl1 config.row_bits * shl1 config.col_bits * 8
          * (config.data_width % 2 ^ 32 / 8)) % 2 ^ 32) / 1024 / 1024 % 2 ^ 32 ∧
      rd32 o 0x154 = 0 ∧
      rd32 o 0x22c = (1000000 / (config.clock_mhz % 2 ^ 32)) % 2 ^ 32 := by
  unfold ddr_init_object_buffer
  rw [if_neg hclk]
  simp only []
  refine ⟨_, rfl, ?_, ?_, ?_, ?_, ?_, ?_, ?_, ?_, ?_⟩
  · simp only [length_wr32, hobj]
  all_goals
    simp (disch := first | omega | (simp only [length_wr32, hobj]; omega)) only
      [rd32_wr32_ne, rd32_wr32_same, Nat.reduceAdd, Nat.reduceMul, Nat.zero_mod]

/-! ## Buffers of bytes -/

theorem bytes_ok_wr8 (b : List Nat) (i v : Nat) (h : bytes_ok b) : bytes_ok (wr8 b i v) := by
  intro j
  rw [rd8_wr8]
  split
  · exact Nat.mod_lt _ (by decide)
  · exact h j

theorem bytes_ok_wr32 (b : List Nat) (off v : Nat) (h : bytes_ok b) : bytes_ok (wr32 b off v) := by
  unfold wr32
  exact bytes_ok_wr8 _ _ _ (bytes_ok_wr8 _ _ _ (bytes_ok_wr8 _ _ _ (bytes_ok_wr8 _ _ _ h)))

theorem bytes_ok_memset0 (b : List Nat) (off n : Nat) (h : bytes_ok b) :
    bytes_ok (memset0 b off n) := by
  intro j
  rw [rd8_memset0]
  split
  · decide
  · exact h j

theorem bytes_ok_txx_cfg_byte0 (b : List Nat) (p a1 a2 a3 a4 : Nat) (h : bytes_ok b) :
    bytes_ok (txx_cfg_byte0 b p a1 a2 a3 a4) := by
  simp only [txx_cfg_byte0]
  exact bytes_ok_wr8 _ _ _ (bytes_ok_wr8 _ _ _ (bytes_ok_wr8 _ _ _ h))

theorem bytes_ok_txx_cfg_byte1 (b : List Nat) (p a1 a2 a3 : Nat) (h : bytes_ok b) :
    bytes_ok (txx_cfg_byte1 b p a1 a2 a3) := by
  unfold txx_cfg_byte1
  split
  · exact bytes_ok_wr8 _ _ _ (bytes_ok_wr8 _ _ _ h)
  · exact bytes_ok_wr8 _ _ _ (bytes_ok_wr8 _ _ _ (bytes_ok_wr8 _ _ _ h))

theorem bytes_ok_txx_cfg_byte2 (b : List Nat) (p a1 a2 : Nat) (h : bytes_ok b) :
    bytes_ok (txx_cfg_byte2 b p a1 a2) := by
  simp only [txx_cfg_byte2]
  exact bytes_ok_wr8 _ _ _ (bytes_ok_wr8 _ _ _ h)

theorem bytes_ok_txx_cfg_type (b : List Nat) (p a1 a2 : Nat) (h : bytes_ok b) :
    bytes_ok (txx_cfg_type b p a1 a2) := by
  unfold txx_cfg_type
  split_ifs <;> first | exact h | exact bytes_ok_wr8 _ _ _ h

theorem bytes_ok_txx_cfg_byte3 (b : List Nat) (p a1 a2 a3 a4 a5 a6 : Nat) (h : bytes_ok b) :
    bytes_ok (txx_cfg_byte3 b p a1 a2 a3 a4 a5 a6) := by
  unfold txx_cfg_byte3
  split
  · exact bytes_ok_wr8 _ _ _ (bytes_ok_wr8 _ _ _ h)
  · exact bytes_ok_wr8 _ _ _ (bytes_ok_wr8 _ _ _ h)

theorem bytes_ok_txx_ctrl_stage (obj : List Nat) (h : bytes_ok obj) :
    bytes_ok (txx_ctrl_stage obj) := by
  unfold txx_ctrl_stage
  exact bytes_ok_wr32 _ _ _ (bytes_ok_txx_cfg_byte3 _ _ _ _ _ _ _ _ (bytes_ok_txx_cfg_type _ _ _ _
    (bytes_ok_txx_cfg_byte2 _ _ _ _ (bytes_ok_txx_cfg_byte1 _ _ _ _ _
      (bytes_ok_txx_cfg_byte0 _ _ _ _ _ _ (bytes_ok_memset0 _ _ _ h))))))

theorem bytes_ok_ddr_generate_ddrc_txx_ddr2 (config : ddr_config_t) (obj : List Nat)
    (h : bytes_ok obj) : bytes_ok (ddr_generate_ddrc_txx_ddr2 config obj).2 := by
  rw [ddr_generate_ddrc_txx_ddr2_eq]
  exact bytes_ok_wr32 _ _ _ (bytes_ok_wr32 _ _ _ (bytes_ok_txx_ctrl_stage _ h))

theorem bytes_ok_ddrc_scratch (config : ddr_config_t) (obj : List Nat) (h : bytes_ok obj) :
    bytes_ok (ddrc_scratch config obj) := by
  unfold ddrc_scratch
  split
  · exact bytes_ok_ddr_generate_ddrc_txx_ddr2 _ _ h
  · exact h

theorem rd8_replicate_zero (n j : Nat) : rd8 (List.replicate n 0) j = 0 := by
  unfold rd8
  rw [List.getD_eq_getElem?_getD, List.getElem?_replicate]
  split <;> rfl

theorem bytes_ok_scratch_zero : bytes_ok scratch_zero := by
  intro j
  unfold scratch_zero
  rw [rd8_replicate_zero]
  decide

theorem length_scratch_zero : scratch_zero.length = 0x300 := by
  rw [scratch_zero, List.length_replicate]

theorem rd32_scratch_cfg43_cs0_ne : rd32 scratch_cfg43 0x124 ≠ 0 := by
  have h : rd32 scratch_cfg43 0x124 = 1 := by rfl
  rw [h]
  decide

theorem scratch_zero_total_small :
    (rd32 scratch_zero 0x150 + rd32 scratch_zero 0x154) % 2 ^ 32 < 0x20000001 := by
  have h : (rd32 scratch_zero 0x150 + rd32 scratch_zero 0x154) % 2 ^ 32 = 0 := by rfl
  rw [h]
  decide

/-! ## TXX controller registers, continued -/

/-- C11. After `ddr_generate_ddrc_txx_ddr2` on a scratch object of 0x300 bytes,
CFG byte 1 (offset 0x7d) is `0x80 | ((row0*8+0x20)&0x38) | (col0&7)` when CS0 is
enabled (`cs0_en != 0`, the test the code makes) and `0x80` when it is disabled;
the low six bits of CFG byte 3 (offset 0x7f) are `((row1*8+0x20)&0x38) | (col1&7)`
when CS1 is enabled and `((row0*8+0x20)&0x38) | (col0&7)` when it is disabled.
The parameters are the words at 0x124 (`cs0_en`), 0x128 (`cs1_en`), 0x13c
(`col0`), 0x140 (`row0`), 0x144 (`col1`) and 0x148 (`row1`) before the call. -/
theorem ddr_generate_ddrc_txx_ddr2_cfg_byte1_byte3 (config : ddr_config_t) (obj : List Nat)
    (hlen : obj.length = 0x300) :
    (rd32 obj 0x124 ≠ 0 →
      rd8 (ddr_generate_ddrc_txx_ddr2 config obj).2 0x7d
        = 0x80 ||| ((rd32 obj 0x140 * 8 + 0x20) &&& 0x38) ||| (rd32 obj 0x13c &&& 7)) ∧
    (rd32 obj 0x124 = 0 → rd8 (ddr_generate_ddrc_txx_ddr2 config obj).2 0x7d = 0x80) ∧
    (rd32 obj 0x128 ≠ 0 →
      rd8 (ddr_generate_ddrc_txx_ddr2 config obj).2 0x7f &&& 0x3f
        = ((rd32 obj 0x148 * 8 + 0x20) &&& 0x38) ||| (rd32 obj 0x144 &&& 7)) ∧
    (rd32 obj 0x128 = 0 →
      rd8 (ddr_generate_ddrc_txx_ddr2 config obj).2 0x7f &&& 0x3f
        = ((rd32 obj 0x140 * 8 + 0x20) &&& 0x38) ||| (rd32 obj 0x13c &&& 7)) := by
  rw [rd8_ddr_generate_ddrc_txx_ddr2_low _ _ _ (by omega),
    rd8_ddr_generate_ddrc_txx_ddr2_low _ _ _ (by omega), rd8_txx_ctrl_stage_byte1 _ hlen,
    rd8_txx_ctrl_stage_byte3 _ hlen]
  refine ⟨fun h => ?_, fun h => ?_, fun h => ?_, fun h => ?_⟩
  · rw [if_neg h]
  · rw [if_pos h]
  · rw [if_neg h]
  · rw [if_pos h]

/-- Witness for C11: a cleared scratch object with `cs0_en = 1` and `cs1_en = 0`
(row and column fields 0), for which byte 1 is `0xa0` and the low six bits of
byte 3 are `0x20`. -/
theorem ddr_generate_ddrc_txx_ddr2_cfg_byte1_byte3_witness :
    scratch_cfg43.length = 0x300 ∧ rd32 scratch_cfg43 0x124 ≠ 0 ∧ rd32 scratch_cfg43 0x128 = 0 ∧
    rd8 (ddr_generate_ddrc_txx_ddr2 reference_config scratch_cfg43).2 0x7d
      = 0x80 ||| ((rd32 scratch_cfg43 0x140 * 8 + 0x20) &&& 0x38)
        ||| (rd32 scratch_cfg43 0x13c &&& 7) ∧
    0x80 ||| ((rd32 scratch_cfg43 0x140 * 8 + 0x20) &&& 0x38) ||| (rd32 scratch_cfg43 0x13c &&& 7)
      = 0xa0 ∧
    rd8 (ddr_generate_ddrc_txx_ddr2 reference_config scratch_cfg43).2 0x7f &&& 0x3f
      = ((rd32 scratch_cfg43 0x140 * 8 + 0x20) &&& 0x38) ||| (rd32 scratch_cfg43 0x13c &&& 7) :=
  ⟨length_scratch_cfg43, rd32_scratch_cfg43_cs0_ne, by rfl,
    (ddr_generate_ddrc_txx_ddr2_cfg_byte1_byte3 reference_config scratch_cfg43
      length_scratch_cfg43).1 rd32_scratch_cfg43_cs0_ne,
    by rfl,
    (ddr_generate_ddrc_txx_ddr2_cfg_byte1_byte3 reference_config scratch_cfg43
      length_scratch_cfg43).2.2.2 (by rfl)⟩

/-- C12, as the claim states it, fails: with the technology code 5 in the
scratch parameters the `TYPE` switch is skipped, and the low nibble of CFG byte 2
is 0, not the default `0xA`. -/
theorem cfg_byte2_code5_no_default :
    rd32 scratch_type5 0x118 = 5 ∧
    rd8 (ddr_generate_ddrc_txx_ddr2 reference_config scratch_type5).2 0x7e = 0x40 ∧
    rd8 (ddr_generate_ddrc_txx_ddr2 reference_config scratch_type5).2 0x7e &&& 0xf = 0 ∧
    rd8 (ddr_generate_ddrc_txx_ddr2 reference_config scratch_type5).2 0x7e &&& 0xf ≠ 0xA := by
  have h : rd8 (ddr_generate_ddrc_txx_ddr2 reference_config scratch_type5).2 0x7e = 0x40 := by
    rfl
  rw [h]
  exact ⟨by rfl, rfl, by decide, by decide⟩

/-- C12, amended. After `ddr_generate_ddrc_txx_ddr2` on a scratch object of 0x300
bytes, CFG byte 2 (offset 0x7e) has bit 7 equal to the bank flag, bit 6 set, bit
5 set exactly when the burst length is 8, bit 4 clear, and a low nibble of `0xC`
for code 0, `0x6` for code 1, `0x8` for code 4, the default `0xA` for the codes
2 and 3, and 0 for every code of 5 or more (the switch is guarded by
`ddr_type < 5`). -/
theorem ddr_generate_ddrc_txx_ddr2_cfg_byte2 (config : ddr_config_t) (obj : List Nat)
    (hlen : obj.length = 0x300) :
    rd8 (ddr_generate_ddrc_txx_ddr2 config obj).2 0x7e
      = ((rd32 obj 0x14c &&& 1) <<< 7) ||| 0x40
        ||| ((if rd32 obj 0x138 = 8 then 1 else 0) <<< 5)
        ||| (if rd32 obj 0x118 = 0 then 0xc else if rd32 obj 0x118 = 1 then 6
              else if rd32 obj 0x118 = 4 then 8 else if rd32 obj 0x118 < 5 then 0xa else 0) ∧
    rd8 (ddr_generate_ddrc_txx_ddr2 config obj).2 0x7e &&& 0xf
      = (if rd32 obj 0x118 = 0 then 0xc else if rd32 obj 0x118 = 1 then 6
          else if rd32 obj 0x118 = 4 then 8 else if rd32 obj 0x118 < 5 then 0xa else 0) ∧
    rd8 (ddr_generate_ddrc_txx_ddr2 config obj).2 0x7e &&& 0xf0
      = ((rd32 obj 0x14c &&& 1) <<< 7) ||| 0x40
        ||| ((if rd32 obj 0x138 = 8 then 1 else 0) <<< 5) := by
  rw [rd8_ddr_generate_ddrc_txx_ddr2_low _ _ _ (by omega), rd8_txx_ctrl_stage_byte2 _ hlen]
  refine ⟨rfl, ?_, ?_⟩
  all_goals
    rw [Nat.and_one_is_mod]
    rcases Nat.mod_two_eq_zero_or_one (rd32 obj 0x14c) with hbank | hbank <;> rw [hbank] <;>
      by_cases hbl : rd32 obj 0x138 = 8 <;> simp only [hbl, if_true, if_false] <;>
      split_ifs <;> rfl

/-- Witness for the amended C12: a cleared scratch object with technology code
5, for which the byte is `0x40`. -/
theorem ddr_generate_ddrc_txx_ddr2_cfg_byte2_witness :
    scratch_type5.length = 0x300 ∧
    rd8 (ddr_generate_ddrc_txx_ddr2 reference_config scratch_type5).2 0x7e &&& 0xf
      = (if rd32 scratch_type5 0x118 = 0 then 0xc else if rd32 scratch_type5 0x118 = 1 then 6
          else if rd32 scratch_type5 0x118 = 4 then 8
          else if rd32 scratch_type5 0x118 < 5 then 0xa else 0) :=
  ⟨by simp only [scratch_type5, length_wr32, length_scratch_zero],
    (ddr_generate_ddrc_txx_ddr2_cfg_byte2 reference_config scratch_type5
      (by simp only [scratch_type5, length_wr32, length_scratch_zero])).2.1⟩

/-- C13. For every scratch object of 0x300 bytes and every configuration,
`ddr_generate_ddrc_txx_ddr2` leaves at offset 0x80 the CTRL word
`(1<<15)|(4<<12)|(1<<11)|(1<<8)|(1<<4)|(1<<3)|(1<<2)|(1<<1)`, which is
`0x0000C91E`. -/
theorem ddr_generate_ddrc_txx_ddr2_ctrl (config : ddr_config_t) (obj : List Nat)
    (hlen : obj.length = 0x300) :
    rd32 (ddr_generate_ddrc_txx_ddr2 config obj).2 0x80 = 0x0000C91E ∧
    rd32 (ddr_generate_ddrc_txx_ddr2 config obj).2 0x80 = ddrc_ctrl ∧
    (1 <<< 15) ||| (4 <<< 12) ||| (1 <<< 11) ||| (1 <<< 8) ||| (1 <<< 4) ||| (1 <<< 3)
      ||| (1 <<< 2) ||| (1 <<< 1) = 0x0000C91E := by
  have h : rd32 (ddr_generate_ddrc_txx_ddr2 config obj).2 0x80 = 0x0000C91E := by
    rw [ddr_generate_ddrc_txx_ddr2_eq, rd32_wr32_ne _ _ _ _ (by omega),
      rd32_wr32_ne _ _ _ _ (by omega)]
    unfold txx_ctrl_stage
    simp only [Nat.reduceAdd]
    rw [rd32_wr32_same _ _ _ (by
      rw [length_txx_cfg_byte3, length_txx_cfg_type, length_txx_cfg_byte2, length_txx_cfg_byte1,
        length_txx_cfg_byte0, length_memset0, hlen]; omega)]
    rfl
  exact ⟨h, h, by decide⟩

/-- Witness for C13: the cleared scratch object. -/
theorem ddr_generate_ddrc_txx_ddr2_ctrl_witness :
    scratch_zero.length = 0x300 ∧
    rd32 (ddr_generate_ddrc_txx_ddr2 reference_config scratch_zero).2 0x80 = 0x0000C91E :=
  ⟨length_scratch_zero,
    (ddr_generate_ddrc_txx_ddr2_ctrl reference_config scratch_zero length_scratch_zero).1⟩

/-- C14, the code at the reference configuration: `dmmap` has the row
`(128, 0, 0x00000000, 0x00000001)`, `ddr_init_object_buffer` stores the sizes
128 (MB) and 0, and `ddr_generate_ddrc_txx_ddr2` compares `128 << 20` with the
stored 128, finds no row and stores the fallback words `(0x2000, 0x2000)`. -/
theorem dmmap_lookup_misses_reference :
    (128, 0, 0x00000000, 0x00000001) ∈ dmmap ∧
    dmmap_lookup 128 0 = none ∧
    (ddr_init_object_buffer reference_config scratch_zero).map
      (fun o => (rd32 o 0x150, rd32 o 0x154,
        rd32 (ddr_generate_ddrc_txx_ddr2 reference_config o).2 0x90,
        rd32 (ddr_generate_ddrc_txx_ddr2 reference_config o).2 0x94))
      = some (128, 0, 0x2000, 0x2000) := by
  refine ⟨by decide, by decide, ?_⟩
  obtain ⟨o, ho, hlen, _, _, _, _, _, h150, h154, _⟩ :=
    ddr_init_object_buffer_words reference_config scratch_zero length_scratch_zero (by decide)
  obtain ⟨h90, h94⟩ := rd32_ddr_generate_ddrc_txx_ddr2_mmap reference_config o hlen
  have e150 : rd32 o 0x150 = 128 := by rw [h150]; rfl
  rw [ho, Option.map_some', h90, h94, e150, h154]
  rfl

/-- C15, as the claim states it, fails at a total of exactly 512 MB: with both
chip-select sizes `0x10000000` the pair is not in the table, the code takes the
branch `total_size < 0x20000001` and stores `(0x20f0, 0x30f0)`, while the claim's
formulas for a total at or above 512 MB with `cs1 != 0` give `(0xd0, 0x10d0)`. -/
theorem mmap_fallback_boundary :
    rd32 scratch_512 0x150 = 0x10000000 ∧ rd32 scratch_512 0x154 = 0x10000000 ∧
    dmmap_lookup ((0x10000000 + 0x10000000) % 2 ^ 32) 0x10000000 = none ∧
    rd32 (ddr_generate_ddrc_txx_ddr2 reference_config scratch_512).2 0x90 = 0x20f0 ∧
    rd32 (ddr_generate_ddrc_txx_ddr2 reference_config scratch_512).2 0x94 = 0x30f0 ∧
    neg32 (0x10000000 >>> 24) &&& 0xff &&& not32 (0x20000000 >>> 24) = 0xd0 ∧
    (neg32 (0x10000000 >>> 24) &&& 0xff &&& not32 (0x20000000 >>> 24))
      ||| ((0x10000000 >>> 24) <<< 8) = 0x10d0 :=
  by
  have e150 : rd32 scratch_512 0x150 = 0x10000000 := by rfl
  have e154 : rd32 scratch_512 0x154 = 0x10000000 := by rfl
  obtain ⟨h90, h94⟩ := rd32_ddr_generate_ddrc_txx_ddr2_mmap reference_config scratch_512
    (by simp only [scratch_512, length_wr32, length_scratch_zero])
  rw [h90, h94, e150, e154]
  exact ⟨rfl, rfl, by decide, by rfl, by rfl, by decide, by decide⟩

/-- C15, amended. In `ddr_generate_ddrc_txx_ddr2` on a scratch object of 0x300
bytes, when the (total size, CS1 size) pair is not in the lookup table: for a
total size up to and including `0x20000000` (the code tests
`total_size < 0x20000001`) the words at 0x90 and 0x94 are
`0x2000 | (-(cs0>>24) & 0xff)` and `(((cs0+0x20000000)>>24)<<8) | (-(cs1>>24) & 0xff)`;
for a larger total with `cs1 = 0` they are 0 and `0xff00 | (-((cs0*2)>>24) & 0xff)`;
for a larger total with `cs1 != 0` they are `-(cs1>>24) & 0xff & ~(total>>24)` and
`(-(cs0>>24) & 0xff & ~(total>>24)) | ((cs1>>24)<<8)`, all in 32-bit arithmetic;
`cs0` and `cs1` are the words at 0x150 and 0x154. -/
theorem ddr_generate_ddrc_txx_ddr2_mmap_fallback (config : ddr_config_t) (obj : List Nat)
    (hlen : obj.length = 0x300) (hbytes : bytes_ok obj)
    (hmiss : dmmap_lookup ((rd32 obj 0x150 + rd32 obj 0x154) % 2 ^ 32) (rd32 obj 0x154) = none) :
    ((rd32 obj 0x150 + rd32 obj 0x154) % 2 ^ 32 < 0x20000001 →
      rd32 (ddr_generate_ddrc_txx_ddr2 config obj).2 0x90
        = 0x2000 ||| (neg32 (rd32 obj 0x150 >>> 24) &&& 0xff) ∧
      rd32 (ddr_generate_ddrc_txx_ddr2 config obj).2 0x94
        = ((((rd32 obj 0x150 + 0x20000000) % 2 ^ 32) >>> 24) <<< 8)
          ||| (neg32 (rd32 obj 0x154 >>> 24) &&& 0xff)) ∧
    (0x20000001 ≤ (rd32 obj 0x150 + rd32 obj 0x154) % 2 ^ 32 → rd32 obj 0x154 = 0 →
      rd32 (ddr_generate_ddrc_txx_ddr2 config obj).2 0x90 = 0 ∧
      rd32 (ddr_generate_ddrc_txx_ddr2 config obj).2 0x94
        = 0xff00 ||| (neg32 (((rd32 obj 0x150 * 2) % 2 ^ 32) >>> 24) &&& 0xff)) ∧
    (0x20000001 ≤ (rd32 obj 0x150 + rd32 obj 0x154) % 2 ^ 32 → rd32 obj 0x154 ≠ 0 →
      rd32 (ddr_generate_ddrc_txx_ddr2 config obj).2 0x90
        = neg32 (rd32 obj 0x154 >>> 24) &&& 0xff
          &&& not32 (((rd32 obj 0x150 + rd32 obj 0x154) % 2 ^ 32) >>> 24) ∧
      rd32 (ddr_generate_ddrc_txx_ddr2 config obj).2 0x94
        = (neg32 (rd32 obj 0x150 >>> 24) &&& 0xff
            &&& not32 (((rd32 obj 0x150 + rd32 obj 0x154) % 2 ^ 32) >>> 24))
          ||| ((rd32 obj 0x154 >>> 24) <<< 8)) := by
  obtain ⟨h90, h94⟩ := rd32_ddr_generate_ddrc_txx_ddr2_mmap config obj hlen
  rw [h90, h94]
  unfold txx_mmap
  simp only [hmiss]
  unfold dmmap_fallback
  have hcs1 := rd32_lt obj 0x154 hbytes
  have hs1 : ((rd32 obj 0x154 >>> 24) <<< 8) % 2 ^ 32 = (rd32 obj 0x154 >>> 24) <<< 8 := by
    rw [Nat.shiftLeft_eq, Nat.shiftRight_eq_div_pow]
    norm_num
    omega
  have hs0 : ((((rd32 obj 0x150 + 0x20000000) % 2 ^ 32) >>> 24) <<< 8) % 2 ^ 32
      = (((rd32 obj 0x150 + 0x20000000) % 2 ^ 32) >>> 24) <<< 8 := by
    rw [Nat.shiftLeft_eq, Nat.shiftRight_eq_div_pow]
    norm_num
    omega
  refine ⟨fun h => ?_, fun h h0 => ?_, fun h h0 => ?_⟩
  · rw [if_pos h, hs0]
    exact ⟨rfl, rfl⟩
  · have hn : ¬ (rd32 obj 0x150 + rd32 obj 0x154) % 2 ^ 32 < 0x20000001 := by omega
    rw [if_neg hn, if_pos h0]
    exact ⟨rfl, rfl⟩
  · have hn : ¬ (rd32 obj 0x150 + rd32 obj 0x154) % 2 ^ 32 < 0x20000001 := by omega
    rw [if_neg hn, if_neg h0]
    simp only [hs1]
    exact ⟨trivial, trivial⟩

/-- Witness for the amended C15: the cleared scratch object (sizes 0 and 0, not
in the table), for which both words are `0x2000`. -/
theorem ddr_generate_ddrc_txx_ddr2_mmap_fallback_witness :
    scratch_zero.length = 0x300 ∧ bytes_ok scratch_zero ∧
    dmmap_lookup ((rd32 scratch_zero 0x150 + rd32 scratch_zero 0x154) % 2 ^ 32)
      (rd32 scratch_zero 0x154) = none ∧
    (rd32 scratch_zero 0x150 + rd32 scratch_zero 0x154) % 2 ^ 32 < 0x20000001 ∧
    rd32 (ddr_generate_ddrc_txx_ddr2 reference_config scratch_zero).2 0x90
      = 0x2000 ||| (neg32 (rd32 scratch_zero 0x150 >>> 24) &&& 0xff) ∧
    rd32 (ddr_generate_ddrc_txx_ddr2 reference_config scratch_zero).2 0x90 = 0x2000 :=
  ⟨length_scratch_zero, bytes_ok_scratch_zero, by rfl, scratch_zero_total_small,
    ((ddr_generate_ddrc_txx_ddr2_mmap_fallback reference_config scratch_zero
      length_scratch_zero bytes_ok_scratch_zero (by rfl)).1 scratch_zero_total_small).1,
    by rfl⟩

/-! ## Scratch object population, the claims -/

/-- C16. For every configuration with `clock_mhz > 0` (type and clock being
32-bit values) and every scratch object of 0x300 bytes,
`ddr_init_object_buffer` succeeds and stores at 0x118 the technology code (4 for
DDR2, the enum value itself otherwise), at 0x13c and 0x144 the column field
`col_bits - 4`, at 0x140 and 0x148 the row field `row_bits - 11` (both 32-bit
subtractions, the plain differences when `col_bits >= 4` and `row_bits >= 11`),
and at 0x22c the clock period `1000000 / clock_mhz` with integer division. -/
theorem ddr_init_object_buffer_geometry (config : ddr_config_t) (obj : List Nat)
    (hobj : obj.length = 0x300) (hclk : 0 < config.clock_mhz)
    (hclk32 : config.clock_mhz < 2 ^ 32) (htype : config.type < 2 ^ 32) :
    ∃ o, ddr_init_object_buffer config obj = some o ∧
      rd32 o 0x118 = (if config.type = DDR_TYPE_DDR2 then 4 else config.type) ∧
      rd32 o 0x13c = (config.col_bits + 2 ^ 32 - 4) % 2 ^ 32 ∧
      rd32 o 0x144 = (config.col_bits + 2 ^ 32 - 4) % 2 ^ 32 ∧
      rd32 o 0x140 = (config.row_bits + 2 ^ 32 - 11) % 2 ^ 32 ∧
      rd32 o 0x148 = (config.row_bits + 2 ^ 32 - 11) % 2 ^ 32 ∧
      rd32 o 0x22c = 1000000 / config.clock_mhz ∧
      (4 ≤ config.col_bits → config.col_bits < 2 ^ 32 →
        rd32 o 0x13c = config.col_bits - 4 ∧ rd32 o 0x144 = config.col_bits - 4) ∧
      (11 ≤ config.row_bits → config.row_bits < 2 ^ 32 →
        rd32 o 0x140 = config.row_bits - 11 ∧ rd32 o 0x148 = config.row_bits - 11) := by
  have hmod : config.clock_mhz % 2 ^ 32 = config.clock_mhz := Nat.mod_eq_of_lt hclk32
  obtain ⟨o, ho, _, h118, h13c, h140, h144, h148, _, _, h22c⟩ :=
    ddr_init_object_buffer_words config obj hobj (by rw [hmod]; omega)
  refine ⟨o, ho, ?_, h13c, h144, h140, h148, ?_, ?_, ?_⟩
  · rw [h118]
    apply Nat.mod_eq_of_lt
    split
    · decide
    · exact htype
  · rw [h22c, hmod]
    apply Nat.mod_eq_of_lt
    have : 1000000 / config.clock_mhz ≤ 1000000 := Nat.div_le_self _ _
    omega
  · intro h4 h32
    rw [h13c, h144]
    omega
  · intro h11 h32
    rw [h140, h148]
    omega

/-- Witness for C16: the reference configuration (DDR2, 400 MHz, 13 row bits,
10 column bits), which gives code 4, column field 6, row field 2 and a period
of 2500 ps. -/
theorem ddr_init_object_buffer_geometry_witness :
    scratch_zero.length = 0x300 ∧ 0 < reference_config.clock_mhz ∧
    reference_config.clock_mhz < 2 ^ 32 ∧ reference_config.type < 2 ^ 32 ∧
    ddr_init_object_buffer reference_config scratch_zero = some scratch_reference ∧
    rd32 scratch_reference 0x118 = 4 ∧ rd32 scratch_reference 0x13c = 6 ∧
    rd32 scratch_reference 0x140 = 2 ∧ rd32 scratch_reference 0x22c = 2500 := by
  refine ⟨length_scratch_zero, by decide, by decide, by decide, ?_⟩
  obtain ⟨o, ho, h118, h13c, _, h140, _, h22c, _, _⟩ :=
    ddr_init_object_buffer_geometry reference_config scratch_zero length_scratch_zero
      (by decide) (by decide) (by decide)
  have e : scratch_reference = o := by
    unfold scratch_reference
    rw [ho]
    rfl
  rw [e]
  exact ⟨ho, h118, h13c, h140, h22c⟩

/-- C17, as the claim states it, fails: for the reference geometry with a bank
count of 4 the claim's formula gives 64 MB, and `ddr_init_object_buffer`, which
multiplies by the literal 8 and never reads `banks`, stores 128. -/
theorem cs0_size_ignores_banks :
    config_banks4.banks = 4 ∧
    2 ^ config_banks4.row_bits * 2 ^ config_banks4.col_bits * config_banks4.banks
      * (config_banks4.data_width / 8) < 2 ^ 32 ∧
    2 ^ config_banks4.row_bits * 2 ^ config_banks4.col_bits * config_banks4.banks
      * (config_banks4.data_width / 8) / 2 ^ 20 = 64 ∧
    (ddr_init_object_buffer config_banks4 scratch_zero).map (fun o => rd32 o 0x150)
      = some 128 := by
  refine ⟨rfl, by decide, by decide, ?_⟩
  obtain ⟨o, ho, _, _, _, _, _, _, h150, _, _⟩ :=
    ddr_init_object_buffer_words config_banks4 scratch_zero length_scratch_zero (by decide)
  rw [ho, Option.map_some', h150]
  rfl

/-- C17, amended. For every configuration with a nonzero 32-bit clock, row and
column bit counts below 32 and a size `(1<<row_bits) * (1<<col_bits) * 8 *
(data_width/8)` that fits in 32 bits, `ddr_init_object_buffer` stores at 0x150
the chip-select-0 size in megabytes computed as that product divided by `2^20`:
the bank count is the constant 8, the `banks` field is not read. -/
theorem ddr_init_object_buffer_cs0_size (config : ddr_config_t) (obj : List Nat)
    (hobj : obj.length = 0x300) (hclk : 0 < config.clock_mhz)
    (hclk32 : config.clock_mhz < 2 ^ 32) (hrow : config.row_bits < 32)
    (hcol : config.col_bits < 32) (hdw : config.data_width < 2 ^ 32)
    (hfit : 2 ^ config.row_bits * 2 ^ config.col_bits * 8 * (config.data_width / 8) < 2 ^ 32) :
    ∃ o, ddr_init_object_buffer config obj = some o ∧
      rd32 o 0x150
        = 2 ^ config.row_bits * 2 ^ config.col_bits * 8 * (config.data_width / 8) / 2 ^ 20 := by
  have hmod : config.clock_mhz % 2 ^ 32 = config.clock_mhz := Nat.mod_eq_of_lt hclk32
  obtain ⟨o, ho, _, _, _, _, _, _, h150, _, _⟩ :=
    ddr_init_object_buffer_words config obj hobj (by rw [hmod]; omega)
  refine ⟨o, ho, ?_⟩
  rw [h150]
  unfold shl1
  rw [Nat.mod_eq_of_lt hrow, Nat.mod_eq_of_lt hcol, Nat.mod_eq_of_lt hdw, Nat.mod_eq_of_lt hfit,
    Nat.div_div_eq_div_mul]
  have e : (1024 * 1024 : Nat) = 2 ^ 20 := by norm_num
  rw [e]
  apply Nat.mod_eq_of_lt
  exact lt_of_le_of_lt (Nat.div_le_self _ _) hfit

/-- Witness for the amended C17: the reference configuration, 128 MB. -/
theorem ddr_init_object_buffer_cs0_size_witness :
    scratch_zero.length = 0x300 ∧ 0 < reference_config.clock_mhz ∧
    reference_config.clock_mhz < 2 ^ 32 ∧ reference_config.row_bits < 32 ∧
    reference_config.col_bits < 32 ∧ reference_config.data_width < 2 ^ 32 ∧
    2 ^ reference_config.row_bits * 2 ^ reference_config.col_bits * 8
      * (reference_config.data_width / 8) < 2 ^ 32 ∧
    ddr_init_object_buffer reference_config scratch_zero = some scratch_reference ∧
    rd32 scratch_reference 0x150 = 128 := by
  refine ⟨length_scratch_zero, by decide, by decide, by decide, by decide, by decide, by decide,
    ?_⟩
  obtain ⟨o, ho, h150⟩ :=
    ddr_init_object_buffer_cs0_size reference_config scratch_zero length_scratch_zero
      (by decide) (by decide) (by decide) (by decide) (by decide) (by decide)
  have e : scratch_reference = o := by
    unfold scratch_reference
    rw [ho]
    rfl
  rw [e]
  exact ⟨ho, h150⟩

/-! ## Controller block -/

/-- C18. For every configuration and every non-null scratch object (a buffer of
bytes), `ddr_generate_ddrc_with_object` returns 0 and produces a 188-byte
controller block, at `ddrc_regs` inside a memory that has room for it. The
scratch object it returns and copies from is `ddrc_scratch config obj`: the
caller's object after `ddr_generate_ddrc_txx_ddr2` for DDR2, the caller's object
itself for every other type. In the block, 32-bit word `k` (`k = 0..30`) is a
copy of the word of that scratch object at the `k`-th offset of the list below,
and bytes 124 to 187 are zero; nothing outside the 188 bytes is touched. -/
theorem ddr_generate_ddrc_with_object_block (config : ddr_config_t) (obj mem : List Nat)
    (ddrc_regs : Nat) (hobj : bytes_ok obj) (hroom : ddrc_regs + 188 ≤ mem.length) :
    ∃ out,
      ddr_generate_ddrc_with_object config (some obj) mem ddrc_regs
        = (0, some (ddrc_scratch config obj), out) ∧
      (config.type = DDR_TYPE_DDR2 →
        ddrc_scratch config obj = (ddr_generate_ddrc_txx_ddr2 config obj).2) ∧
      (config.type ≠ DDR_TYPE_DDR2 → ddrc_scratch config obj = obj) ∧
      out.length = mem.length ∧
      (∀ k, k < 31 →
        rd32 out (ddrc_regs + 4 * k)
          = rd32 (ddrc_scratch config obj)
              ([0x7c, 0x80, 0x8c, 0x84, 0x90, 0x94, 0x88, 0xac, 0xb0, 0xb4, 0xb8, 0xbc,
                0xc0, 0xc4, 0xd0, 0xd8, 0xdc, 0x1d4, 0x1dc, 0x1e4, 0x1e8, 0x1ec, 0x1f0, 0x1f4,
                0x150, 0x154, 0x1c0, 0x1c4, 0x1c8, 0x1cc, 0x1d0].getD k 0)) ∧
      (∀ j, 124 ≤ j → j < 188 → rd8 out (ddrc_regs + j) = 0) ∧
      (∀ j, j < ddrc_regs ∨ ddrc_regs + 188 ≤ j → rd8 out j = rd8 mem j) := by
  refine ⟨ddr_convert_param (ddrc_scratch config obj) (memset0 mem ddrc_regs 0xbc) ddrc_regs,
    ddr_generate_ddrc_with_object_some config obj mem ddrc_regs, ?_, ?_, ?_, ?_, ?_, ?_⟩
  · intro h
    unfold ddrc_scratch
    rw [if_pos h]
  · intro h
    unfold ddrc_scratch
    rw [if_neg h]
  · rw [length_ddr_convert_param _ _ _ (by rw [length_memset0]; omega), length_memset0]
  · intro k hk
    have hb := bytes_ok_ddrc_scratch config obj hobj
    have hw : rd32 (ddr_convert_param (ddrc_scratch config obj) (memset0 mem ddrc_regs 0xbc)
        ddrc_regs) (ddrc_regs + 4 * k)
        = rd32 (ddrc_scratch config obj) (ddr_convert_param_offsets.getD k 0) % 2 ^ 32 := by
      apply rd32_of_bytes
      intro i hi
      rw [rd8_ddr_convert_param _ _ _ (by rw [length_memset0]; omega)]
      have e1 : ddrc_regs ≤ ddrc_regs + 4 * k + i ∧ ddrc_regs + 4 * k + i < ddrc_regs + 124 := by
        omega
      have e2 : (ddrc_regs + 4 * k + i - ddrc_regs) / 4 = k := by omega
      have e3 : (ddrc_regs + 4 * k + i - ddrc_regs) % 4 = i := by omega
      rw [if_pos e1, e2, e3]
    rw [hw, Nat.mod_eq_of_lt (rd32_lt _ _ hb)]
    rfl
  · intro j hlo hhi
    rw [rd8_ddr_convert_param _ _ _ (by rw [length_memset0]; omega)]
    have e1 : ¬ (ddrc_regs ≤ ddrc_regs + j ∧ ddrc_regs + j < ddrc_regs + 124) := by omega
    rw [if_neg e1, rd8_memset0]
    have e2 : ddrc_regs ≤ ddrc_regs + j ∧ ddrc_regs + j < ddrc_regs + 0xbc
        ∧ ddrc_regs + j < mem.length := by omega
    rw [if_pos e2]
  · intro j hj
    rw [rd8_ddr_convert_param _ _ _ (by rw [length_memset0]; omega)]
    have e1 : ¬ (ddrc_regs ≤ j ∧ j < ddrc_regs + 124) := by omega
    rw [if_neg e1, rd8_memset0]
    have e2 : ¬ (ddrc_regs ≤ j ∧ j < ddrc_regs + 0xbc ∧ j < mem.length) := by omega
    rw [if_neg e2]

/-- Witness for C18: the reference configuration (DDR2) with a cleared scratch
object and the controller block at offset 8 of a 324-byte buffer: the scratch
object that comes back is the one `ddr_generate_ddrc_txx_ddr2` leaves, output
word 1 is its CTRL word `0x0000C91E`, and byte 124 of the block is zero. -/
theorem ddr_generate_ddrc_with_object_block_witness :
    bytes_ok scratch_zero ∧ 8 + 188 ≤ buffer_aa.length ∧
    (ddr_generate_ddrc_with_object reference_config (some scratch_zero) buffer_aa 8).1 = 0 ∧
    (ddr_generate_ddrc_with_object reference_config (some scratch_zero) buffer_aa 8).2.1
      = some (ddr_generate_ddrc_txx_ddr2 reference_config scratch_zero).2 ∧
    rd32 (ddr_generate_ddrc_with_object reference_config (some scratch_zero) buffer_aa 8).2.2
      (8 + 4 * 1) = 0x0000C91E ∧
    rd8 (ddr_generate_ddrc_with_object reference_config (some scratch_zero) buffer_aa 8).2.2
      (8 + 124) = 0 := by
  refine ⟨bytes_ok_scratch_zero, by rw [length_buffer_aa]; decide, ?_⟩
  obtain ⟨out, h, he, _, _, hw, hz, _⟩ :=
    ddr_generate_ddrc_with_object_block reference_config scratch_zero buffer_aa 8
      bytes_ok_scratch_zero (by rw [length_buffer_aa]; decide)
  have e := he rfl
  rw [e] at h hw
  rw [h]
  refine ⟨rfl, rfl, ?_, hz 124 (by decide) (by decide)⟩
  have h1 := hw 1 (by decide)
  simp only [List.getD_cons_succ, List.getD_cons_zero] at h1
  rw [h1, ddr_generate_ddrc_txx_ddr2_eq, rd32_wr32_ne _ _ _ _ (by omega),
    rd32_wr32_ne _ _ _ _ (by omega)]
  unfold txx_ctrl_stage
  simp only [Nat.reduceAdd]
  rw [rd32_wr32_same _ _ _ (by
    rw [length_txx_cfg_byte3, length_txx_cfg_type, length_txx_cfg_byte2, length_txx_cfg_byte1,
      length_txx_cfg_byte0, length_memset0, length_scratch_zero]; omega)]
  rfl

/-- C19. The function `ddr_generate_ddrc_with_object` returns -1 when the
scratch pointer is null and 0 for every configuration when it is not; it returns
no other code. -/
theorem ddr_generate_ddrc_with_object_return (config : ddr_config_t) (mem : List Nat)
    (ddrc_regs : Nat) :
    (ddr_generate_ddrc_with_object config none mem ddrc_regs).1 = -1 ∧
    (∀ obj, (ddr_generate_ddrc_with_object config (some obj) mem ddrc_regs).1 = 0) ∧
    (∀ obj_buffer,
      (ddr_generate_ddrc_with_object config obj_buffer mem ddrc_regs).1 = 0 ∨
      (ddr_generate_ddrc_with_object config obj_buffer mem ddrc_regs).1 = -1) := by
  have hnone : (ddr_generate_ddrc_with_object config none mem ddrc_regs).1 = -1 := rfl
  have hsome : ∀ obj, (ddr_generate_ddrc_with_object config (some obj) mem ddrc_regs).1 = 0 := by
    intro obj
    rw [ddr_generate_ddrc_with_object_some]
  refine ⟨hnone, hsome, fun o => ?_⟩
  cases o with
  | none => exact Or.inr hnone
  | some obj => exact Or.inl (hsome obj)

/-! ## Out-of-range timing values -/

theorem ddrp_zero_succeeds : ddrp_succeeds ddrp_zero := by
  intro c o m b
  exact le_refl _

/-- C20, as the claim states it, fails: with `tCKE = 0` ns and `tXP = 1000` ns
at 400 MHz (0 and 400 cycles, both outside `[1, 15]`) the controller generator
and the whole compilation return 0, exactly as for the reference configuration;
no out-of-range value is counted, the validation code lying after the
`return 0`. -/
theorem out_of_range_not_counted :
    1000000 / config_out_of_range.clock_mhz = 2500 ∧
    PS2CYCLE 2500 (config_out_of_range.tCKE * 1000) = 0 ∧
    PS2CYCLE 2500 (config_out_of_range.tXP * 1000) = 400 ∧
    (ddr_generate_ddrc_with_object config_out_of_range (some scratch_zero) buffer_aa 8).1 = 0 ∧
    (ddr_generate_binary ddrp_zero config_out_of_range buffer_aa 324).map Prod.fst = some 0 ∧
    (ddr_generate_binary ddrp_zero reference_config buffer_aa 324).map Prod.fst = some 0 := by
  refine ⟨by decide, by decide, by decide, ?_, by rfl, ?_⟩
  · rw [ddr_generate_ddrc_with_object_some]
  · rw [generate_buffer_aa]
    rfl

/-- C20, amended. The function `ddr_generate_binary` reports a return code only,
0 or -1, never a count of out-of-range timing values, whatever the PHY generator
does; with a nonzero 32-bit `clock_mhz`, a declared size of at least 324 and a
PHY generator that succeeds, it completes with return code 0. -/
theorem ddr_generate_binary_status (ddrp : ddrp_generator) (config : ddr_config_t)
    (output : List Nat) (output_size : Nat) :
    (∀ r out, ddr_generate_binary ddrp config output output_size = some (r, out) →
      r = 0 ∨ r = -1) ∧
    (324 ≤ output_size → config.clock_mhz % 2 ^ 32 ≠ 0 → ddrp_succeeds ddrp →
      ∃ out, ddr_generate_binary ddrp config output output_size = some (0, out)) := by
  constructor
  · intro r out h
    rw [ddr_generate_binary_eq] at h
    generalize List.replicate 0x300 0 = zeros at h
    split_ifs at h with h1
    · right
      exact (congrArg Prod.fst (Option.some.inj h)).symm
    · cases hinit : ddr_init_object_buffer config zeros with
      | none => rw [hinit] at h; simp at h
      | some o =>
        rw [hinit] at h
        simp only [] at h
        split_ifs at h
        · right
          exact (congrArg Prod.fst (Option.some.inj h)).symm
        · left
          exact (congrArg Prod.fst (Option.some.inj h)).symm
  · intro hsize hclk hphy
    obtain ⟨o, ho, _⟩ :=
      ddr_init_object_buffer_words config scratch_zero length_scratch_zero hclk
    have hn : ¬ output_size < 324 := by omega
    have hp : ¬ (ddrp config (ddrc_scratch config o) (ddrc_stage config o output) 200).1 < 0 := by
      have := hphy config (ddrc_scratch config o) (ddrc_stage config o output) 200
      omega
    refine ⟨binary_of ddrp config o output, ?_⟩
    rw [ddr_generate_binary_eq, if_neg hn]
    unfold scratch_zero at ho
    rw [ho]
    simp only []
    rw [if_neg hp]

/-- Witness for the amended C20: the reference configuration compiled into a
324-byte buffer with a PHY generator that always succeeds. -/
theorem ddr_generate_binary_status_witness :
    324 ≤ 324 ∧ reference_config.clock_mhz % 2 ^ 32 ≠ 0 ∧ ddrp_succeeds ddrp_zero ∧
    (ddr_generate_binary ddrp_zero reference_config buffer_aa 324).map Prod.fst = some 0 := by
  refine ⟨by decide, by decide, ddrp_zero_succeeds, ?_⟩
  obtain ⟨out, h⟩ := (ddr_generate_binary_status ddrp_zero reference_config buffer_aa 324).2
    (by decide) (by decide) ddrp_zero_succeeds
  rw [h]
  rfl

/-! ## Reference comparison, the claims -/

theorem compare_byte_fold (g r : List Nat) (l : List Nat) (D : List (Nat × Nat × Nat)) :
    l.foldl (compare_byte g r) (D.length, D.take 20)
      = ((D ++ differing_bytes g r l).length, (D ++ differing_bytes g r l).take 20) := by
  induction l generalizing D with
  | nil => simp [differing_bytes]
  | cons i l ih =>
    rw [List.foldl_cons]
    by_cases h : rd8 g i ≠ rd8 r i
    · have hstep : compare_byte g r (D.length, D.take 20) i
          = ((D ++ [(i, rd8 g i, rd8 r i)]).length, (D ++ [(i, rd8 g i, rd8 r i)]).take 20) := by
        unfold compare_byte
        rw [if_pos h]
        by_cases hl : D.length < 20
        · simp only [hl, if_true, List.length_append, List.length_singleton]
          rw [List.take_append_eq_append_take]
          have e : 20 - D.length = (20 - D.length - 1) + 1 := by omega
          rw [e, List.take_succ_cons, List.take_nil]
        · simp only [hl, if_false, List.length_append, List.length_singleton]
          rw [List.take_append_eq_append_take]
          have e : 20 - D.length = 0 := by omega
          rw [e, List.take_zero, List.append_nil]
      rw [hstep, ih]
      have hd : differing_bytes g r (i :: l) = (i, rd8 g i, rd8 r i) :: differing_bytes g r l := by
        simp [differing_bytes, List.filter_cons, h]
      rw [hd, List.append_assoc, List.singleton_append]
    · have hstep : compare_byte g r (D.length, D.take 20) i = (D.length, D.take 20) := by
        unfold compare_byte
        rw [if_neg h]
      have hd : differing_bytes g r (i :: l) = differing_bytes g r l := by
        simp only [differing_bytes, List.filter_cons]
        simp [h]
      rw [hstep, ih, hd]

theorem compare_byte_loop (g r : List Nat) :
    (List.range 324).foldl (compare_byte g r) (0, [])
      = ((differing_bytes g r (List.range 324)).length,
         (differing_bytes g r (List.range 324)).take 20) := by
  have h := compare_byte_fold g r (List.range 324) []
  simpa using h

theorem differing_bytes_eq_nil (g r : List Nat) (l : List Nat) :
    differing_bytes g r l = [] ↔ ∀ i ∈ l, rd8 g i = rd8 r i := by
  unfold differing_bytes
  rw [List.map_eq_nil_iff, List.filter_eq_nil_iff]
  simp

theorem ddr_test_against_reference_eq (ddrp : ddrp_generator) (config : ddr_config_t)
    (generated reference out : List Nat) (result : Int)
    (hgen : ddr_generate_binary ddrp config generated 324 = some (result, out))
    (hres : 0 ≤ result) :
    ddr_test_against_reference ddrp config generated reference 324
      = some (if differing_bytes out reference (List.range 324) = [] then 0 else 1,
          (differing_bytes out reference (List.range 324)).take 20) := by
  unfold ddr_test_against_reference
  rw [if_neg (by simp), hgen]
  simp only
  rw [if_neg (by omega), compare_byte_loop]
  simp only [List.length_eq_zero]
  split <;> rfl

/-- C21. The function `ddr_test_against_reference` returns -1 whenever `ref_size` is not 324;
with `ref_size = 324` and a generation that succeeds (return code not
negative) it returns a code that is 0 exactly when the generated buffer and the
reference agree at every one of the 324 offsets, and 1 exactly when they
differ at one offset at least. -/
theorem ddr_test_against_reference_code (ddrp : ddrp_generator) (config : ddr_config_t)
    (generated reference : List Nat) :
    (∀ ref_size, ref_size ≠ 324 →
      ddr_test_against_reference ddrp config generated reference ref_size = some (-1, [])) ∧
    (∀ out result, ddr_generate_binary ddrp config generated 324 = some (result, out) →
      0 ≤ result →
      ∃ code lines,
        ddr_test_against_reference ddrp config generated reference 324 = some (code, lines) ∧
        (code = 0 ↔ ∀ i, i < 324 → rd8 out i = rd8 reference i) ∧
        (code = 1 ↔ ∃ i, i < 324 ∧ rd8 out i ≠ rd8 reference i)) := by
  refine ⟨fun ref_size h => ?_, fun out result hgen hres => ?_⟩
  · unfold ddr_test_against_reference
    rw [if_pos h]
  · refine ⟨_, _, ddr_test_against_reference_eq ddrp config generated reference out result hgen
      hres, ?_, ?_⟩
    · have hall : (∀ i, i < 324 → rd8 out i = rd8 reference i)
          ↔ differing_bytes out reference (List.range 324) = [] := by
        rw [differing_bytes_eq_nil]
        simp only [List.mem_range]
      rw [hall]
      by_cases h : differing_bytes out reference (List.range 324) = []
      · simp [h]
      · simp [h]
    · have hiff : (∃ i, i < 324 ∧ rd8 out i ≠ rd8 reference i)
          ↔ ¬ differing_bytes out reference (List.range 324) = [] := by
        rw [differing_bytes_eq_nil]
        simp only [List.mem_range, not_forall, exists_prop]
      rw [hiff]
      by_cases h : differing_bytes out reference (List.range 324) = []
      · simp [h]
      · simp [h]

/-- Witness for C21: a reference size of 300 gives -1, and the binary generated
for the reference configuration, compared with itself, gives 0. -/
theorem ddr_test_against_reference_code_witness :
    (300 : Nat) ≠ 324 ∧
    ddr_test_against_reference ddrp_zero reference_config buffer_aa output_aa 300
      = some (-1, []) ∧
    ddr_generate_binary ddrp_zero reference_config buffer_aa 324 = some (0, output_aa) ∧
    (ddr_test_against_reference ddrp_zero reference_config buffer_aa output_aa 324).map Prod.fst
      = some 0 := by
  have h := ddr_test_against_reference_code ddrp_zero reference_config buffer_aa output_aa
  refine ⟨by decide, h.1 300 (by decide), generate_buffer_aa, ?_⟩
  obtain ⟨code, lines, he, h0, _⟩ := h.2 output_aa 0 generate_buffer_aa (le_refl 0)
  rw [he, Option.map_some', h0.mpr (fun _ _ => rfl)]

theorem length_output_aa : output_aa.length = 324 := by
  obtain ⟨_, obj, _, hout⟩ := ddr_generate_binary_success ddrp_zero reference_config buffer_aa
    324 output_aa generate_buffer_aa
  rw [hout, length_binary_of _ _ _ _ ddrp_zero_writes_own_region (by rw [length_buffer_aa]),
    length_buffer_aa]

theorem differing_bytes_reference_inverted :
    (differing_bytes output_aa reference_inverted (List.range 324)).length = 324 := by
  unfold differing_bytes
  rw [List.length_map, List.filter_eq_self.mpr, List.length_range]
  intro i hi
  rw [List.mem_range] at hi
  have hlen := length_output_aa
  have e : rd8 reference_inverted i = 255 - rd8 output_aa i := by
    unfold reference_inverted rd8
    rw [List.getD_eq_getElem?_getD, List.getD_eq_getElem?_getD, List.getElem?_map,
      List.getElem?_eq_getElem (by omega)]
    rfl
  rw [e]
  simp only [ne_eq, decide_eq_true_eq]
  omega

/-- C22, as the claim states it, fails: against a reference of 324 bytes that
differs from the generated binary at every offset (each byte `x` replaced by
`255 - x`), 324 bytes differ and `ddr_test_against_reference` prints 20
`[DIFF]` lines. -/
theorem diff_lines_stop_at_20 :
    reference_inverted.length = 324 ∧
    (differing_bytes output_aa reference_inverted (List.range 324)).length = 324 ∧
    (ddr_test_against_reference ddrp_zero reference_config buffer_aa reference_inverted 324).map
      (fun r => (r.1, r.2.length)) = some (1, 20) := by
  refine ⟨by rw [reference_inverted, List.length_map, length_output_aa],
    differing_bytes_reference_inverted, ?_⟩
  have hne : differing_bytes output_aa reference_inverted (List.range 324) ≠ [] := by
    intro h
    have := differing_bytes_reference_inverted
    rw [h] at this
    exact absurd this (by decide)
  rw [ddr_test_against_reference_eq ddrp_zero reference_config buffer_aa reference_inverted
    output_aa 0 generate_buffer_aa (le_refl 0), Option.map_some', if_neg hne, List.length_take,
    differing_bytes_reference_inverted]
  rfl

/-- C22, amended. For every reference buffer, when generation succeeds
`ddr_test_against_reference` prints one `(offset, generated byte, expected
byte)` line for each of the first 20 offsets at which the generated and
reference buffers differ, in offset order, and none for later ones: the lines
are the first 20 entries of the full difference list, their number is the
smaller of 20 and the number of differing bytes, and the report is complete
whenever at most 20 bytes differ. -/
theorem ddr_test_against_reference_lines (ddrp : ddrp_generator) (config : ddr_config_t)
    (generated reference out : List Nat) (result : Int)
    (hgen : ddr_generate_binary ddrp config generated 324 = some (result, out))
    (hres : 0 ≤ result) :
    ∃ code lines,
      ddr_test_against_reference ddrp config generated reference 324 = some (code, lines) ∧
      lines = (differing_bytes out reference (List.range 324)).take 20 ∧
      lines.length = min 20 (differing_bytes out reference (List.range 324)).length ∧
      ((differing_bytes out reference (List.range 324)).length ≤ 20 →
        lines = differing_bytes out reference (List.range 324)) ∧
      (∀ i g e, (i, g, e) ∈ differing_bytes out reference (List.range 324) ↔
        (i < 324 ∧ rd8 out i ≠ rd8 reference i ∧ g = rd8 out i ∧ e = rd8 reference i)) := by
  refine ⟨_, _, ddr_test_against_reference_eq ddrp config generated reference out result hgen
    hres, rfl, List.length_take _ _, fun h => List.take_of_length_le h, ?_⟩
  intro i g e
  unfold differing_bytes
  simp only [List.mem_map, List.mem_filter, List.mem_range, decide_eq_true_eq, Prod.mk.injEq]
  constructor
  · rintro ⟨a, ⟨ha, hne⟩, rfl, rfl, rfl⟩
    exact ⟨ha, hne, rfl, rfl⟩
  · rintro ⟨hi, hne, rfl, rfl⟩
    exact ⟨i, ⟨hi, hne⟩, rfl, rfl, rfl⟩

/-- Witness for the amended C22: against the inverted reference the 20 printed
lines are the first 20 of the 324 differences. -/
theorem ddr_test_against_reference_lines_witness :
    ddr_generate_binary ddrp_zero reference_config buffer_aa 324 = some (0, output_aa) ∧
    (ddr_test_against_reference ddrp_zero reference_config buffer_aa reference_inverted 324).map
      Prod.snd
      = some ((differing_bytes output_aa reference_inverted (List.range 324)).take 20) := by
  obtain ⟨code, lines, he, hl, _⟩ := ddr_test_against_reference_lines ddrp_zero
    reference_config buffer_aa reference_inverted output_aa 0 generate_buffer_aa (le_refl 0)
  exact ⟨generate_buffer_aa, by rw [he, Option.map_some', hl]⟩

/-! ## Checksum engine, empty input and table build -/

theorem length_foldl_set_range (f : Nat → Nat) (n : Nat) (t : List Nat) :
    ((List.range n).foldl (fun t i => t.set i (f i)) t).length = t.length := by
  induction n with
  | zero => simp
  | succ m ihm => simp [List.range_succ, List.foldl_append, ihm]

theorem crc32_init_table_getD (s : crc32_state) (hlen : s.crc32_table.length = 256) (i : Nat)
    (hi : i < 256) : (crc32_init_table s).crc32_table.getD i 0 = crc32_table_entry i := by
  unfold crc32_init_table
  simp only
  rw [foldl_set_range_getD crc32_table_entry 256 _ (by omega) i, if_pos hi]

theorem crc32_init_table_state_independent (s t : crc32_state)
    (hs : s.crc32_table.length = 256) (ht : t.crc32_table.length = 256) :
    crc32_init_table s = crc32_init_table t := by
  have hls : (crc32_init_table s).crc32_table.length = 256 := by
    unfold crc32_init_table
    simp only
    rw [length_foldl_set_range, hs]
  have hlt : (crc32_init_table t).crc32_table.length = 256 := by
    unfold crc32_init_table
    simp only
    rw [length_foldl_set_range, ht]
  have htab : (crc32_init_table s).crc32_table = (crc32_init_table t).crc32_table := by
    apply List.ext_getElem (by rw [hls, hlt])
    intro i h1 h2
    have hi : i < 256 := by omega
    have e1 := crc32_init_table_getD s hs i hi
    have e2 := crc32_init_table_getD t ht i hi
    rw [List.getD_eq_getElem?_getD, List.getElem?_eq_getElem h1] at e1
    rw [List.getD_eq_getElem?_getD, List.getElem?_eq_getElem h2] at e2
    simp only [Option.getD_some] at e1 e2
    rw [e1, e2]
  have hready : (crc32_init_table s).crc32_table_ready = (crc32_init_table t).crc32_table_ready :=
    rfl
  cases hs' : crc32_init_table s
  cases ht' : crc32_init_table t
  rw [hs'] at htab hready
  rw [ht'] at htab hready
  simp only at htab hready
  rw [htab, hready]

theorem crc32_table_after_entry (s : crc32_state) (hs : crc32_state_ok s) :
    (if s.crc32_table_ready then s else crc32_init_table s).crc32_table
      = (crc32_init_table crc32_state_init).crc32_table := by
  obtain ⟨hlen, hready⟩ := hs
  by_cases h : s.crc32_table_ready = true
  · rw [if_pos h, hready h]
  · rw [if_neg h, crc32_init_table_state_independent s crc32_state_init hlen (by decide)]

/-- C23. From any state of the statics, `thingino_crc32` returns 0 when the
data pointer is null, whatever the length argument, and returns 0 when the
length is 0, whatever the data pointer points to; the seed `0xFFFFFFFF` is not
returned. -/
theorem thingino_crc32_empty_or_null (s : crc32_state) :
    (∀ length, (thingino_crc32 s none length).1 = 0) ∧
    (∀ bytes, (thingino_crc32 s (some bytes) 0).1 = 0) ∧
    (thingino_crc32 s (some []) 0).1 ≠ 0xFFFFFFFF := by
  refine ⟨fun length => rfl, fun bytes => ?_, ?_⟩
  · unfold thingino_crc32
    simp only [if_true]
  · unfold thingino_crc32
    simp only [if_true]
    decide

/-- C24. Building the table is state-independent and idempotent: for any two
contents of the 256-slot table, `crc32_init_table` leaves the same statics, whose
256 entries are the eight-step values of the indices; building twice equals
building once; and from any two states the statics can be in (table built or
not), `thingino_crc32` returns the same value for the same input. -/
theorem crc32_init_table_idempotent (s t : crc32_state)
    (hs : s.crc32_table.length = 256) (ht : t.crc32_table.length = 256) :
    crc32_init_table s = crc32_init_table t ∧
    (∀ i, i < 256 → (crc32_init_table s).crc32_table.getD i 0 = crc32_table_entry i) ∧
    (crc32_init_table s).crc32_table.length = 256 ∧
    crc32_init_table (crc32_init_table s) = crc32_init_table s ∧
    (∀ data length, crc32_state_ok s → crc32_state_ok t →
      (thingino_crc32 s data length).1 = (thingino_crc32 t data length).1) ∧
    (∀ data length, crc32_state_ok s →
      (thingino_crc32 (crc32_init_table s) data length).1 = (thingino_crc32 s data length).1) := by
  have hls : (crc32_init_table s).crc32_table.length = 256 := by
    unfold crc32_init_table
    simp only
    rw [length_foldl_set_range, hs]
  have hval : ∀ (a b : crc32_state) data length,
      (if a.crc32_table_ready then a else crc32_init_table a).crc32_table
        = (if b.crc32_table_ready then b else crc32_init_table b).crc32_table →
      (thingino_crc32 a data length).1 = (thingino_crc32 b data length).1 := by
    intro a b data length hab
    unfold thingino_crc32
    simp only
    cases data with
    | none => rfl
    | some bytes =>
      simp only
      by_cases hl : length = 0
      · simp only [hl, if_true]
      · simp only [hl, if_false, hab]
  refine ⟨crc32_init_table_state_independent s t hs ht,
    fun i hi => crc32_init_table_getD s hs i hi, hls,
    crc32_init_table_state_independent _ _ hls hs, ?_, ?_⟩
  · intro data length hoks hokt
    exact hval s t data length
      ((crc32_table_after_entry s hoks).trans (crc32_table_after_entry t hokt).symm)
  · intro data length hoks
    apply hval
    rw [crc32_table_after_entry s hoks]
    have hr : (crc32_init_table s).crc32_table_ready = true := rfl
    rw [if_pos hr, crc32_init_table_state_independent s crc32_state_init hs (by decide)]

/-- Witness for C24: the initial statics and the statics after one build; the
checksum of `"123456789"` is `0xCBF43926` from both. -/
theorem crc32_init_table_idempotent_witness :
    crc32_state_init.crc32_table.length = 256 ∧ crc32_state_ok crc32_state_init ∧
    crc32_init_table (crc32_init_table crc32_state_init) = crc32_init_table crc32_state_init ∧
    (thingino_crc32 (crc32_init_table crc32_state_init) (some check_bytes) 9).1
      = (thingino_crc32 crc32_state_init (some check_bytes) 9).1 :=
  have h := crc32_init_table_idempotent crc32_state_init crc32_state_init (by decide) (by decide)
  ⟨by decide, ⟨by decide, by decide⟩, h.2.2.2.1,
    h.2.2.2.2.2 (some check_bytes) 9 ⟨by decide, by decide⟩⟩

/-! ## Firmware loader, the claims -/

/-- C25, the code when `ddr_build_binary` behaves as its header documents. For
every variant, every successful platform lookup, every successful allocation
and every builder that returns 324 (the number of bytes written), called with
two valid out-pointers, `firmware_generate_ddr_config` takes the `!= 0` branch:
it returns `THINGINO_ERROR_PROTOCOL`, leaves `NULL` in `*config_buffer` and
leaves `*config_size` as it was; it does not return `THINGINO_SUCCESS`. It
returns `THINGINO_SUCCESS` with size 324 for a builder that returns 0. -/
theorem firmware_generate_ddr_config_rejects_324 (variant : Int) (cfg : platform_config_t)
    (block : List Nat) (write : platform_config_t → ddr_phy_params_t → List Nat → List Nat)
    (old_buffer : Option (List Nat)) (old_size : Nat) :
    firmware_generate_ddr_config (fun _ => (0, cfg)) (fun _ => some block)
        (fun p q out => (324, write p q out)) variant (some old_buffer) (some old_size)
      = (thingino_error_t.THINGINO_ERROR_PROTOCOL, some none, some old_size) ∧
    (firmware_generate_ddr_config (fun _ => (0, cfg)) (fun _ => some block)
        (fun p q out => (324, write p q out)) variant (some old_buffer) (some old_size)).1
      ≠ thingino_error_t.THINGINO_SUCCESS ∧
    firmware_generate_ddr_config (fun _ => (0, cfg)) (fun _ => some block)
        (fun p q out => (0, write p q out)) variant (some old_buffer) (some old_size)
      = (thingino_error_t.THINGINO_SUCCESS, some (some (write cfg loader_phy_params block)),
          some 324) := by
  refine ⟨rfl, ?_, rfl⟩
  intro h
  cases h

/-! ## TXX timing registers, statement by statement -/

theorem length_store8 (dst : Nat) (e : List Nat → Nat) (b : List Nat) :
    (store8 dst e b).length = b.length := by
  unfold store8
  rw [length_wr8]

theorem rd8_store8_ne (dst : Nat) (e : List Nat → Nat) (b : List Nat) (j : Nat) (h : j ≠ dst) :
    rd8 (store8 dst e b) j = rd8 b j := by
  unfold store8
  rw [rd8_wr8_ne _ _ _ _ h]

theorem rd8_store8_self (dst : Nat) (e : List Nat → Nat) (b : List Nat) (h : dst < b.length) :
    rd8 (store8 dst e b) dst = e b % 256 := by
  unfold store8
  rw [rd8_wr8_eq _ _ _ h]

theorem rd32_wr8_outside (b : List Nat) (i v off : Nat) (h : i < off ∨ off + 4 ≤ i) :
    rd32 (wr8 b i v) off = rd32 b off :=
  rd32_congr _ _ _ _ (fun k hk => rd8_wr8_ne b i v (off + k) (by omega))

theorem rd32_store8_outside (dst : Nat) (e : List Nat → Nat) (b : List Nat) (off : Nat)
    (h : dst < off ∨ off + 4 ≤ dst) : rd32 (store8 dst e b) off = rd32 b off := by
  unfold store8
  rw [rd32_wr8_outside _ _ _ _ h]

theorem length_txx_timing_ae (p : Nat) (b : List Nat) : (txx_timing_ae p b).length = b.length := by
  unfold txx_timing_ae
  simp only
  split_ifs <;> simp only [length_wr8]

theorem rd8_txx_timing_ae_ne (p : Nat) (b : List Nat) (j : Nat) (h1 : j ≠ 0xae)
    (h2 : j ≠ 0xbe) : rd8 (txx_timing_ae p b) j = rd8 b j := by
  unfold txx_timing_ae
  simp only
  split_ifs
  · rw [rd8_wr8_ne _ _ _ _ h2, rd8_wr8_ne _ _ _ _ h1]
  · rw [rd8_wr8_ne _ _ _ _ h2, rd8_wr8_ne _ _ _ _ h1]
  · rw [rd8_wr8_ne _ _ _ _ h1]

theorem rd8_txx_timing_ae_self (p : Nat) (b : List Nat) (h : 0xae < b.length) :
    rd8 (txx_timing_ae p b) 0xae
      = ((rd8 b 0xae &&& 0xc0)
          ||| (((PS2CYCLE p (rd32 b 0x170) + rd32 b 0x130 + 2 ^ 32 - 1 + rd32 b 0x138 / 2)
                % 2 ^ 32) &&& 0x3f)) % 256 := by
  unfold txx_timing_ae
  simp only
  split_ifs
  · rw [rd8_wr8_ne _ _ _ _ (by decide), rd8_wr8_eq _ _ _ h]
  · rw [rd8_wr8_ne _ _ _ _ (by decide), rd8_wr8_eq _ _ _ h]
  · rw [rd8_wr8_eq _ _ _ h]

theorem length_txx_timing_bc (b : List Nat) : (txx_timing_bc b).length = b.length := by
  unfold txx_timing_bc
  simp only
  split_ifs <;> simp only [length_wr8]

theorem rd8_txx_timing_bc_ne (b : List Nat) (j : Nat) (h : j ≠ 0xbc) :
    rd8 (txx_timing_bc b) j = rd8 b j := by
  unfold txx_timing_bc
  simp only
  split_ifs
  · rw [rd8_wr8_ne _ _ _ _ h]
  · rfl

theorem length_txx_timing_bd (b : List Nat) : (txx_timing_bd b).length = b.length := by
  unfold txx_timing_bd
  simp only
  split_ifs <;> simp only [length_wr8]

theorem rd8_txx_timing_bd_ne (b : List Nat) (j : Nat) (h : j ≠ 0xbd) :
    rd8 (txx_timing_bd b) j = rd8 b j := by
  unfold txx_timing_bd
  simp only
  split_ifs
  · rw [rd8_wr8_ne _ _ _ _ h]
  · rfl

theorem rd8_txx_timing_bd_self (b : List Nat) (h : 0xbd < b.length) :
    rd8 (txx_timing_bd b) 0xbd
      = if (rd8 b 0xb0 &&& 0x3f) % 256 ≥ 2 then
          ((rd8 b 0xbd &&& 0xc0)
            ||| ((((rd8 b 0xb0 &&& 0x3f) % 256 + 2 ^ 32 - 3) % 2 ^ 32) &&& 0x3f)) % 256
        else rd8 b 0xbd := by
  unfold txx_timing_bd
  simp only
  split_ifs
  · rw [rd8_wr8_eq _ _ _ h]
  · rfl

theorem length_txx_timing_base (p : Nat) (b : List Nat) :
    (txx_timing_base p b).length = b.length := by
  unfold txx_timing_base
  simp only [length_wr32, length_store8]

theorem length_txx_timing_ddr2 (p : Nat) (b : List Nat) :
    (txx_timing_ddr2 p b).length = b.length := by
  unfold txx_timing_ddr2
  simp only [length_store8, length_txx_timing_ae, length_txx_timing_bc, length_txx_timing_bd]

/-- Outside the bytes `0xac` to `0xc7` the first part leaves the scratch object
as it was. -/
theorem rd8_txx_timing_base_outside (p : Nat) (b : List Nat) (j : Nat)
    (h : j < 0xac ∨ 0xc8 ≤ j) : rd8 (txx_timing_base p b) j = rd8 b j := by
  unfold txx_timing_base
  simp only []
  rw [rd8_wr32_outside _ _ _ _ (by omega)]
  repeat rw [rd8_store8_ne _ _ _ _ (by omega)]

/-- Outside the bytes `0xac` to `0xc7` the DDR2 override pass leaves the scratch
object as it was. -/
theorem rd8_txx_timing_ddr2_outside (p : Nat) (b : List Nat) (j : Nat)
    (h : j < 0xac ∨ 0xc8 ≤ j) : rd8 (txx_timing_ddr2 p b) j = rd8 b j := by
  unfold txx_timing_ddr2
  simp only []
  rw [rd8_store8_ne _ _ _ _ (by omega), rd8_store8_ne _ _ _ _ (by omega),
    rd8_store8_ne _ _ _ _ (by omega), rd8_store8_ne _ _ _ _ (by omega),
    rd8_store8_ne _ _ _ _ (by omega), rd8_store8_ne _ _ _ _ (by omega),
    rd8_txx_timing_bd_ne _ _ (by omega), rd8_txx_timing_bc_ne _ _ (by omega),
    rd8_txx_timing_ae_ne _ _ _ (by omega) (by omega), rd8_store8_ne _ _ _ _ (by omega)]

theorem rd8_txx_timing_general (p : Nat) (obj : List Nat) (hlen : obj.length = 0x300)
    (f : Nat × Nat) (hf : f ∈ general_rule_fields) :
    rd8 (txx_timing_ddr2 p (txx_timing_base p obj)) f.1
      = ((rd8 obj f.1 &&& 0xc0) ||| (PS2CYCLE p (rd32 obj f.2) &&& 0x3f)) % 256 := by
  simp only [general_rule_fields, List.mem_cons, List.mem_singleton, List.not_mem_nil,
    or_false] at hf
  rcases hf with rfl | rfl | rfl | rfl | rfl | rfl | rfl | rfl <;>
  · unfold txx_timing_ddr2 txx_timing_base
    simp (disch := first | omega | (simp only [length_store8, length_wr32, hlen]; omega)) only
      [rd8_store8_ne, rd8_store8_self, rd32_store8_outside, rd8_wr32_outside, rd32_wr32_ne,
       rd8_txx_timing_ae_ne, rd8_txx_timing_bc_ne, rd8_txx_timing_bd_ne]

theorem low6_update (old v : Nat) (h : old < 256) :
    ((old &&& 0xc0) ||| (v &&& 0x3f)) % 256 / 64 = old / 64 ∧
    ((old &&& 0xc0) ||| (v &&& 0x3f)) % 256 % 64 = v % 64 := by
  rw [and_0xc0, and_0x3f]
  have e := Nat.mul_add_lt_is_or (i := 6) (b := v % 64) (Nat.mod_lt _ (by decide)) (old / 64 % 4)
  norm_num at e
  rw [← e]
  omega

theorem PS2CYCLE_eq_ceil_div (p ps : Nat) (hp : 0 < p) (hp32 : p < 2 ^ 32)
    (hfit : ps + p ≤ 2 ^ 32) : PS2CYCLE p ps = ceil_div ps p := by
  unfold PS2CYCLE PS2CYCLE_DIV
  rw [ceil_div_eq _ _ hp, Nat.mul_one, Nat.mod_eq_of_lt hp32]
  have e : (ps + p + 2 ^ 32 - 1) % 2 ^ 32 = ps + p - 1 := by omega
  rw [e]

theorem ddr_generate_ddrc_timing_txx_ddr2_some (config : ddr_config_t) (obj : List Nat)
    (hbytes : bytes_ok obj) (hp : rd32 obj 0x22c % 2 ^ 29 ≠ 0) :
    ddr_generate_ddrc_timing_txx_ddr2 config obj
      = some (0, txx_timing_ddr2 (rd32 obj 0x22c) (txx_timing_base (rd32 obj 0x22c) obj)) := by
  unfold ddr_generate_ddrc_timing_txx_ddr2
  have h32 := rd32_lt obj 0x22c hbytes
  simp only
  rw [if_neg]
  omega

/-- C26, amended. For every scratch object of 0x300 bytes whose clock period
`p` (word at 0x22c) is not a multiple of `2 ^ 29`, the function returns 0, and
for each of the eight fields of the general rule the byte after the call has
its top two bits unchanged and its low six bits equal to the 32-bit quotient
`PS2CYCLE(source_ps)` modulo 64, which is `ceil(source_ps / p)` modulo 64
whenever `source_ps + p` does not exceed `2 ^ 32`. -/
theorem ddr_generate_ddrc_timing_txx_ddr2_general (config : ddr_config_t) (obj : List Nat)
    (hlen : obj.length = 0x300) (hbytes : bytes_ok obj) (hp : rd32 obj 0x22c % 2 ^ 29 ≠ 0) :
    ∃ out, ddr_generate_ddrc_timing_txx_ddr2 config obj = some (0, out) ∧
      ∀ f, f ∈ general_rule_fields →
        rd8 out f.1 / 64 = rd8 obj f.1 / 64 ∧
        rd8 out f.1 % 64 = PS2CYCLE (rd32 obj 0x22c) (rd32 obj f.2) % 64 ∧
        (rd32 obj f.2 + rd32 obj 0x22c ≤ 2 ^ 32 →
          rd8 out f.1 % 64 = ceil_div (rd32 obj f.2) (rd32 obj 0x22c) % 64) := by
  refine ⟨_, ddr_generate_ddrc_timing_txx_ddr2_some config obj hbytes hp, fun f hf => ?_⟩
  rw [rd8_txx_timing_general _ obj hlen f hf]
  have h := low6_update (rd8 obj f.1) (PS2CYCLE (rd32 obj 0x22c) (rd32 obj f.2)) (hbytes f.1)
  refine ⟨h.1, h.2, fun hfit => ?_⟩
  rw [h.2, PS2CYCLE_eq_ceil_div _ _ (by omega) (rd32_lt obj 0x22c hbytes) hfit]

theorem length_scratch_timing : scratch_timing.length = 0x300 := by
  simp only [scratch_timing, length_wr32, length_scratch_zero]

theorem bytes_ok_scratch_timing : bytes_ok scratch_timing := by
  unfold scratch_timing
  repeat apply bytes_ok_wr32
  exact bytes_ok_scratch_zero

theorem rd32_scratch_timing :
    rd32 scratch_timing 0x22c = 2500 ∧ rd32 scratch_timing 0x168 = 15000 ∧
    rd32 scratch_timing 0x180 = 57000 ∧ rd32 scratch_timing 0x174 = 20000 ∧
    rd32 scratch_timing 0x170 = 5000 ∧ rd32 scratch_timing 0x130 = 7 ∧
    rd32 scratch_timing 0x138 = 8 := by
  unfold scratch_timing
  simp (disch := first | omega | (simp only [length_wr32, length_scratch_zero]; omega)) only
    [rd32_wr32_ne, rd32_wr32_same]
  decide

theorem rd32_scratch_wrap :
    rd32 scratch_wrap 0x22c = 3 ∧ rd32 scratch_wrap 0x168 = 0xFFFFFFFF ∧
    rd32 scratch_wrap 0x170 = 0xFFFFFFFF ∧ rd32 scratch_wrap 0x174 = 0xFFFFFFFF ∧
    rd32 scratch_wrap 0x130 = 0 ∧ rd32 scratch_wrap 0x138 = 0 := by
  refine ⟨?_, ?_, ?_, ?_, by rfl, by rfl⟩ <;>
  · unfold scratch_wrap
    simp (disch := first | omega | (simp only [length_wr32, length_scratch_zero]; omega)) only
      [rd32_wr32_ne, rd32_wr32_same]
    try decide

theorem rd32_scratch_period_2p29 : rd32 scratch_period_2p29 0x22c = 0x20000000 := by
  unfold scratch_period_2p29
  rw [rd32_wr32_same _ _ _ (by rw [length_scratch_zero]; decide)]
  decide

/-- With a clock period of `2 ^ 29` ps the divisor `clock_period_ps * 8` is zero
in 32 bits. -/
theorem timing_period_2p29_none :
    ddr_generate_ddrc_timing_txx_ddr2 reference_config scratch_period_2p29 = none := by
  unfold ddr_generate_ddrc_timing_txx_ddr2
  simp only [rd32_scratch_period_2p29]
  rfl

/-- The bytes `0xad`, `0xbb` and `0xae` after the call on `scratch_wrap`, low six
bits. -/
theorem timing_scratch_wrap :
    ∃ out, ddr_generate_ddrc_timing_txx_ddr2 reference_config scratch_wrap = some (0, out) ∧
      rd8 out 0xad % 64 = 0 ∧ rd8 out 0xbb % 64 = 0x3f ∧ rd8 out 0xae % 64 = 0x3f :=
  ⟨_, rfl, by rfl, by rfl, by rfl⟩

/-- C26, as the claim states it, fails. With a clock period of 3 ps and a
duration of `0xFFFFFFFF` ps at `0x168`, the 32-bit sum `ps + period - 1` wraps
to 1: the low six bits of byte `0xad` are 0, while `ceil(0xFFFFFFFF / 3)` is
1431655765, which is 21 modulo 64. With a clock period of `2 ^ 29` ps, which is
positive, the divisor `clock_period_ps * 8` is zero in 32 bits and the call has
no result. -/
theorem general_rule_wraps :
    0 < rd32 scratch_wrap 0x22c ∧ rd32 scratch_wrap 0x168 = 0xFFFFFFFF ∧
    (ddr_generate_ddrc_timing_txx_ddr2 reference_config scratch_wrap).map
      (fun r => rd8 r.2 0xad % 64) = some 0 ∧
    ceil_div (rd32 scratch_wrap 0x168) (rd32 scratch_wrap 0x22c) % 64 = 21 ∧
    0 < rd32 scratch_period_2p29 0x22c ∧
    ddr_generate_ddrc_timing_txx_ddr2 reference_config scratch_period_2p29 = none := by
  obtain ⟨h1, h2, _⟩ := rd32_scratch_wrap
  obtain ⟨out, hout, had, _⟩ := timing_scratch_wrap
  refine ⟨by rw [h1]; decide, h2, by rw [hout, Option.map_some', had], ?_,
    by rw [rd32_scratch_period_2p29]; decide, timing_period_2p29_none⟩
  rw [h1, h2, ceil_div_eq _ _ (by decide)]

/-- Witness for the amended C26: at 2500 ps, 15000 ps at `0x168` give 6 in byte
`0xad` and 57000 ps at `0x180` give 23 in byte `0xb0`. -/
theorem ddr_generate_ddrc_timing_txx_ddr2_general_witness :
    scratch_timing.length = 0x300 ∧ bytes_ok scratch_timing ∧
    rd32 scratch_timing 0x22c % 2 ^ 29 ≠ 0 ∧
    (ddr_generate_ddrc_timing_txx_ddr2 reference_config scratch_timing).map
      (fun r => (rd8 r.2 0xad % 64, rd8 r.2 0xb0 % 64)) = some (6, 23) := by
  obtain ⟨hp, h168, h180, _⟩ := rd32_scratch_timing
  have hp29 : rd32 scratch_timing 0x22c % 2 ^ 29 ≠ 0 := by rw [hp]; decide
  refine ⟨length_scratch_timing, bytes_ok_scratch_timing, hp29, ?_⟩
  obtain ⟨out, hout, hf⟩ := ddr_generate_ddrc_timing_txx_ddr2_general reference_config
    scratch_timing length_scratch_timing bytes_ok_scratch_timing hp29
  have had := (hf (0xad, 0x168) (by decide)).2.2 (by rw [h168, hp]; decide)
  have hb0 := (hf (0xb0, 0x180) (by decide)).2.2 (by rw [h180, hp]; decide)
  simp only [h168, h180, hp] at had hb0
  rw [ceil_div_eq _ _ (by decide)] at had hb0
  rw [hout, Option.map_some', had, hb0]

theorem rd8_txx_timing_others (p : Nat) (obj : List Nat) (hlen : obj.length = 0x300) :
    rd8 (txx_timing_ddr2 p (txx_timing_base p obj)) 0xbb
      = ((rd8 obj 0xbb &&& 0xc0) ||| (tRTW_cycles p (rd32 obj 0x174) &&& 0x3f)) % 256 ∧
    rd8 (txx_timing_ddr2 p (txx_timing_base p obj)) 0xbf = 0xff ∧
    rd8 (txx_timing_ddr2 p (txx_timing_base p obj)) 0xc0
      = ((rd8 obj 0xc0 &&& 0xc0) ||| 5) % 256 ∧
    rd8 (txx_timing_ddr2 p (txx_timing_base p obj)) 0xc1
      = ((rd8 obj 0xc1 &&& 0xc0) ||| 5) % 256 ∧
    rd8 (txx_timing_ddr2 p (txx_timing_base p obj)) 0xb7
      = ((((rd8 obj 0xb7 &&& 0x87) ||| 0x20) % 256) &&& 0xf8) % 256 ∧
    rd8 (txx_timing_ddr2 p (txx_timing_base p obj)) 0xae
      = ((rd8 obj 0xae &&& 0xc0)
          ||| (((PS2CYCLE p (rd32 obj 0x170) + rd32 obj 0x130 + 2 ^ 32 - 1 + rd32 obj 0x138 / 2)
                % 2 ^ 32) &&& 0x3f)) % 256 := by
  unfold txx_timing_ddr2 txx_timing_base
  simp (disch := first | omega | (simp only [length_store8, length_wr32, length_txx_timing_ae,
      length_txx_timing_bc, length_txx_timing_bd, hlen]; omega)) only
    [rd8_store8_ne, rd8_store8_self, rd32_store8_outside, rd8_wr32_outside, rd32_wr32_ne,
     rd8_txx_timing_ae_ne, rd8_txx_timing_bc_ne, rd8_txx_timing_bd_ne, rd8_txx_timing_ae_self,
     Nat.reduceMod, and_self]

theorem rd32_txx_timing_c4 (p : Nat) (obj : List Nat) (hlen : obj.length = 0x300) :
    rd32 (txx_timing_ddr2 p (txx_timing_base p obj)) 0xc4 = 0 := by
  have h : rd32 (txx_timing_ddr2 p (txx_timing_base p obj)) 0xc4
      = rd32 (txx_timing_base p obj) 0xc4 := by
    apply rd32_congr
    intro i hi
    unfold txx_timing_ddr2
    simp only []
    rw [rd8_store8_ne _ _ _ _ (by omega), rd8_store8_ne _ _ _ _ (by omega),
      rd8_store8_ne _ _ _ _ (by omega), rd8_store8_ne _ _ _ _ (by omega),
      rd8_store8_ne _ _ _ _ (by omega), rd8_store8_ne _ _ _ _ (by omega),
      rd8_txx_timing_bd_ne _ _ (by omega), rd8_txx_timing_bc_ne _ _ (by omega),
      rd8_txx_timing_ae_ne _ _ _ (by omega) (by omega), rd8_store8_ne _ _ _ _ (by omega)]
  rw [h]
  unfold txx_timing_base
  simp only []
  rw [rd32_wr32_same _ _ _ (by simp only [length_store8, hlen]; omega), Nat.zero_mod]

theorem b7_constant (old : Nat) (h : old < 256) :
    ((((old &&& 0x87) ||| 0x20) % 256) &&& 0xf8) % 256 = (old &&& 0x80) ||| 0x20 := by
  have key : ∀ x : Fin 256,
      ((((x.val &&& 0x87) ||| 0x20) % 256) &&& 0xf8) % 256 = (x.val &&& 0x80) ||| 0x20 := by
    decide
  exact key ⟨old, h⟩

theorem low6_constant5 (old : Nat) (h : old < 256) :
    ((old &&& 0xc0) ||| 5) % 256 / 64 = old / 64 ∧ ((old &&& 0xc0) ||| 5) % 256 % 64 = 5 := by
  have e := low6_update old 5 h
  have e5 : (5 : Nat) &&& 0x3f = 5 := by decide
  rw [e5] at e
  exact e

theorem tRTW_cycles_eq (p t : Nat) (hp : 0 < p) (hp31 : 2 * p < 2 ^ 32)
    (hfit : t + 2 * p ≤ 2 ^ 32) :
    tRTW_cycles p t = (ceil_div t (2 * p) / 2 + 2 ^ 32 - 1) % 2 ^ 32 := by
  unfold tRTW_cycles
  simp only
  have h2 : (p * 2) % 2 ^ 32 = 2 * p := by omega
  rw [h2, ceil_div_eq _ _ (by omega)]
  have e : (t + 2 ^ 32 - 1 + 2 * p) % 2 ^ 32 = t + 2 * p - 1 := by omega
  rw [e]

/-- C27, as the claim states it, fails. With a clock period of 3 ps and a
read-to-write duration of `0xFFFFFFFF` ps at `0x174`, the 32-bit sum
`t - 1 + 2 * p` wraps to 4, the quotient is 0 and the stored six bits are
`0x3f`; `ceil(0xFFFFFFFF / 6)` is 715827883, whose half less one is 20 modulo
64. With a clock period of `2 ^ 29` ps, which is positive, the call divides by
zero and has no result. -/
theorem tRTW_wraps :
    0 < rd32 scratch_wrap 0x22c ∧ rd32 scratch_wrap 0x174 = 0xFFFFFFFF ∧
    (ddr_generate_ddrc_timing_txx_ddr2 reference_config scratch_wrap).map
      (fun r => rd8 r.2 0xbb % 64) = some 0x3f ∧
    ((ceil_div (rd32 scratch_wrap 0x174) (2 * rd32 scratch_wrap 0x22c) / 2 + 2 ^ 32 - 1)
      % 2 ^ 32) % 64 = 20 ∧
    0 < rd32 scratch_period_2p29 0x22c ∧
    ddr_generate_ddrc_timing_txx_ddr2 reference_config scratch_period_2p29 = none := by
  obtain ⟨h1, _, _, h2, _⟩ := rd32_scratch_wrap
  obtain ⟨out, hout, _, hbb, _⟩ := timing_scratch_wrap
  refine ⟨by rw [h1]; decide, h2, by rw [hout, Option.map_some', hbb], ?_,
    by rw [rd32_scratch_period_2p29]; decide, timing_period_2p29_none⟩
  rw [h1, h2, ceil_div_eq _ _ (by decide)]
  decide

/-- C27, amended. For every scratch object of 0x300 bytes whose clock period
`p` (word at 0x22c) is not a multiple of `2 ^ 29`, the function returns 0 and
byte `0xbb` has its top two bits unchanged and its low six bits equal to the
32-bit value of `tRTW_cycles` modulo 64; whenever `t + 2 * p` does not exceed
`2 ^ 32`, `t` being the word at 0x174, that value is
`(ceil(t / (2 * p)) / 2 - 1)` computed in 32-bit unsigned arithmetic, so a
halved ceiling of 0 is stored as `0x3f`. -/
theorem ddr_generate_ddrc_timing_txx_ddr2_tRTW (config : ddr_config_t) (obj : List Nat)
    (hlen : obj.length = 0x300) (hbytes : bytes_ok obj) (hp : rd32 obj 0x22c % 2 ^ 29 ≠ 0) :
    ∃ out, ddr_generate_ddrc_timing_txx_ddr2 config obj = some (0, out) ∧
      rd8 out 0xbb / 64 = rd8 obj 0xbb / 64 ∧
      rd8 out 0xbb % 64 = tRTW_cycles (rd32 obj 0x22c) (rd32 obj 0x174) % 64 ∧
      (rd32 obj 0x174 + 2 * rd32 obj 0x22c ≤ 2 ^ 32 →
        rd8 out 0xbb % 64
          = ((ceil_div (rd32 obj 0x174) (2 * rd32 obj 0x22c) / 2 + 2 ^ 32 - 1) % 2 ^ 32) % 64 ∧
        (ceil_div (rd32 obj 0x174) (2 * rd32 obj 0x22c) / 2 = 0 → rd8 out 0xbb % 64 = 0x3f)) := by
  refine ⟨_, ddr_generate_ddrc_timing_txx_ddr2_some config obj hbytes hp, ?_⟩
  rw [(rd8_txx_timing_others _ obj hlen).1]
  have h := low6_update (rd8 obj 0xbb) (tRTW_cycles (rd32 obj 0x22c) (rd32 obj 0x174))
    (hbytes 0xbb)
  refine ⟨h.1, h.2, fun hfit => ?_⟩
  have e := tRTW_cycles_eq (rd32 obj 0x22c) (rd32 obj 0x174) (by omega) (by omega) hfit
  refine ⟨by rw [h.2, e], fun h0 => ?_⟩
  rw [h.2, e, h0]
  decide

/-- Witness for the amended C27: at 2500 ps a read-to-write duration of 20000
ps gives `ceil(20000 / 5000) / 2 - 1 = 1` in byte `0xbb`. -/
theorem ddr_generate_ddrc_timing_txx_ddr2_tRTW_witness :
    scratch_timing.length = 0x300 ∧ bytes_ok scratch_timing ∧
    rd32 scratch_timing 0x22c % 2 ^ 29 ≠ 0 ∧
    (ddr_generate_ddrc_timing_txx_ddr2 reference_config scratch_timing).map
      (fun r => rd8 r.2 0xbb % 64) = some 1 := by
  obtain ⟨hp, _, _, h174, _⟩ := rd32_scratch_timing
  have hp29 : rd32 scratch_timing 0x22c % 2 ^ 29 ≠ 0 := by rw [hp]; decide
  refine ⟨length_scratch_timing, bytes_ok_scratch_timing, hp29, ?_⟩
  obtain ⟨out, hout, _, _, hc⟩ := ddr_generate_ddrc_timing_txx_ddr2_tRTW reference_config
    scratch_timing length_scratch_timing bytes_ok_scratch_timing hp29
  have hbb := (hc (by rw [h174, hp]; decide)).1
  simp only [h174, hp] at hbb
  rw [ceil_div_eq _ _ (by decide)] at hbb
  rw [hout, Option.map_some', hbb]
  decide

/-- C28, as the claim states it, fails: a clock period of `2 ^ 29` ps is
positive, the divisor `clock_period_ps * 8` of the refresh field is zero in 32
bits, and the call has no result, so no byte "after the call" exists. -/
theorem constants_need_nonzero_divisors :
    0 < rd32 scratch_period_2p29 0x22c ∧
    (rd32 scratch_period_2p29 0x22c * 8) % 2 ^ 32 = 0 ∧
    ddr_generate_ddrc_timing_txx_ddr2 reference_config scratch_period_2p29 = none := by
  refine ⟨?_, ?_, timing_period_2p29_none⟩ <;>
  · rw [rd32_scratch_period_2p29]
    decide

/-- C28, amended. For every scratch object of 0x300 bytes whose clock period
(word at 0x22c) is not a multiple of `2 ^ 29`, so that none of the divisors
`p`, `2 * p`, `4 * p`, `8 * p` is zero in 32 bits, the function returns 0 and
after the call byte `0xbf` is `0xff`, bytes `0xc0` and `0xc1` have 5 in their low
six bits and their top two bits unchanged, byte `0xb7` is `(old & 0x80) | 0x20`
and the word at `0xc4` is 0: each is a function of the old byte alone, whatever
the timing words hold. -/
theorem ddr_generate_ddrc_timing_txx_ddr2_constants (config : ddr_config_t) (obj : List Nat)
    (hlen : obj.length = 0x300) (hbytes : bytes_ok obj) (hp : rd32 obj 0x22c % 2 ^ 29 ≠ 0) :
    ∃ out, ddr_generate_ddrc_timing_txx_ddr2 config obj = some (0, out) ∧
      rd8 out 0xbf = 0xff ∧
      rd8 out 0xc0 % 64 = 5 ∧ rd8 out 0xc0 / 64 = rd8 obj 0xc0 / 64 ∧
      rd8 out 0xc1 % 64 = 5 ∧ rd8 out 0xc1 / 64 = rd8 obj 0xc1 / 64 ∧
      rd8 out 0xb7 = (rd8 obj 0xb7 &&& 0x80) ||| 0x20 ∧
      rd32 out 0xc4 = 0 := by
  refine ⟨_, ddr_generate_ddrc_timing_txx_ddr2_some config obj hbytes hp, ?_⟩
  obtain ⟨_, hbf, hc0, hc1, hb7, _⟩ := rd8_txx_timing_others (rd32 obj 0x22c) obj hlen
  have e0 := low6_constant5 (rd8 obj 0xc0) (hbytes 0xc0)
  have e1 := low6_constant5 (rd8 obj 0xc1) (hbytes 0xc1)
  refine ⟨hbf, ?_, ?_, ?_, ?_, ?_, rd32_txx_timing_c4 _ obj hlen⟩
  · rw [hc0]; exact e0.2
  · rw [hc0]; exact e0.1
  · rw [hc1]; exact e1.2
  · rw [hc1]; exact e1.1
  · rw [hb7]; exact b7_constant _ (hbytes 0xb7)

/-- Witness for the amended C28: the scratch object with a period of 2500 ps;
its bytes `0xb7`, `0xc0`, `0xc1` are 0 before the call, so they are `0x20`, 5 and
5 after it. -/
theorem ddr_generate_ddrc_timing_txx_ddr2_constants_witness :
    scratch_timing.length = 0x300 ∧ bytes_ok scratch_timing ∧
    rd32 scratch_timing 0x22c % 2 ^ 29 ≠ 0 ∧
    (ddr_generate_ddrc_timing_txx_ddr2 reference_config scratch_timing).map
      (fun r => (rd8 r.2 0xbf, rd8 r.2 0xc0 % 64, rd8 r.2 0xc1 % 64, rd32 r.2 0xc4))
      = some (0xff, 5, 5, 0) := by
  have hp29 : rd32 scratch_timing 0x22c % 2 ^ 29 ≠ 0 := by
    rw [rd32_scratch_timing.1]; decide
  refine ⟨length_scratch_timing, bytes_ok_scratch_timing, hp29, ?_⟩
  obtain ⟨out, hout, hbf, hc0, _, hc1, _, _, hc4⟩ := ddr_generate_ddrc_timing_txx_ddr2_constants
    reference_config scratch_timing length_scratch_timing bytes_ok_scratch_timing hp29
  rw [hout, Option.map_some', hbf, hc0, hc1, hc4]

/-- C29, as the claim states it, fails. With a clock period of 3 ps, a
write-latency duration of `0xFFFFFFFF` ps at `0x170`, `CL = 0` and a data width
of 0, the 32-bit sum `ps + period - 1` wraps, the converted latency is 0 and the
stored six bits are `(0 + 0 - 1 + 0) mod 64 = 0x3f`; `ceil(0xFFFFFFFF / 3)` is
1431655765, and `1431655765 + 0 - 1 + 0` is 20 modulo 64. With a clock period
of `2 ^ 29` ps, which is positive, the call divides by zero and has no
result. -/
theorem ae_value_wraps :
    0 < rd32 scratch_wrap 0x22c ∧ rd32 scratch_wrap 0x170 = 0xFFFFFFFF ∧
    rd32 scratch_wrap 0x130 = 0 ∧ rd32 scratch_wrap 0x138 = 0 ∧
    (ddr_generate_ddrc_timing_txx_ddr2 reference_config scratch_wrap).map
      (fun r => rd8 r.2 0xae % 64) = some 0x3f ∧
    ((ceil_div (rd32 scratch_wrap 0x170) (rd32 scratch_wrap 0x22c) : Int)
      + (rd32 scratch_wrap 0x130 : Int) - 1 + ((rd32 scratch_wrap 0x138 / 2 : Nat) : Int)) % 64
      = 20 ∧
    0 < rd32 scratch_period_2p29 0x22c ∧
    ddr_generate_ddrc_timing_txx_ddr2 reference_config scratch_period_2p29 = none := by
  obtain ⟨h1, _, h2, _, h3, h4⟩ := rd32_scratch_wrap
  obtain ⟨out, hout, _, _, hae⟩ := timing_scratch_wrap
  refine ⟨by rw [h1]; decide, h2, h3, h4, by rw [hout, Option.map_some', hae], ?_,
    by rw [rd32_scratch_period_2p29]; decide, timing_period_2p29_none⟩
  rw [h1, h2, h3, h4, ceil_div_eq _ _ (by decide)]
  decide

/-- C29, amended. For every scratch object of 0x300 bytes whose clock period
`p` (word at 0x22c) is not a multiple of `2 ^ 29`, the function returns 0 and
byte `0xae` has its top two bits unchanged; its low six bits are
`(PS2CYCLE(write_latency_ps) + CL - 1 + data_width / 2) mod 64`, and whenever
`write_latency_ps + p` does not exceed `2 ^ 32` they are
`(ceil(write_latency_ps / p) + CL - 1 + data_width / 2) mod 64`, with
`write_latency_ps` the word at 0x170, `CL` the word at 0x130 and `data_width`
the word at 0x138. -/
theorem ddr_generate_ddrc_timing_txx_ddr2_ae (config : ddr_config_t) (obj : List Nat)
    (hlen : obj.length = 0x300) (hbytes : bytes_ok obj) (hp : rd32 obj 0x22c % 2 ^ 29 ≠ 0) :
    ∃ out, ddr_generate_ddrc_timing_txx_ddr2 config obj = some (0, out) ∧
      rd8 out 0xae / 64 = rd8 obj 0xae / 64 ∧
      ((rd8 out 0xae % 64 : Nat) : Int)
        = ((PS2CYCLE (rd32 obj 0x22c) (rd32 obj 0x170) : Int) + (rd32 obj 0x130 : Int) - 1
            + ((rd32 obj 0x138 / 2 : Nat) : Int)) % 64 ∧
      (rd32 obj 0x170 + rd32 obj 0x22c ≤ 2 ^ 32 →
        ((rd8 out 0xae % 64 : Nat) : Int)
          = ((ceil_div (rd32 obj 0x170) (rd32 obj 0x22c) : Int) + (rd32 obj 0x130 : Int) - 1
              + ((rd32 obj 0x138 / 2 : Nat) : Int)) % 64) := by
  refine ⟨_, ddr_generate_ddrc_timing_txx_ddr2_some config obj hbytes hp, ?_⟩
  rw [(rd8_txx_timing_others _ obj hlen).2.2.2.2.2]
  have h := low6_update (rd8 obj 0xae)
    ((PS2CYCLE (rd32 obj 0x22c) (rd32 obj 0x170) + rd32 obj 0x130 + 2 ^ 32 - 1
      + rd32 obj 0x138 / 2) % 2 ^ 32) (hbytes 0xae)
  have hmain : (((rd8 obj 0xae &&& 0xc0) ||| ((PS2CYCLE (rd32 obj 0x22c) (rd32 obj 0x170)
        + rd32 obj 0x130 + 2 ^ 32 - 1 + rd32 obj 0x138 / 2) % 2 ^ 32 &&& 0x3f)) % 256 % 64 : Nat)
      = ((PS2CYCLE (rd32 obj 0x22c) (rd32 obj 0x170) : Int) + (rd32 obj 0x130 : Int) - 1
            + ((rd32 obj 0x138 / 2 : Nat) : Int)) % 64 := by
    rw [h.2]
    omega
  refine ⟨h.1, hmain, fun hfit => ?_⟩
  rw [hmain, PS2CYCLE_eq_ceil_div _ _ (by omega) (rd32_lt obj 0x22c hbytes) hfit]

/-- Witness for the amended C29: at 2500 ps, a write latency of 5000 ps (2
cycles), `CL = 7` and a data width of 8 give `2 + 7 - 1 + 4 = 12` in byte
`0xae`. -/
theorem ddr_generate_ddrc_timing_txx_ddr2_ae_witness :
    scratch_timing.length = 0x300 ∧ bytes_ok scratch_timing ∧
    rd32 scratch_timing 0x22c % 2 ^ 29 ≠ 0 ∧
    (ddr_generate_ddrc_timing_txx_ddr2 reference_config scratch_timing).map
      (fun r => ((rd8 r.2 0xae % 64 : Nat) : Int)) = some 12 := by
  obtain ⟨hp, _, _, _, h170, h130, h138⟩ := rd32_scratch_timing
  have hp29 : rd32 scratch_timing 0x22c % 2 ^ 29 ≠ 0 := by rw [hp]; decide
  refine ⟨length_scratch_timing, bytes_ok_scratch_timing, hp29, ?_⟩
  obtain ⟨out, hout, _, _, hc⟩ := ddr_generate_ddrc_timing_txx_ddr2_ae reference_config
    scratch_timing length_scratch_timing bytes_ok_scratch_timing hp29
  have hae := hc (by rw [h170, hp]; decide)
  simp only [h170, h130, h138, hp] at hae
  rw [ceil_div_eq _ _ (by decide)] at hae
  rw [hout, Option.map_some', hae]
  decide

theorem rd8_txx_timing_bd (p : Nat) (obj : List Nat) (hlen : obj.length = 0x300) :
    rd8 (txx_timing_ddr2 p (txx_timing_base p obj)) 0xb0
      = ((rd8 obj 0xb0 &&& 0xc0) ||| (PS2CYCLE p (rd32 obj 0x180) &&& 0x3f)) % 256 ∧
    rd8 (txx_timing_ddr2 p (txx_timing_base p obj)) 0xbd
      = if (((rd8 obj 0xb0 &&& 0xc0) ||| (PS2CYCLE p (rd32 obj 0x180) &&& 0x3f)) % 256
              &&& 0x3f) % 256 ≥ 2 then
          ((rd8 obj 0xbd &&& 0xc0)
            ||| ((((((rd8 obj 0xb0 &&& 0xc0) ||| (PS2CYCLE p (rd32 obj 0x180) &&& 0x3f)) % 256
                      &&& 0x3f) % 256 + 2 ^ 32 - 3) % 2 ^ 32) &&& 0x3f)) % 256
        else rd8 obj 0xbd := by
  unfold txx_timing_ddr2 txx_timing_base
  simp (disch := first | omega | (simp only [length_store8, length_wr32, length_txx_timing_ae,
      length_txx_timing_bc, length_txx_timing_bd, hlen]; omega)) only
    [rd8_store8_ne, rd8_store8_self, rd32_store8_outside, rd8_wr32_outside, rd32_wr32_ne,
     rd8_txx_timing_ae_ne, rd8_txx_timing_bc_ne, rd8_txx_timing_bd_ne, rd8_txx_timing_bd_self,
     and_self]

/-- C30, as the claim states it, fails. With a clock period of 2500 ps and a
row-cycle duration of 5000 ps at `0x180`, the six-bit field in byte `0xb0` is 2,
the guard `tRC_val >= 2` lets the store to byte `0xbd` happen, and the value
stored is `(2 - 3) & 0x3f = 0x3f`: stored value plus 3 is 66, not 2. -/
theorem tRC_minus_3_wraps_at_2 :
    (ddr_generate_ddrc_timing_txx_ddr2 reference_config scratch_tRC2).map
      (fun r => (rd8 r.2 0xb0 % 64, rd8 r.2 0xbd % 64)) = some (2, 0x3f) ∧
    rd8 scratch_tRC2 0xbd = 0 ∧ 0x3f + 3 ≠ 2 := by
  refine ⟨by rfl, by rfl, by decide⟩

/-- C30, amended. For every scratch object of 0x300 bytes whose clock period
`p` (word at 0x22c) is not a multiple of `2 ^ 29`, the function returns 0 and,
with `f` the six-bit field in byte `0xb0` (the 32-bit quotient
`PS2CYCLE(word at 0x180)` modulo 64): when `f` is at least 2, byte `0xbd` is
written, its top two bits are unchanged and its low six bits are `f - 3`
modulo 64, so that the stored value plus 3 equals `f` when `f` is at least 3 and
the stored value is `0x3f` when `f` is 2; when `f` is below 2, byte `0xbd` is left
as it was. -/
theorem ddr_generate_ddrc_timing_txx_ddr2_tRC_minus_3 (config : ddr_config_t) (obj : List Nat)
    (hlen : obj.length = 0x300) (hbytes : bytes_ok obj) (hp : rd32 obj 0x22c % 2 ^ 29 ≠ 0) :
    ∃ out, ddr_generate_ddrc_timing_txx_ddr2 config obj = some (0, out) ∧
      rd8 out 0xb0 % 64 = PS2CYCLE (rd32 obj 0x22c) (rd32 obj 0x180) % 64 ∧
      (2 ≤ rd8 out 0xb0 % 64 →
        rd8 out 0xbd / 64 = rd8 obj 0xbd / 64 ∧
        rd8 out 0xbd % 64 = (rd8 out 0xb0 % 64 + 61) % 64) ∧
      (3 ≤ rd8 out 0xb0 % 64 → rd8 out 0xbd % 64 + 3 = rd8 out 0xb0 % 64) ∧
      (rd8 out 0xb0 % 64 = 2 → rd8 out 0xbd % 64 = 0x3f) ∧
      (rd8 out 0xb0 % 64 < 2 → rd8 out 0xbd = rd8 obj 0xbd) := by
  refine ⟨_, ddr_generate_ddrc_timing_txx_ddr2_some config obj hbytes hp, ?_⟩
  obtain ⟨hb0, hbd⟩ := rd8_txx_timing_bd (rd32 obj 0x22c) obj hlen
  have h0 := (low6_update (rd8 obj 0xb0) (PS2CYCLE (rd32 obj 0x22c) (rd32 obj 0x180))
    (hbytes 0xb0)).2
  rw [hb0, hbd]
  generalize ((rd8 obj 0xb0 &&& 0xc0) ||| (PS2CYCLE (rd32 obj 0x22c) (rd32 obj 0x180) &&& 0x3f))
    % 256 = f0 at *
  rw [and_0x3f]
  have e : f0 % 64 % 256 = f0 % 64 := by omega
  rw [e]
  have hw := low6_update (rd8 obj 0xbd) ((f0 % 64 + 2 ^ 32 - 3) % 2 ^ 32) (hbytes 0xbd)
  refine ⟨h0, fun h2 => ?_, fun h3 => ?_, fun h2 => ?_, fun h1 => ?_⟩
  · rw [if_pos h2]
    refine ⟨hw.1, ?_⟩
    rw [hw.2]
    omega
  · rw [if_pos (by omega), hw.2]
    omega
  · rw [if_pos (by omega), hw.2]
    omega
  · rw [if_neg (by omega)]

/-- Witness for the amended C30: at 2500 ps a row-cycle duration of 57000 ps is
23 cycles in byte `0xb0`, and byte `0xbd` holds 20. -/
theorem ddr_generate_ddrc_timing_txx_ddr2_tRC_minus_3_witness :
    scratch_timing.length = 0x300 ∧ bytes_ok scratch_timing ∧
    rd32 scratch_timing 0x22c % 2 ^ 29 ≠ 0 ∧
    (ddr_generate_ddrc_timing_txx_ddr2 reference_config scratch_timing).map
      (fun r => (rd8 r.2 0xb0 % 64, rd8 r.2 0xbd % 64)) = some (23, 20) := by
  obtain ⟨hp, _, h180, _⟩ := rd32_scratch_timing
  have hp29 : rd32 scratch_timing 0x22c % 2 ^ 29 ≠ 0 := by rw [hp]; decide
  refine ⟨length_scratch_timing, bytes_ok_scratch_timing, hp29, ?_⟩
  obtain ⟨out, hout, hb0, _, h3, _⟩ := ddr_generate_ddrc_timing_txx_ddr2_tRC_minus_3
    reference_config scratch_timing length_scratch_timing bytes_ok_scratch_timing hp29
  rw [hp, h180] at hb0
  have e : PS2CYCLE 2500 57000 % 64 = 23 := by decide
  rw [e] at hb0
  have hbd := h3 (by omega)
  rw [hout, Option.map_some', hb0]
  have e2 : rd8 out 0xbd % 64 = 20 := by omega
  rw [e2]

/-! ## Reference values -/

/-- C32, the code at the reference chip. For 127500 ps at 2500 ps the
refresh-cycle expression `((t + 2 * p - 1) / p) / 2` of `test_binary_builder.c`
is 26, and 26 is stored in `params.tRFC`; the parameter set of
`firmware_generate_ddr_config` has `tRFC = 52`, which is the value of the first
step `(t + 2 * p - 1) / p` before the halving. -/
theorem tRFC_formula_is_not_52 :
    tRFC_halved 127500 2500 = 26 ∧ params_tRFC 127500 2500 = 26 ∧
    loader_phy_params.tRFC = 52 ∧ tRFC_halved 127500 2500 ≠ loader_phy_params.tRFC ∧
    (127500 + 2 * 2500 - 1) / 2500 = 52 := by
  decide

/-- C33, the code for a DDR3 configuration. The type value of the configuration
is 1; `ddr_init_object_buffer` stores it at 0x154 and later stores the
chip-select-1 size, 0, in `params[0xf]`, which is the same word: after the
call the word at 0x154 is 0. -/
theorem type_word_overwritten :
    config_ddr3.type = 1 ∧
    (ddr_init_object_buffer config_ddr3 scratch_zero).map (fun o => rd32 o 0x154) = some 0 ∧
    0x118 + 4 * 0xf = 0x154 := by
  obtain ⟨o, ho, _, _, _, _, _, _, _, h154, _⟩ :=
    ddr_init_object_buffer_words config_ddr3 scratch_zero length_scratch_zero (by decide)
  refine ⟨rfl, ?_, by decide⟩
  rw [ho, Option.map_some', h154]

/-- C35. For all natural numbers `t` and `p > 0`, the two-step expression
`((t + 2 * p - 1) / p) / 2` with truncating division equals the single ceiling
`ceil(t / (2 * p))`; when `t + 2 * p - 1` is below `2 ^ 32` the 32-bit
expression of the code has that value. -/
theorem two_step_refresh_eq_ceil (t p : Nat) (hp : 0 < p) :
    ((t + 2 * p - 1) / p) / 2 = ceil_div t (2 * p) ∧
    (t + 2 * p - 1 < 2 ^ 32 → tRFC_halved t p = ceil_div t (2 * p)) := by
  have h : ((t + 2 * p - 1) / p) / 2 = ceil_div t (2 * p) := by
    rw [ceil_div_eq _ _ (by omega), Nat.div_div_eq_div_mul, Nat.mul_comm p 2]
  refine ⟨h, fun hfit => ?_⟩
  rw [tRFC_halved_eq t p hfit hp, h]

/-- Witness for C35: 127500 ps at 2500 ps, where both sides are 26. -/
theorem two_step_refresh_eq_ceil_witness :
    0 < 2500 ∧ ((127500 + 2 * 2500 - 1) / 2500) / 2 = ceil_div 127500 (2 * 2500) ∧
    ceil_div 127500 (2 * 2500) = 26 :=
  have h := (two_step_refresh_eq_ceil 127500 2500 (by decide)).1
  ⟨by decide, h, by rw [← h]⟩

/-! ## Scratch object population, further words -/

theorem ddr_init_object_buffer_params (config : ddr_config_t) (obj : List Nat)
    (hobj : obj.length = 0x300) (hclk : config.clock_mhz % 2 ^ 32 ≠ 0) :
    ∃ o, ddr_init_object_buffer config obj = some o ∧ o.length = 0x300 ∧
      rd32 o 0x124 = 1 ∧ rd32 o 0x128 = 0 ∧
      rd32 o 0x12c = (if config.data_width = 32 then 1 else 0) ∧
      rd32 o 0x138 = 8 ∧ rd32 o 0x14c = 1 ∧
      rd32 o 0x1c0 = config.tWL % 2 ^ 32 ∧ rd32 o 0x1c4 = config.tREFI % 2 ^ 32 := by
  unfold ddr_init_object_buffer
  rw [if_neg hclk]
  simp only []
  refine ⟨_, rfl, ?_, ?_, ?_, ?_, ?_, ?_, ?_, ?_⟩
  · simp only [length_wr32, hobj]
  all_goals
    simp (disch := first | omega | (simp only [length_wr32, hobj]; omega)) only
      [rd32_wr32_ne, rd32_wr32_same, Nat.reduceAdd, Nat.reduceMul, Nat.zero_mod]
  all_goals first | rfl | (split <;> rfl)

/-- Below 0x118 and from 0x1c8 up to 0x22c, `ddr_init_object_buffer` leaves the
scratch object as it was. -/
theorem rd8_ddr_init_object_buffer_outside (config : ddr_config_t) (obj o : List Nat)
    (h : ddr_init_object_buffer config obj = some o) (j : Nat)
    (hj : j < 0x118 ∨ (0x1c8 ≤ j ∧ j < 0x22c)) : rd8 o j = rd8 obj j := by
  unfold ddr_init_object_buffer at h
  split at h
  · exact absurd h (by simp)
  · simp only [Option.some.injEq] at h
    rw [← h]
    simp (disch := omega) only [rd8_wr32_outside]

theorem rd8_ddr_generate_ddrc_txx_ddr2_byte0 (config : ddr_config_t) (obj : List Nat)
    (hlen : obj.length = 0x300) :
    rd8 (ddr_generate_ddrc_txx_ddr2 config obj).2 0x7c
      = ((rd32 obj 0x128 &&& 1) <<< 7) ||| ((rd32 obj 0x124 &&& 1) <<< 6)
        ||| ((rd32 obj 0x14c &&& 1) <<< 1) ||| (rd32 obj 0x12c &&& 1) := by
  unfold ddr_generate_ddrc_txx_ddr2
  simp only []
  rw [rd8_wr32_outside _ _ _ _ (by omega), rd8_wr32_outside _ _ _ _ (by omega),
    rd8_wr32_outside _ _ _ _ (by omega), rd8_txx_cfg_byte3_ne _ _ _ _ _ _ _ _ _ (by omega),
    rd8_txx_cfg_type_ne _ _ _ _ _ (by omega), rd8_txx_cfg_byte2_ne _ _ _ _ _ (by omega),
    rd8_txx_cfg_byte1_ne _ _ _ _ _ _ (by omega),
    rd8_txx_cfg_byte0_self _ _ _ _ _ _ (by rw [length_memset0, hlen]; omega)]
  exact cfg_byte0_bits _ _ _ _

/-- Output word `k` of the controller block is the scratch word at the `k`-th
offset, reduced to 32 bits. -/
theorem rd32_ddr_convert_param (obj mem : List Nat) (base : Nat)
    (hlen : base + 124 ≤ mem.length) (k : Nat) (hk : k < 31) :
    rd32 (ddr_convert_param obj mem base) (base + 4 * k)
      = rd32 obj (ddr_convert_param_offsets.getD k 0) % 2 ^ 32 := by
  apply rd32_of_bytes
  intro i hi
  rw [rd8_ddr_convert_param _ _ _ hlen]
  have e1 : base ≤ base + 4 * k + i ∧ base + 4 * k + i < base + 124 := by omega
  have e2 : (base + 4 * k + i - base) / 4 = k := by omega
  have e3 : (base + 4 * k + i - base) % 4 = i := by omega
  rw [if_pos e1, e2, e3]

/-! ## CFG bytes 2 and 3, top bits -/

/-- CFG byte 3 in full: the top two bits come from `bVar10`, the value of
byte 2 read before the `TYPE` switch. -/
theorem rd8_txx_ctrl_stage_byte3_full (obj : List Nat) (hlen : obj.length = 0x300) :
    rd8 (txx_ctrl_stage obj) 0x7f
      = if rd32 obj 0x128 = 0 then
          ((((0 &&& 0x5f) ||| (rd32 obj 0x14c <<< 7) % 256 ||| 0x40
              ||| ((if rd32 obj 0x138 = 8 then 1 else 0) <<< 5)) % 256 &&& 0xc0)
            ||| (((rd32 obj 0x140 * 8 + 0x20) % 2 ^ 32) &&& 0x38) % 256
            ||| ((rd32 obj 0x13c % 256) &&& 7)) % 256
        else
          ((((0 &&& 0x5f) ||| (rd32 obj 0x14c <<< 7) % 256 ||| 0x40
              ||| ((if rd32 obj 0x138 = 8 then 1 else 0) <<< 5)) % 256 &&& 0xc0)
            ||| (((rd32 obj 0x148 * 8 + 0x20) % 2 ^ 32) &&& 0x38) % 256
            ||| ((rd32 obj 0x144 % 256) &&& 7)) % 256 := by
  unfold txx_ctrl_stage
  simp only []
  rw [rd8_wr32_outside _ _ _ _ (by omega),
    rd8_txx_cfg_byte3_self _ _ _ _ _ _ _ _ _ (by norm_num)
      (by rw [length_txx_cfg_type, length_txx_cfg_byte2, length_txx_cfg_byte1,
        length_txx_cfg_byte0, length_memset0, hlen]; omega),
    rd8_txx_byte2_pre _ hlen]

theorem byte2_pre_top (bank_bits burst_length : Nat) :
    ((0 &&& 0x5f) ||| (bank_bits <<< 7) % 256 ||| 0x40
        ||| ((if burst_length = 8 then 1 else 0) <<< 5)) % 256 &&& 0xc0
      = 64 * (2 * (bank_bits % 2) + 1) := by
  have hb : (bank_bits <<< 7) % 256 = 128 * (bank_bits % 2) := by
    simp only [Nat.shiftLeft_eq]; omega
  rw [hb]
  rcases Nat.mod_two_eq_zero_or_one bank_bits with h | h <;> rw [h] <;>
    by_cases hbl : burst_length = 8 <;> simp only [hbl, if_true, if_false] <;> rfl

theorem byte3_top_small :
    ∀ A : Fin 2, ∀ R C : Fin 8,
      (64 * (2 * A.val + 1) ||| 8 * R.val ||| C.val) % 256 / 64 = 2 * A.val + 1 ∧
      (64 * (2 * A.val + 1) ||| 8 * R.val ||| C.val) % 256 &&& 0x3f
        ≠ (64 * (2 * A.val + 1) ||| 8 * R.val ||| C.val) % 256 := by
  decide

theorem byte2_top_small :
    ∀ A F : Fin 2, ∀ N : Fin 16,
      (((A.val &&& 1) <<< 7) ||| 0x40 ||| (F.val <<< 5) ||| N.val) / 64 = 2 * A.val + 1 := by
  decide

theorem byte2_top (bank_bits burst_length ddr_type : Nat) :
    (((bank_bits &&& 1) <<< 7) ||| 0x40 ||| ((if burst_length = 8 then 1 else 0) <<< 5)
        ||| (if ddr_type = 0 then 0xc else if ddr_type = 1 then 6 else if ddr_type = 4 then 8
              else if ddr_type < 5 then 0xa else 0)) / 64
      = 2 * (bank_bits % 2) + 1 := by
  have hn : (if ddr_type = 0 then 0xc else if ddr_type = 1 then 6 else if ddr_type = 4 then 8
      else if ddr_type < 5 then 0xa else 0) < 16 := by
    split_ifs <;> decide
  have hf : (if burst_length = 8 then 1 else 0) < 2 := by
    split_ifs <;> decide
  have ha : bank_bits &&& 1 = (bank_bits % 2) &&& 1 := by
    rw [Nat.and_one_is_mod, Nat.and_one_is_mod, Nat.mod_mod]
  rw [ha]
  exact byte2_top_small ⟨bank_bits % 2, Nat.mod_lt _ (by decide)⟩ ⟨_, hf⟩ ⟨_, hn⟩

/-- C36. For every scratch object of 0x300 bytes, after
`ddr_generate_ddrc_txx_ddr2` bits 7 and 6 of CFG byte 3 (offset 0x7f) equal bits
7 and 6 of CFG byte 2 (offset 0x7e): bit 7 is the bank flag (bit 0 of the word at
0x14c) and bit 6 is the fixed IMBA bit, which is set; so byte 3 always differs
from its own low six bits, the row and column packing. -/
theorem ddr_generate_ddrc_txx_ddr2_byte3_top_bits (config : ddr_config_t) (obj : List Nat)
    (hlen : obj.length = 0x300) :
    rd8 (ddr_generate_ddrc_txx_ddr2 config obj).2 0x7f / 64
      = rd8 (ddr_generate_ddrc_txx_ddr2 config obj).2 0x7e / 64 ∧
    rd8 (ddr_generate_ddrc_txx_ddr2 config obj).2 0x7f / 64 = 2 * (rd32 obj 0x14c % 2) + 1 ∧
    rd8 (ddr_generate_ddrc_txx_ddr2 config obj).2 0x7f / 64 % 2 = 1 ∧
    rd8 (ddr_generate_ddrc_txx_ddr2 config obj).2 0x7f / 128 = rd32 obj 0x14c % 2 ∧
    rd8 (ddr_generate_ddrc_txx_ddr2 config obj).2 0x7f &&& 0x3f
      ≠ rd8 (ddr_generate_ddrc_txx_ddr2 config obj).2 0x7f := by
  rw [rd8_ddr_generate_ddrc_txx_ddr2_low _ _ _ (by decide),
    rd8_ddr_generate_ddrc_txx_ddr2_low _ _ _ (by decide), rd8_txx_ctrl_stage_byte2 _ hlen,
    rd8_txx_ctrl_stage_byte3_full _ hlen, byte2_top, byte2_pre_top]
  have hA : rd32 obj 0x14c % 2 < 2 := Nat.mod_lt _ (by decide)
  have key : ∀ x c : Nat,
      (64 * (2 * (rd32 obj 0x14c % 2) + 1) ||| (((x % 2 ^ 32) &&& 0x38) % 256)
          ||| ((c % 256) &&& 7)) % 256 / 64 = 2 * (rd32 obj 0x14c % 2) + 1 ∧
      (64 * (2 * (rd32 obj 0x14c % 2) + 1) ||| (((x % 2 ^ 32) &&& 0x38) % 256)
          ||| ((c % 256) &&& 7)) % 256 &&& 0x3f
        ≠ (64 * (2 * (rd32 obj 0x14c % 2) + 1) ||| (((x % 2 ^ 32) &&& 0x38) % 256)
          ||| ((c % 256) &&& 7)) % 256 := by
    intro x c
    rw [row_field_u8, col_field_u8]
    exact byte3_top_small ⟨rd32 obj 0x14c % 2, hA⟩ ⟨x / 8 % 8, Nat.mod_lt _ (by decide)⟩
      ⟨c % 8, Nat.mod_lt _ (by decide)⟩
  split
  · obtain ⟨k1, k2⟩ := key (rd32 obj 0x140 * 8 + 0x20) (rd32 obj 0x13c)
    refine ⟨k1, k1, ?_, ?_, k2⟩ <;> omega
  · obtain ⟨k1, k2⟩ := key (rd32 obj 0x148 * 8 + 0x20) (rd32 obj 0x144)
    refine ⟨k1, k1, ?_, ?_, k2⟩ <;> omega

/-- Witness for C36: a scratch object with `cs0_en = 1`, `cs1_en = 0` and a bank
flag of 1. -/
theorem ddr_generate_ddrc_txx_ddr2_byte3_top_bits_witness :
    scratch_cfg43.length = 0x300 ∧
    rd8 (ddr_generate_ddrc_txx_ddr2 reference_config scratch_cfg43).2 0x7f / 64
      = rd8 (ddr_generate_ddrc_txx_ddr2 reference_config scratch_cfg43).2 0x7e / 64 ∧
    rd8 (ddr_generate_ddrc_txx_ddr2 reference_config scratch_cfg43).2 0x7f / 64 % 2 = 1 :=
  have h := ddr_generate_ddrc_txx_ddr2_byte3_top_bits reference_config scratch_cfg43
    length_scratch_cfg43
  ⟨length_scratch_cfg43, h.1, h.2.2.1⟩

/-! ## The reference CFG word -/

theorem reference_cfg_word :
    ∃ o, ddr_init_object_buffer reference_config scratch_zero = some o ∧ o.length = 0x300 ∧
      rd32 (ddr_generate_ddrc_txx_ddr2 reference_config o).2 0x7c = 0xf6e8b642 := by
  obtain ⟨o, ho, hlen, h118, h13c, h140, _, _, _, _, _⟩ :=
    ddr_init_object_buffer_words reference_config scratch_zero length_scratch_zero (by decide)
  obtain ⟨o2, ho2, _, h124, h128, h12c, h138, h14c, _, _⟩ :=
    ddr_init_object_buffer_params reference_config scratch_zero length_scratch_zero (by decide)
  rw [ho] at ho2
  simp only [Option.some.injEq] at ho2
  subst ho2
  refine ⟨o, ho, hlen, ?_⟩
  have e118 : rd32 o 0x118 = 4 := by rw [h118]; rfl
  have e13c : rd32 o 0x13c = 6 := by rw [h13c]; rfl
  have e140 : rd32 o 0x140 = 2 := by rw [h140]; rfl
  have e12c : rd32 o 0x12c = 0 := by rw [h12c]; rfl
  have hb0 : rd8 (ddr_generate_ddrc_txx_ddr2 reference_config o).2 0x7c = 0x42 := by
    rw [rd8_ddr_generate_ddrc_txx_ddr2_byte0 _ _ hlen, h128, h124, h14c, e12c]
    rfl
  have hb1 : rd8 (ddr_generate_ddrc_txx_ddr2 reference_config o).2 0x7d = 0xb6 := by
    rw [rd8_ddr_generate_ddrc_txx_ddr2_low _ _ _ (by decide), rd8_txx_ctrl_stage_byte1 _ hlen,
      h124, e140, e13c]
    rfl
  have hb2 : rd8 (ddr_generate_ddrc_txx_ddr2 reference_config o).2 0x7e = 0xe8 := by
    rw [rd8_ddr_generate_ddrc_txx_ddr2_low _ _ _ (by decide), rd8_txx_ctrl_stage_byte2 _ hlen,
      h14c, h138, e118]
    rfl
  have hb3 : rd8 (ddr_generate_ddrc_txx_ddr2 reference_config o).2 0x7f = 0xf6 := by
    rw [rd8_ddr_generate_ddrc_txx_ddr2_low _ _ _ (by decide),
      rd8_txx_ctrl_stage_byte3_full _ hlen, h128, h14c, h138, e140, e13c]
    rfl
  unfold rd32
  simp only [Nat.reduceAdd]
  rw [hb0, hb1, hb2, hb3]

/-- C31, the code at the reference configuration. The CFG bytes that
`ddr_init_object_buffer` and `ddr_generate_ddrc_txx_ddr2` leave at 0x7c..0x7f are
`0x42, 0xb6, 0xe8, 0xf6`: the CFG word, which `ddr_generate_ddrc_with_object`
copies to output word 0, is `0xf6e8b642`, not the `0x016e3600` that the generator
prints as the reference value. -/
theorem reference_cfg_word_differs :
    (ddr_init_object_buffer reference_config scratch_zero).map
      (fun o => rd32 (ddr_generate_ddrc_txx_ddr2 reference_config o).2 0x7c) = some 0xf6e8b642 ∧
    (ddr_init_object_buffer reference_config scratch_zero).map
      (fun o => rd32 (ddr_generate_ddrc_with_object reference_config (some o) buffer_aa 8).2.2 8)
      = some 0xf6e8b642 ∧
    (0xf6e8b642 : Nat) ≠ 0x016e3600 := by
  obtain ⟨o, ho, hlen, hw⟩ := reference_cfg_word
  refine ⟨by rw [ho, Option.map_some', hw], ?_, by decide⟩
  rw [ho, Option.map_some', ddr_generate_ddrc_with_object_some]
  have hs : ddrc_scratch reference_config o
      = (ddr_generate_ddrc_txx_ddr2 reference_config o).2 := by
    unfold ddrc_scratch
    have ht : reference_config.type = DDR_TYPE_DDR2 := rfl
    rw [if_pos ht]
  have h := rd32_ddr_convert_param (ddrc_scratch reference_config o)
    (memset0 buffer_aa 8 0xbc) 8 (by rw [length_memset0, length_buffer_aa]; decide) 0 (by decide)
  have e : ddr_convert_param_offsets.getD 0 0 = 0x7c := rfl
  rw [e, hs, hw, Nat.mul_zero, Nat.add_zero] at h
  simp only []
  rw [hs, h]
  rfl

/-! ## Controller block of a configuration -/

theorem ddr_convert_param_offsets_untouched :
    ∀ k : Fin 24, ddr_convert_param_offsets.getD k.val 0 + 3 < 0x118 ∨
      (0x1c8 ≤ ddr_convert_param_offsets.getD k.val 0 ∧
        ddr_convert_param_offsets.getD k.val 0 + 3 < 0x22c) := by
  decide

/-- C38. For every configuration whose type is not DDR2 (its clock a nonzero
32-bit value, the invariant of a configuration), `ddr_init_object_buffer` on a
zeroed scratch object followed by `ddr_generate_ddrc_with_object` returns 0,
leaves the scratch object as the initialisation made it, and leaves output
words 0 to 23 of the controller block all zero: no CFG, CTRL or memory-map
register is generated. -/
theorem ddr_generate_ddrc_with_object_non_ddr2 (config : ddr_config_t) (mem : List Nat)
    (ddrc_regs : Nat) (htype : config.type ≠ DDR_TYPE_DDR2) (hclk : 0 < config.clock_mhz)
    (hclk32 : config.clock_mhz < 2 ^ 32) (hroom : ddrc_regs + 188 ≤ mem.length) :
    ∃ o out, ddr_init_object_buffer config scratch_zero = some o ∧
      ddr_generate_ddrc_with_object config (some o) mem ddrc_regs = (0, some o, out) ∧
      ∀ k, k < 24 → rd32 out (ddrc_regs + 4 * k) = 0 := by
  obtain ⟨o, ho, hlen, _⟩ := ddr_init_object_buffer_words config scratch_zero
    length_scratch_zero (by rw [Nat.mod_eq_of_lt hclk32]; omega)
  have hs : ddrc_scratch config o = o := by
    unfold ddrc_scratch
    rw [if_neg htype]
  refine ⟨o, _, ho, by rw [ddr_generate_ddrc_with_object_some, hs], fun k hk => ?_⟩
  rw [rd32_ddr_convert_param _ _ _ (by rw [length_memset0]; omega) k (by omega)]
  have hz : rd32 o (ddr_convert_param_offsets.getD k 0) = rd32 scratch_zero 0 := by
    apply rd32_congr
    intro i hi
    have hu := ddr_convert_param_offsets_untouched ⟨k, hk⟩
    simp only [] at hu
    rw [rd8_ddr_init_object_buffer_outside config scratch_zero o ho _ (by omega)]
    unfold scratch_zero
    rw [rd8_replicate_zero, rd8_replicate_zero]
  rw [hz]
  rfl

/-- Witness for C38: the DDR3 variant of the reference
configuration, with the controller block at offset 8 of a 324-byte buffer. -/
theorem ddr_generate_ddrc_with_object_non_ddr2_witness :
    config_ddr3.type ≠ DDR_TYPE_DDR2 ∧ 0 < config_ddr3.clock_mhz ∧
    config_ddr3.clock_mhz < 2 ^ 32 ∧ 8 + 188 ≤ buffer_aa.length ∧
    (ddr_init_object_buffer config_ddr3 scratch_zero).map
      (fun o => rd32 (ddr_generate_ddrc_with_object config_ddr3 (some o) buffer_aa 8).2.2
        (8 + 4 * 0)) = some 0 := by
  have hroom : 8 + 188 ≤ buffer_aa.length := by rw [length_buffer_aa]; decide
  obtain ⟨o, out, ho, hout, hz⟩ := ddr_generate_ddrc_with_object_non_ddr2 config_ddr3 buffer_aa 8
    (by decide) (by decide) (by decide) hroom
  refine ⟨by decide, by decide, by decide, hroom, ?_⟩
  rw [ho, Option.map_some', hout]
  exact congrArg some (hz 0 (by decide))

theorem dmmap_lookup_small (s : Nat) (hs : s < 4096) : dmmap_lookup s 0 = none := by
  unfold dmmap_lookup dmmap
  have h1 : ((128 <<< 20) % 2 ^ 32 == s) = false := by
    rw [beq_eq_false_iff_ne]
    have : (128 <<< 20) % 2 ^ 32 = 134217728 := by decide
    omega
  have h2 : ((256 <<< 20) % 2 ^ 32 == s) = false := by
    rw [beq_eq_false_iff_ne]
    have : (256 <<< 20) % 2 ^ 32 = 268435456 := by decide
    omega
  have h3 : ((512 <<< 20) % 2 ^ 32 == s) = false := by
    rw [beq_eq_false_iff_ne]
    have : (512 <<< 20) % 2 ^ 32 = 536870912 := by decide
    omega
  simp only [List.find?_cons, List.find?_nil, h1, h2, h3, Bool.false_and, Option.map_none']

theorem txx_mmap_small (s : Nat) (hs : s < 4096) : txx_mmap s 0 = (0x2000, 0x2000) := by
  unfold txx_mmap
  have ht : (s + 0) % 2 ^ 32 = s := by omega
  simp only [ht, dmmap_lookup_small s hs]
  unfold dmmap_fallback
  have hlt : s < 0x20000001 := by omega
  have e1 : s >>> 24 = 0 := by rw [Nat.shiftRight_eq_div_pow]; omega
  have e2 : ((s + 0x20000000) % 2 ^ 32) >>> 24 = 32 := by
    rw [Nat.shiftRight_eq_div_pow]; omega
  rw [if_pos hlt, e1, e2]
  rfl

/-- C39. For every DDR2 configuration with `row_bits` and `col_bits` below 32
(its clock a nonzero 32-bit value, the invariant of a configuration), the
chip-select-0 size that `ddr_init_object_buffer` stores at 0x150 of a zeroed
scratch object is below 4096 and the chip-select-1 size at 0x154 is 0, so no
row of the lookup table of `ddr_generate_ddrc_txx_ddr2` matches and both
memory-map words, at 0x90 and 0x94 of the scratch object and in output words 4
and 5 of the controller block, are `0x00002000`. -/
theorem ddr_generate_ddrc_txx_ddr2_mmap_always_fallback (config : ddr_config_t)
    (mem : List Nat) (ddrc_regs : Nat) (htype : config.type = DDR_TYPE_DDR2)
    (_hrow : config.row_bits < 32) (_hcol : config.col_bits < 32) (hclk : 0 < config.clock_mhz)
    (hclk32 : config.clock_mhz < 2 ^ 32) (hroom : ddrc_regs + 188 ≤ mem.length) :
    ∃ o, ddr_init_object_buffer config scratch_zero = some o ∧
      rd32 o 0x150 < 4096 ∧ rd32 o 0x154 = 0 ∧
      dmmap_lookup ((rd32 o 0x150 + rd32 o 0x154) % 2 ^ 32) (rd32 o 0x154) = none ∧
      rd32 (ddr_generate_ddrc_txx_ddr2 config o).2 0x90 = 0x00002000 ∧
      rd32 (ddr_generate_ddrc_txx_ddr2 config o).2 0x94 = 0x00002000 ∧
      rd32 (ddr_generate_ddrc_with_object config (some o) mem ddrc_regs).2.2 (ddrc_regs + 4 * 4)
        = 0x00002000 ∧
      rd32 (ddr_generate_ddrc_with_object config (some o) mem ddrc_regs).2.2 (ddrc_regs + 4 * 5)
        = 0x00002000 := by
  obtain ⟨o, ho, hlen, _, _, _, _, _, h150, h154, _⟩ :=
    ddr_init_object_buffer_words config scratch_zero length_scratch_zero
      (by rw [Nat.mod_eq_of_lt hclk32]; omega)
  have hs : rd32 o 0x150 < 4096 := by
    rw [h150]
    omega
  obtain ⟨h90, h94⟩ := rd32_ddr_generate_ddrc_txx_ddr2_mmap config o hlen
  rw [h154, txx_mmap_small _ hs] at h90 h94
  simp only [] at h90 h94
  have hsc : ddrc_scratch config o = (ddr_generate_ddrc_txx_ddr2 config o).2 := by
    unfold ddrc_scratch
    rw [if_pos htype]
  have hl : (rd32 o 0x150 + 0) % 2 ^ 32 = rd32 o 0x150 := by omega
  refine ⟨o, ho, hs, h154, by rw [h154, hl]; exact dmmap_lookup_small _ hs, h90, h94, ?_, ?_⟩
  · rw [ddr_generate_ddrc_with_object_some, hsc]
    simp only []
    rw [rd32_ddr_convert_param _ _ _ (by rw [length_memset0]; omega) 4 (by decide)]
    have e : ddr_convert_param_offsets.getD 4 0 = 0x90 := rfl
    rw [e, h90]
    rfl
  · rw [ddr_generate_ddrc_with_object_some, hsc]
    simp only []
    rw [rd32_ddr_convert_param _ _ _ (by rw [length_memset0]; omega) 5 (by decide)]
    have e : ddr_convert_param_offsets.getD 5 0 = 0x94 := rfl
    rw [e, h94]
    rfl

/-- Witness for C39: the reference configuration, whose stored
chip-select-0 size is 128. -/
theorem ddr_generate_ddrc_txx_ddr2_mmap_always_fallback_witness :
    reference_config.type = DDR_TYPE_DDR2 ∧ reference_config.row_bits < 32 ∧
    reference_config.col_bits < 32 ∧ 0 < reference_config.clock_mhz ∧
    reference_config.clock_mhz < 2 ^ 32 ∧ 8 + 188 ≤ buffer_aa.length ∧
    (ddr_init_object_buffer reference_config scratch_zero).map
      (fun o => (rd32 (ddr_generate_ddrc_txx_ddr2 reference_config o).2 0x90,
        rd32 (ddr_generate_ddrc_txx_ddr2 reference_config o).2 0x94))
      = some (0x00002000, 0x00002000) := by
  have hroom : 8 + 188 ≤ buffer_aa.length := by rw [length_buffer_aa]; decide
  obtain ⟨o, ho, _, _, _, h90, h94, _⟩ := ddr_generate_ddrc_txx_ddr2_mmap_always_fallback
    reference_config buffer_aa 8 rfl (by decide) (by decide) (by decide) (by decide) hroom
  refine ⟨rfl, by decide, by decide, by decide, by decide, hroom, ?_⟩
  rw [ho, Option.map_some', h90, h94]

/-! ## Non-interference of the controller block -/

theorem rd8_wr8_congr (b1 b2 : List Nat) (i v j : Nat) (hl : b1.length = b2.length)
    (h : rd8 b1 j = rd8 b2 j) : rd8 (wr8 b1 i v) j = rd8 (wr8 b2 i v) j := by
  rw [rd8_wr8, rd8_wr8, hl, h]

theorem rd8_wr32_congr (b1 b2 : List Nat) (off v j : Nat) (hl : b1.length = b2.length)
    (h : rd8 b1 j = rd8 b2 j) : rd8 (wr32 b1 off v) j = rd8 (wr32 b2 off v) j := by
  unfold wr32
  apply rd8_wr8_congr _ _ _ _ _ (by simp only [length_wr8, hl])
  apply rd8_wr8_congr _ _ _ _ _ (by simp only [length_wr8, hl])
  apply rd8_wr8_congr _ _ _ _ _ (by simp only [length_wr8, hl])
  exact rd8_wr8_congr _ _ _ _ _ hl h

theorem agree_low_wr8 (b1 b2 : List Nat) (i v : Nat) (h : agree_low b1 b2) :
    agree_low (wr8 b1 i v) (wr8 b2 i v) :=
  ⟨by rw [length_wr8, length_wr8, h.1], fun j hj => rd8_wr8_congr _ _ _ _ _ h.1 (h.2 j hj)⟩

theorem agree_low_wr32 (b1 b2 : List Nat) (off v : Nat) (h : agree_low b1 b2) :
    agree_low (wr32 b1 off v) (wr32 b2 off v) :=
  ⟨by rw [length_wr32, length_wr32, h.1], fun j hj => rd8_wr32_congr _ _ _ _ _ h.1 (h.2 j hj)⟩

theorem agree_low_memset0 (b1 b2 : List Nat) (off n : Nat) (h : agree_low b1 b2) :
    agree_low (memset0 b1 off n) (memset0 b2 off n) := by
  refine ⟨by rw [length_memset0, length_memset0, h.1], fun j hj => ?_⟩
  rw [rd8_memset0, rd8_memset0, h.1, h.2 j hj]

theorem agree_low_rd32 (b1 b2 : List Nat) (h : agree_low b1 b2) (off : Nat)
    (hoff : off + 4 ≤ 0x188) : rd32 b1 off = rd32 b2 off :=
  rd32_congr _ _ _ _ (fun i hi => h.2 (off + i) (by omega))

theorem agree_low_txx_cfg_byte0 (b1 b2 : List Nat) (a b c d : Nat) (h : agree_low b1 b2) :
    agree_low (txx_cfg_byte0 b1 0x7c a b c d) (txx_cfg_byte0 b2 0x7c a b c d) := by
  have e := h.2 (0x7c + 0) (by decide)
  unfold txx_cfg_byte0
  simp only [e]
  exact agree_low_wr8 _ _ _ _ (agree_low_wr8 _ _ _ _ (agree_low_wr8 _ _ _ _ h))

theorem agree_low_txx_cfg_byte1 (b1 b2 : List Nat) (a b c : Nat) (h : agree_low b1 b2) :
    agree_low (txx_cfg_byte1 b1 0x7c a b c) (txx_cfg_byte1 b2 0x7c a b c) := by
  have e := h.2 (0x7c + 1) (by decide)
  unfold txx_cfg_byte1
  simp only [e]
  split
  · exact agree_low_wr8 _ _ _ _ (agree_low_wr8 _ _ _ _ h)
  · exact agree_low_wr8 _ _ _ _ (agree_low_wr8 _ _ _ _ (agree_low_wr8 _ _ _ _ h))

theorem agree_low_txx_cfg_byte2 (b1 b2 : List Nat) (a b : Nat) (h : agree_low b1 b2) :
    agree_low (txx_cfg_byte2 b1 0x7c a b) (txx_cfg_byte2 b2 0x7c a b) := by
  have e := h.2 (0x7c + 2) (by decide)
  unfold txx_cfg_byte2
  simp only [e]
  exact agree_low_wr8 _ _ _ _ (agree_low_wr8 _ _ _ _ h)

theorem agree_low_txx_cfg_type (b1 b2 : List Nat) (a b : Nat) (h : agree_low b1 b2) :
    agree_low (txx_cfg_type b1 0x7c a b) (txx_cfg_type b2 0x7c a b) := by
  unfold txx_cfg_type
  split_ifs
  · exact agree_low_wr8 _ _ _ _ h
  · exact agree_low_wr8 _ _ _ _ h
  · exact agree_low_wr8 _ _ _ _ h
  · exact agree_low_wr8 _ _ _ _ h
  · exact h

theorem agree_low_txx_cfg_byte3 (b1 b2 : List Nat) (a b c d e f : Nat) (h : agree_low b1 b2) :
    agree_low (txx_cfg_byte3 b1 0x7c a b c d e f) (txx_cfg_byte3 b2 0x7c a b c d e f) := by
  unfold txx_cfg_byte3
  split
  · exact agree_low_wr8 _ _ _ _ (agree_low_wr8 _ _ _ _ h)
  · exact agree_low_wr8 _ _ _ _ (agree_low_wr8 _ _ _ _ h)

theorem agree_low_txx_ctrl_stage (o1 o2 : List Nat) (h : agree_low o1 o2) :
    agree_low (txx_ctrl_stage o1) (txx_ctrl_stage o2) := by
  unfold txx_ctrl_stage
  simp only []
  have hp : ∀ off, off + 4 ≤ 0x188 → rd32 o1 off = rd32 o2 off := agree_low_rd32 o1 o2 h
  simp (disch := omega) only [hp]
  have h0 := agree_low_memset0 o1 o2 0x7c 80 h
  have h1 := agree_low_txx_cfg_byte0 _ _ (rd32 o2 (0x118 + 4 * 4)) (rd32 o2 (0x118 + 4 * 3))
    (rd32 o2 (0x118 + 4 * 0xd)) (rd32 o2 (0x118 + 4 * 5)) h0
  have h2 := agree_low_txx_cfg_byte1 _ _ (rd32 o2 (0x118 + 4 * 3)) (rd32 o2 (0x118 + 4 * 10))
    (rd32 o2 (0x118 + 4 * 9)) h1
  have h3 := agree_low_txx_cfg_byte2 _ _ (rd32 o2 (0x118 + 4 * 0xd)) (rd32 o2 (0x118 + 4 * 8)) h2
  have e := h3.2 (0x7c + 2) (by decide)
  rw [e]
  exact agree_low_wr32 _ _ _ _ (agree_low_txx_cfg_byte3 _ _ _ _ _ _ _ _
    (agree_low_txx_cfg_type _ _ _ _ h3))

theorem agree_low_ddr_generate_ddrc_txx_ddr2 (c1 c2 : ddr_config_t) (o1 o2 : List Nat)
    (h : agree_low o1 o2) :
    agree_low (ddr_generate_ddrc_txx_ddr2 c1 o1).2 (ddr_generate_ddrc_txx_ddr2 c2 o2).2 := by
  rw [ddr_generate_ddrc_txx_ddr2_eq, ddr_generate_ddrc_txx_ddr2_eq]
  have hs := agree_low_txx_ctrl_stage o1 o2 h
  rw [agree_low_rd32 _ _ hs 0x150 (by decide), agree_low_rd32 _ _ hs 0x154 (by decide)]
  exact agree_low_wr32 _ _ _ _ (agree_low_wr32 _ _ _ _ hs)

theorem rd8_wr32_outside2 (b1 b2 : List Nat) (off v1 v2 j : Nat) (hj : j < off ∨ off + 4 ≤ j)
    (h : rd8 b1 j = rd8 b2 j) : rd8 (wr32 b1 off v1) j = rd8 (wr32 b2 off v2) j := by
  rw [rd8_wr32_outside _ _ _ _ hj, rd8_wr32_outside _ _ _ _ hj, h]

/-- Two configurations that agree on type, geometry, data width, `tWL` and
`tREFI` give scratch objects that agree below 0x188 and from 0x1c0 up to 0x22c:
the other fields are stored in between, or above. -/
theorem ddr_init_object_buffer_agree (c1 c2 : ddr_config_t) (obj o1 o2 : List Nat)
    (h1 : ddr_init_object_buffer c1 obj = some o1)
    (h2 : ddr_init_object_buffer c2 obj = some o2)
    (htype : c1.type = c2.type) (hrow : c1.row_bits = c2.row_bits)
    (hcol : c1.col_bits = c2.col_bits) (hdw : c1.data_width = c2.data_width)
    (htwl : c1.tWL = c2.tWL) (htrefi : c1.tREFI = c2.tREFI) :
    o1.length = o2.length ∧
    ∀ j, (j < 0x188 ∨ (0x1c0 ≤ j ∧ j < 0x22c)) → rd8 o1 j = rd8 o2 j := by
  unfold ddr_init_object_buffer at h1 h2
  split at h1
  · exact absurd h1 (by simp)
  split at h2
  · exact absurd h2 (by simp)
  simp only [Option.some.injEq] at h1 h2
  rw [← h1, ← h2]
  simp only [← htype, ← hrow, ← hcol, ← hdw, ← htwl, ← htrefi]
  refine ⟨by simp only [length_wr32], fun j hj => ?_⟩
  repeat first
    | refine rd8_wr32_outside2 _ _ _ _ _ _ (by omega) ?_
    | refine rd8_wr32_congr _ _ _ _ _ (by simp only [length_wr32]) ?_
  rfl

theorem ddr_convert_param_offsets_visible :
    ∀ k : Fin 31, ddr_convert_param_offsets.getD k.val 0 + 4 ≤ 0x188 ∨
      (0x1c0 ≤ ddr_convert_param_offsets.getD k.val 0 ∧
        ddr_convert_param_offsets.getD k.val 0 + 4 ≤ 0x22c) := by
  decide

theorem ddrc_scratch_agree (c1 c2 : ddr_config_t) (o1 o2 : List Nat)
    (htype : c1.type = c2.type) (hl : o1.length = o2.length)
    (h : ∀ j, (j < 0x188 ∨ (0x1c0 ≤ j ∧ j < 0x22c)) → rd8 o1 j = rd8 o2 j) (j : Nat)
    (hj : j < 0x188 ∨ (0x1c0 ≤ j ∧ j < 0x22c)) :
    rd8 (ddrc_scratch c1 o1) j = rd8 (ddrc_scratch c2 o2) j := by
  unfold ddrc_scratch
  by_cases ht : c1.type = DDR_TYPE_DDR2
  · rw [if_pos ht, if_pos (htype ▸ ht)]
    rcases hj with hlow | hhigh
    · exact (agree_low_ddr_generate_ddrc_txx_ddr2 c1 c2 o1 o2
        ⟨hl, fun i hi => h i (Or.inl hi)⟩).2 j hlow
    · rw [rd8_ddr_generate_ddrc_txx_ddr2_outside _ _ _ (by omega),
        rd8_ddr_generate_ddrc_txx_ddr2_outside _ _ _ (by omega)]
      exact h j (Or.inr hhigh)
  · rw [if_neg ht, if_neg (htype ▸ ht)]
    exact h j hj

/-- C37. For any two configurations with a nonzero clock (32-bit values) that
agree on type, `row_bits`, `col_bits`, `data_width`, `tWL` and `tREFI`,
`ddr_init_object_buffer` on a zeroed scratch object followed by
`ddr_generate_ddrc_with_object` succeeds for both and produces identical
188-byte controller blocks, whatever the other fields of the two configurations
and the prior contents of the two output buffers are. -/
theorem ddr_generate_ddrc_with_object_noninterference (c1 c2 : ddr_config_t)
    (mem1 mem2 : List Nat) (ddrc_regs : Nat)
    (hclk1 : 0 < c1.clock_mhz) (hclk1' : c1.clock_mhz < 2 ^ 32)
    (hclk2 : 0 < c2.clock_mhz) (hclk2' : c2.clock_mhz < 2 ^ 32)
    (htype : c1.type = c2.type) (hrow : c1.row_bits = c2.row_bits)
    (hcol : c1.col_bits = c2.col_bits) (hdw : c1.data_width = c2.data_width)
    (htwl : c1.tWL = c2.tWL) (htrefi : c1.tREFI = c2.tREFI)
    (hroom1 : ddrc_regs + 188 ≤ mem1.length) (hroom2 : ddrc_regs + 188 ≤ mem2.length) :
    ∃ o1 o2, ddr_init_object_buffer c1 scratch_zero = some o1 ∧
      ddr_init_object_buffer c2 scratch_zero = some o2 ∧
      (ddr_generate_ddrc_with_object c1 (some o1) mem1 ddrc_regs).1 = 0 ∧
      (ddr_generate_ddrc_with_object c2 (some o2) mem2 ddrc_regs).1 = 0 ∧
      ∀ k, k < 188 →
        rd8 (ddr_generate_ddrc_with_object c1 (some o1) mem1 ddrc_regs).2.2 (ddrc_regs + k)
          = rd8 (ddr_generate_ddrc_with_object c2 (some o2) mem2 ddrc_regs).2.2
              (ddrc_regs + k) := by
  obtain ⟨o1, ho1, _⟩ := ddr_init_object_buffer_words c1 scratch_zero length_scratch_zero
    (by rw [Nat.mod_eq_of_lt hclk1']; omega)
  obtain ⟨o2, ho2, _⟩ := ddr_init_object_buffer_words c2 scratch_zero length_scratch_zero
    (by rw [Nat.mod_eq_of_lt hclk2']; omega)
  obtain ⟨hl, hag⟩ := ddr_init_object_buffer_agree c1 c2 scratch_zero o1 o2 ho1 ho2 htype hrow
    hcol hdw htwl htrefi
  refine ⟨o1, o2, ho1, ho2, ?_, ?_, fun k hk => ?_⟩
  · rw [ddr_generate_ddrc_with_object_some]
  · rw [ddr_generate_ddrc_with_object_some]
  rw [ddr_generate_ddrc_with_object_some, ddr_generate_ddrc_with_object_some]
  simp only []
  rw [rd8_ddr_convert_param _ _ _ (by rw [length_memset0]; omega),
    rd8_ddr_convert_param _ _ _ (by rw [length_memset0]; omega)]
  by_cases h124 : k < 124
  · have e : ddrc_regs ≤ ddrc_regs + k ∧ ddrc_regs + k < ddrc_regs + 124 := by omega
    rw [if_pos e, if_pos e]
    have hq : (ddrc_regs + k - ddrc_regs) / 4 < 31 := by omega
    have hv := ddr_convert_param_offsets_visible ⟨(ddrc_regs + k - ddrc_regs) / 4, hq⟩
    simp only [] at hv
    rw [rd32_congr (ddrc_scratch c1 o1) (ddrc_scratch c2 o2) _ _
      (fun i hi => ddrc_scratch_agree c1 c2 o1 o2 htype hl hag _ (by omega))]
  · have e : ¬ (ddrc_regs ≤ ddrc_regs + k ∧ ddrc_regs + k < ddrc_regs + 124) := by omega
    rw [if_neg e, if_neg e, rd8_memset0, rd8_memset0]
    have e1 : ddrc_regs ≤ ddrc_regs + k ∧ ddrc_regs + k < ddrc_regs + 0xbc
        ∧ ddrc_regs + k < mem1.length := by omega
    have e2 : ddrc_regs ≤ ddrc_regs + k ∧ ddrc_regs + k < ddrc_regs + 0xbc
        ∧ ddrc_regs + k < mem2.length := by omega
    rw [if_pos e1, if_pos e2]

/-- Witness for C37: the reference configuration and its variant with
`tCKE = 0` and `tXP = 1000`, with the controller block at offset 8 of two
different output buffers; the first byte of the two blocks is the same. -/
theorem ddr_generate_ddrc_with_object_noninterference_witness :
    0 < reference_config.clock_mhz ∧ reference_config.clock_mhz < 2 ^ 32 ∧
    0 < config_out_of_range.clock_mhz ∧ config_out_of_range.clock_mhz < 2 ^ 32 ∧
    reference_config.type = config_out_of_range.type ∧
    reference_config.row_bits = config_out_of_range.row_bits ∧
    reference_config.col_bits = config_out_of_range.col_bits ∧
    reference_config.data_width = config_out_of_range.data_width ∧
    reference_config.tWL = config_out_of_range.tWL ∧
    reference_config.tREFI = config_out_of_range.tREFI ∧
    reference_config.tXP ≠ config_out_of_range.tXP ∧
    8 + 188 ≤ buffer_aa.length ∧ 8 + 188 ≤ buffer_55.length ∧
    rd8 (ddr_generate_ddrc_with_object reference_config
          (some ((ddr_init_object_buffer reference_config scratch_zero).getD [])) buffer_aa
          8).2.2 (8 + 0)
      = rd8 (ddr_generate_ddrc_with_object config_out_of_range
          (some ((ddr_init_object_buffer config_out_of_range scratch_zero).getD [])) buffer_55
          8).2.2 (8 + 0) := by
  have hroom1 : 8 + 188 ≤ buffer_aa.length := by rw [length_buffer_aa]; decide
  have hroom2 : 8 + 188 ≤ buffer_55.length := by rw [length_buffer_55]; decide
  obtain ⟨o1, o2, ho1, ho2, _, _, hk⟩ := ddr_generate_ddrc_with_object_noninterference
    reference_config config_out_of_range buffer_aa buffer_55 8 (by decide) (by decide)
    (by decide) (by decide) rfl rfl rfl rfl rfl rfl hroom1 hroom2
  refine ⟨by decide, by decide, by decide, by decide, rfl, rfl, rfl, rfl, rfl, rfl, by decide,
    hroom1, hroom2, ?_⟩
  rw [ho1, ho2]
  exact hk 0 (by decide)

end Thingino
